import Mathlib

/-!
Verification development for the integer-lane MSA (MIPS SIMD Architecture)
helper library of a QEMU-based MIPS emulator (`target-mips/msa_helper.c`).

The embedding models a 128-bit vector register as a natural number below
`2 ^ 128`, with lane `i` at data format `df` occupying bits
`[DF_BITS df * i, DF_BITS df * (i + 1))` (little-endian lane order, exactly
the layout of the C `wr_t` union on the emulator's host).  CPU state carries
the 32 vector registers, the 32 general-purpose registers, the
write-protection flag and the `msamodify` bitmap.  C `int64_t` values are
modelled as `Int` (with explicit wrapping through `toS64`/`toU64` where the C
converts between `int64_t` and `uint64_t`), C `uint64_t` values as `Nat`.
Helpers that can reach `helper_raise_exception` (through `msa_check_index`)
or the unreachable `assert(0)` default branches return `Option CPUState`,
with `none` marking the raising path.
-/

set_option maxHeartbeats 1600000
set_option maxRecDepth 16000

namespace MsaHelper

/-- Width in bits of a whole vector register (`MSA_WRLEN`): 128. -/
def MSA_WRLEN : Nat := 128

/-- Lane width in bits: `DF_BITS(df) = 1 << (df + 3)`. -/
def DF_BITS (df : Nat) : Nat := 1 <<< (df + 3)

/-- Lanes per register: `DF_ELEMENTS(df, MSA_WRLEN) = MSA_WRLEN / DF_BITS(df)`. -/
def DF_ELEMENTS (df : Nat) : Nat := MSA_WRLEN / DF_BITS df

/-- Largest signed lane value: `(1LL << (DF_BITS(df) - 1)) - 1`. -/
def DF_MAX_INT (df : Nat) : Int := 2 ^ (DF_BITS df - 1) - 1

/-- Smallest signed lane value: `-(1LL << (DF_BITS(df) - 1))`. -/
def DF_MIN_INT (df : Nat) : Int := -(2 ^ (DF_BITS df - 1))

/-- `M_MAX_INT(m) = (1LL << (m - 1)) - 1`. -/
def M_MAX_INT (m : Nat) : Int := 2 ^ (m - 1) - 1

/-- `M_MIN_INT(m) = -(1LL << (m - 1))`. -/
def M_MIN_INT (m : Nat) : Int := -(2 ^ (m - 1))

/-- Largest unsigned lane value: `-1ULL >> (64 - DF_BITS(df)) = 2 ^ W - 1`. -/
def DF_MAX_UINT (df : Nat) : Nat := 2 ^ DF_BITS df - 1

/-- `M_MAX_UINT(m) = -1ULL >> (64 - m) = 2 ^ m - 1`. -/
def M_MAX_UINT (m : Nat) : Nat := 2 ^ m - 1

/-- Two's-complement pattern of an `int64_t` value, as a natural number. -/
def toU64 (x : Int) : Nat := (x.emod (2 ^ 64)).toNat

/-- Sign extension of the low `w` bits of a two's-complement pattern. -/
def sext (w : Nat) (x : Int) : Int :=
  let r := x.emod (2 ^ w)
  if r < 2 ^ (w - 1) then r else r - 2 ^ w

/-- Value of a 64-bit pattern reinterpreted as `int64_t` (C cast `uint64_t` → `int64_t`). -/
def toS64 (x : Int) : Int := sext 64 x

/-- `BIT_POSITION(x, df) = (uint64_t)(x) % DF_BITS(df)`. -/
def BIT_POSITION (x : Int) (df : Nat) : Nat := toU64 x % DF_BITS df

/-- `UNSIGNED(x, df) = x & DF_MAX_UINT(df)`: the low `W` bits of the pattern of `x`. -/
def UNSIGNED (x : Int) (df : Nat) : Nat := (x.emod (2 ^ DF_BITS df)).toNat

/-- `UNSIGNED` applied to a value that is already a `uint64_t` in the C source. -/
def UNSIGNEDN (x : Nat) (df : Nat) : Nat := x &&& DF_MAX_UINT df

/-- `SIGNED(x, df)`: sign-extend the low `W` bits of `x` to 64 bits. -/
def SIGNED (x : Int) (df : Nat) : Int := sext (DF_BITS df) x

/-- `SIGNED_EVEN(a, df)`: sign-extended low half (`W/2` bits) of a lane. -/
def SIGNED_EVEN (a : Int) (df : Nat) : Int := sext (DF_BITS df / 2) a

/-- `SIGNED_ODD(a, df)`: the upper half of the low `W` bits, sign-extended
(`((a << (64 - W)) >> (64 - W/2))` in the C source). -/
def SIGNED_ODD (a : Int) (df : Nat) : Int := sext (DF_BITS df) a >>> ((DF_BITS df / 2 : Nat) : Int)

/-- `UNSIGNED_EVEN(a, df)`: zero-extended low half of a lane. -/
def UNSIGNED_EVEN (a : Int) (df : Nat) : Int := ((a.emod (2 ^ (DF_BITS df / 2))).toNat : Int)

/-- `UNSIGNED_ODD(a, df)`: zero-extended upper half of the low `W` bits. -/
def UNSIGNED_ODD (a : Int) (df : Nat) : Int :=
  (((a.emod (2 ^ DF_BITS df)).toNat >>> (DF_BITS df / 2) : Nat) : Int)

/-- Lane `i` (format `df`) of a register value, as the `W`-bit pattern
(the typed array reads `B`/`H`/`W`/`D` of the `wr_t` union). -/
def lane_get (df : Nat) (v : Nat) (i : Nat) : Nat :=
  (v >>> (DF_BITS df * i)) % 2 ^ DF_BITS df

/-- Write the low `W` bits of `x` into lane `i` of a register value,
leaving every other lane untouched. -/
def lane_set (df : Nat) (v : Nat) (i : Nat) (x : Nat) : Nat :=
  (v >>> (DF_BITS df * i + DF_BITS df)) <<< (DF_BITS df * i + DF_BITS df) +
    (x % 2 ^ DF_BITS df) <<< (DF_BITS df * i) + v % 2 ^ (DF_BITS df * i)

/-- Build a register value by writing lanes `0, …, cnt-1` in order;
models the C loops that fill the whole scratch vector `wx`. -/
def fill_lanes (df : Nat) (cnt : Nat) (g : Nat → Nat) : Nat :=
  (List.range cnt).foldl (fun a i => lane_set df a i (g i)) 0

/-- CPU state visible to the MSA helpers: the bank of 32 vector registers
(`env->active_fpu.fpr[i].wr`), the general-purpose registers
(`env->active_tc.gpr`), the write-protection flag and the modified-register
bitmap (`env->active_msa.msamodify`).  The flag `wrp` models
`(env->active_msa.msair & MSAIR_WRP_BIT) != 0`; the bit position of
`MSAIR_WRP_BIT` lives in `cpu.h`, outside the translated file, so only the
Boolean value is represented. -/
structure CPUState where
  fpr : Fin 32 → Nat
  gpr : Fin 32 → Nat
  wrp : Bool
  msamodify : Nat

/-- Bounds check of `msa_check_index`: `true` means in range, `false` marks
the `helper_raise_exception(env, EXCP_RI)` calls (and the `assert(0)` default
for a data format outside `{0,1,2,3}`). -/
def msa_check_index (df n : Nat) : Bool :=
  match df with
  | 0 => !(decide (n > MSA_WRLEN / 8 - 1))
  | 1 => !(decide (n > MSA_WRLEN / 16 - 1))
  | 2 => !(decide (n > MSA_WRLEN / 32 - 1))
  | 3 => !(decide (n > MSA_WRLEN / 64 - 1))
  | _ => false

/-- `msa_load_wr_elem_i64`: zero-extended load of lane `i` of register `wreg`. -/
def msa_load_wr_elem_i64 (env : CPUState) (wreg : Fin 32) (df i : Nat) : Option Nat :=
  let i := i % DF_ELEMENTS df
  if msa_check_index df i then some (lane_get df (env.fpr wreg) i) else none

/-- `msa_load_wr_elem_s64`: sign-extended load of lane `i` of register `wreg`. -/
def msa_load_wr_elem_s64 (env : CPUState) (wreg : Fin 32) (df i : Nat) : Option Int :=
  let i := i % DF_ELEMENTS df
  if msa_check_index df i then some (SIGNED ((lane_get df (env.fpr wreg) i : Nat) : Int) df)
  else none

/-- `msa_store_wr_elem`: write the low `W` bits of the `uint64_t` pattern
`val` into lane `i` of register `wreg`. -/
def msa_store_wr_elem (env : CPUState) (val : Nat) (wreg : Fin 32) (df i : Nat) :
    Option CPUState :=
  let i := i % DF_ELEMENTS df
  if msa_check_index df i then
    some { env with fpr := Function.update env.fpr wreg (lane_set df (env.fpr wreg) i val) }
  else none

/-- The trailing fragment of every helper:
`if (env->active_msa.msair & MSAIR_WRP_BIT) env->active_msa.msamodify |= (1 << wd);`. -/
def wrp_update (env : CPUState) (wd : Fin 32) : CPUState :=
  if env.wrp then { env with msamodify := env.msamodify ||| (1 <<< (wd : Nat)) } else env

/-- The per-element loop `for (i = 0; i < N; i++) …` shared by all wrapper
helpers: iteration `i = 0` runs first, each iteration may raise. -/
def msa_loop (step : CPUState → Nat → Option CPUState) : Nat → CPUState → Option CPUState
  | 0, env => some env
  | n + 1, env =>
    match msa_loop step n env with
    | some e => step e n
    | none => none

/-- The loop bound `MSA_WRLEN / df_bits` with `df_bits = 8 * (1 << df)`. -/
def loop_count (df : Nat) : Nat := MSA_WRLEN / (8 * (1 <<< df))

/-- Loop body of a two-operand helper with sign-extended loads. -/
def step_2s (kernel : Nat → Int → Int → Int) (df : Nat) (wd ws wt : Fin 32)
    (env : CPUState) (i : Nat) : Option CPUState :=
  match msa_load_wr_elem_s64 env ws df i, msa_load_wr_elem_s64 env wt df i with
  | some ts, some tt => msa_store_wr_elem env (toU64 (kernel df ts tt)) wd df i
  | _, _ => none

/-- Two-operand wrapper with sign-extended loads. -/
def msa_helper_2s (kernel : Nat → Int → Int → Int) (env : CPUState) (df : Nat)
    (wd ws wt : Fin 32) : Option CPUState :=
  match msa_loop (step_2s kernel df wd ws wt) (loop_count df) env with
  | some e => some (wrp_update e wd)
  | none => none

/-- Loop body of a two-operand helper with zero-extended loads feeding a
kernel whose C parameters are `uint64_t`. -/
def step_2u (kernel : Nat → Int → Int → Int) (df : Nat) (wd ws wt : Fin 32)
    (env : CPUState) (i : Nat) : Option CPUState :=
  match msa_load_wr_elem_i64 env ws df i, msa_load_wr_elem_i64 env wt df i with
  | some ts, some tt => msa_store_wr_elem env (toU64 (kernel df (ts : Int) (tt : Int))) wd df i
  | _, _ => none

/-- Two-operand wrapper with zero-extended loads, `uint64_t` kernel parameters. -/
def msa_helper_2u (kernel : Nat → Int → Int → Int) (env : CPUState) (df : Nat)
    (wd ws wt : Fin 32) : Option CPUState :=
  match msa_loop (step_2u kernel df wd ws wt) (loop_count df) env with
  | some e => some (wrp_update e wd)
  | none => none

/-- Loop body of a two-operand helper with zero-extended loads feeding a
kernel whose C parameters are `int64_t` (implicit `uint64_t` → `int64_t`
conversion at the call). -/
def step_2us (kernel : Nat → Int → Int → Int) (df : Nat) (wd ws wt : Fin 32)
    (env : CPUState) (i : Nat) : Option CPUState :=
  match msa_load_wr_elem_i64 env ws df i, msa_load_wr_elem_i64 env wt df i with
  | some ts, some tt =>
    msa_store_wr_elem env (toU64 (kernel df (toS64 (ts : Int)) (toS64 (tt : Int)))) wd df i
  | _, _ => none

/-- Two-operand wrapper, zero-extended loads, `int64_t` kernel parameters. -/
def msa_helper_2us (kernel : Nat → Int → Int → Int) (env : CPUState) (df : Nat)
    (wd ws wt : Fin 32) : Option CPUState :=
  match msa_loop (step_2us kernel df wd ws wt) (loop_count df) env with
  | some e => some (wrp_update e wd)
  | none => none

/-- Loop body of an immediate-form helper with a sign-extended load of `ws`
and an `int64_t` second operand. -/
def step_1s (kernel : Nat → Int → Int → Int) (imm : Int) (df : Nat) (wd ws : Fin 32)
    (env : CPUState) (i : Nat) : Option CPUState :=
  match msa_load_wr_elem_s64 env ws df i with
  | some ts => msa_store_wr_elem env (toU64 (kernel df ts imm)) wd df i
  | none => none

/-- Immediate-form wrapper, sign-extended load, `int64_t` immediate. -/
def msa_helper_1s (kernel : Nat → Int → Int → Int) (imm : Int) (env : CPUState) (df : Nat)
    (wd ws : Fin 32) : Option CPUState :=
  match msa_loop (step_1s kernel imm df wd ws) (loop_count df) env with
  | some e => some (wrp_update e wd)
  | none => none

/-- Loop body of an immediate-form helper with a sign-extended load and a
`uint32_t` bit-count operand `m`. -/
def step_1sm (kernel : Nat → Int → Nat → Int) (m : Nat) (df : Nat) (wd ws : Fin 32)
    (env : CPUState) (i : Nat) : Option CPUState :=
  match msa_load_wr_elem_s64 env ws df i with
  | some ts => msa_store_wr_elem env (toU64 (kernel df ts m)) wd df i
  | none => none

/-- Immediate-form wrapper, sign-extended load, `uint32_t` bit count. -/
def msa_helper_1sm (kernel : Nat → Int → Nat → Int) (m : Nat) (env : CPUState) (df : Nat)
    (wd ws : Fin 32) : Option CPUState :=
  match msa_loop (step_1sm kernel m df wd ws) (loop_count df) env with
  | some e => some (wrp_update e wd)
  | none => none

/-- Loop body of an immediate-form helper with a zero-extended load feeding
an `int64_t` kernel parameter, and an `int64_t` immediate. -/
def step_1u (kernel : Nat → Int → Int → Int) (imm : Int) (df : Nat) (wd ws : Fin 32)
    (env : CPUState) (i : Nat) : Option CPUState :=
  match msa_load_wr_elem_i64 env ws df i with
  | some ts => msa_store_wr_elem env (toU64 (kernel df (toS64 (ts : Int)) imm)) wd df i
  | none => none

/-- Immediate-form wrapper, zero-extended load. -/
def msa_helper_1u (kernel : Nat → Int → Int → Int) (imm : Int) (env : CPUState) (df : Nat)
    (wd ws : Fin 32) : Option CPUState :=
  match msa_loop (step_1u kernel imm df wd ws) (loop_count df) env with
  | some e => some (wrp_update e wd)
  | none => none

/-- Loop body of an immediate-form helper with a zero-extended load and a
`uint32_t` bit-count operand. -/
def step_1um (kernel : Nat → Int → Nat → Int) (m : Nat) (df : Nat) (wd ws : Fin 32)
    (env : CPUState) (i : Nat) : Option CPUState :=
  match msa_load_wr_elem_i64 env ws df i with
  | some ts => msa_store_wr_elem env (toU64 (kernel df (toS64 (ts : Int)) m)) wd df i
  | none => none

/-- Immediate-form wrapper, zero-extended load, `uint32_t` bit count. -/
def msa_helper_1um (kernel : Nat → Int → Nat → Int) (m : Nat) (env : CPUState) (df : Nat)
    (wd ws : Fin 32) : Option CPUState :=
  match msa_loop (step_1um kernel m df wd ws) (loop_count df) env with
  | some e => some (wrp_update e wd)
  | none => none

/-- Loop body of a three-operand helper (`kernel df dest arg1 arg2` with the
previous destination lane loaded sign-extended). -/
def step_3s (kernel : Nat → Int → Int → Int → Int) (df : Nat) (wd ws wt : Fin 32)
    (env : CPUState) (i : Nat) : Option CPUState :=
  match msa_load_wr_elem_s64 env ws df i, msa_load_wr_elem_s64 env wt df i,
      msa_load_wr_elem_s64 env wd df i with
  | some ts, some tt, some td => msa_store_wr_elem env (toU64 (kernel df td ts tt)) wd df i
  | _, _, _ => none

/-- Three-operand wrapper with sign-extended loads. -/
def msa_helper_3s (kernel : Nat → Int → Int → Int → Int) (env : CPUState) (df : Nat)
    (wd ws wt : Fin 32) : Option CPUState :=
  match msa_loop (step_3s kernel df wd ws wt) (loop_count df) env with
  | some e => some (wrp_update e wd)
  | none => none

/-- Loop body of a three-operand helper with zero-extended source loads
(`dpadd_u`, `dpsub_u`): sources through `msa_load_wr_elem_i64`, destination
through `msa_load_wr_elem_s64`. -/
def step_3u (kernel : Nat → Int → Int → Int → Int) (df : Nat) (wd ws wt : Fin 32)
    (env : CPUState) (i : Nat) : Option CPUState :=
  match msa_load_wr_elem_i64 env ws df i, msa_load_wr_elem_i64 env wt df i,
      msa_load_wr_elem_s64 env wd df i with
  | some ts, some tt, some td =>
    msa_store_wr_elem env (toU64 (kernel df td (toS64 (ts : Int)) (toS64 (tt : Int)))) wd df i
  | _, _, _ => none

/-- Three-operand wrapper with zero-extended source loads. -/
def msa_helper_3u (kernel : Nat → Int → Int → Int → Int) (env : CPUState) (df : Nat)
    (wd ws wt : Fin 32) : Option CPUState :=
  match msa_loop (step_3u kernel df wd ws wt) (loop_count df) env with
  | some e => some (wrp_update e wd)
  | none => none

/-- Loop body of the immediate bit-insert helpers (`binsli`, `binsri`):
source and previous destination loaded sign-extended, immediate `m`. -/
def step_2sd (kernel : Nat → Int → Int → Int → Int) (m : Int) (df : Nat) (wd ws : Fin 32)
    (env : CPUState) (i : Nat) : Option CPUState :=
  match msa_load_wr_elem_s64 env ws df i, msa_load_wr_elem_s64 env wd df i with
  | some ts, some td => msa_store_wr_elem env (toU64 (kernel df td ts m)) wd df i
  | _, _ => none

/-- Immediate bit-insert wrapper. -/
def msa_helper_2sd (kernel : Nat → Int → Int → Int → Int) (m : Int) (env : CPUState)
    (df : Nat) (wd ws : Fin 32) : Option CPUState :=
  match msa_loop (step_2sd kernel m df wd ws) (loop_count df) env with
  | some e => some (wrp_update e wd)
  | none => none

/-- Wrapper shape of the two-source shuffle helpers (`ilvev` … `pckod`): the
kernel computes the whole new destination value from the two source register
values (the C kernels accumulate into the scratch `wr_t wx` and commit it
with `msa_move_v` after all reads). -/
def msa_helper_www (K : Nat → Nat → Nat → Option Nat) (env : CPUState) (df : Nat)
    (wd ws wt : Fin 32) : Option CPUState :=
  match K df (env.fpr ws) (env.fpr wt) with
  | some x => some (wrp_update { env with fpr := Function.update env.fpr wd x } wd)
  | none => none

/-- Wrapper shape of `vshf`, whose kernel also reads the previous destination
register (the lane selectors). -/
def msa_helper_dww (K : Nat → Nat → Nat → Nat → Option Nat) (env : CPUState) (df : Nat)
    (wd ws wt : Fin 32) : Option CPUState :=
  match K df (env.fpr wd) (env.fpr ws) (env.fpr wt) with
  | some x => some (wrp_update { env with fpr := Function.update env.fpr wd x } wd)
  | none => none

/-- Wrapper shape of `shf`: one source register and an immediate. -/
def msa_helper_wi (K : Nat → Nat → Nat → Option Nat) (env : CPUState) (df : Nat)
    (wd ws : Fin 32) (imm : Nat) : Option CPUState :=
  match K df (env.fpr ws) imm with
  | some x => some (wrp_update { env with fpr := Function.update env.fpr wd x } wd)
  | none => none

/-- Wrapper shape of `splat`: one source register and the *value* of
general-purpose register `rt` (`env->active_tc.gpr[rt]`). -/
def msa_helper_wg (K : Nat → Nat → Nat → Option Nat) (env : CPUState) (df : Nat)
    (wd ws : Fin 32) (rt : Fin 32) : Option CPUState :=
  match K df (env.fpr ws) (env.gpr rt) with
  | some x => some (wrp_update { env with fpr := Function.update env.fpr wd x } wd)
  | none => none

/-- Wrapper shape of `sld`: previous destination, one source register and the
value of general-purpose register `rt`. -/
def msa_helper_dwg (K : Nat → Nat → Nat → Nat → Option Nat) (env : CPUState) (df : Nat)
    (wd ws : Fin 32) (rt : Fin 32) : Option CPUState :=
  match K df (env.fpr wd) (env.fpr ws) (env.gpr rt) with
  | some x => some (wrp_update { env with fpr := Function.update env.fpr wd x } wd)
  | none => none

/-- Wrapper shape of the byte-wise logical immediates (`andi.b` … `xori.b`):
every output byte is a function of the matching source byte and the
immediate; each byte is read before it is written in the C loop, so the new
register value is a function of the initial register values. -/
def msa_helper_bw (f : Nat → Nat → Nat) (env : CPUState) (wd ws : Fin 32) (i8 : Nat) :
    CPUState :=
  let pws := env.fpr ws
  let v := (List.range (MSA_WRLEN / 8)).foldl
    (fun a i => lane_set 0 a i (f (lane_get 0 pws i) i8)) (env.fpr wd)
  wrp_update { env with fpr := Function.update env.fpr wd v } wd

/-- Wrapper shape of the byte-wise select immediates (`bmnzi.b`, `bmzi.b`,
`bseli.b`), whose output bytes also depend on the previous destination byte. -/
def msa_helper_bdw (f : Nat → Nat → Nat → Nat) (env : CPUState) (wd ws : Fin 32) (i8 : Nat) :
    CPUState :=
  let pwd := env.fpr wd
  let pws := env.fpr ws
  let v := (List.range (MSA_WRLEN / 8)).foldl
    (fun a i => lane_set 0 a i (f (lane_get 0 pwd i) (lane_get 0 pws i) i8)) (env.fpr wd)
  wrp_update { env with fpr := Function.update env.fpr wd v } wd

/-! ### Per-lane scalar kernels, translated one-for-one from the C source. -/

/-- `msa_add_a_df`. -/
def msa_add_a_df (_df : Nat) (arg1 arg2 : Int) : Int :=
  let abs_arg1 : Nat := if 0 ≤ arg1 then arg1.toNat else (-arg1).toNat
  let abs_arg2 : Nat := if 0 ≤ arg2 then arg2.toNat else (-arg2).toNat
  toS64 ((abs_arg1 : Int) + (abs_arg2 : Int))

/-- `msa_adds_a_df`. -/
def msa_adds_a_df (df : Nat) (arg1 arg2 : Int) : Int :=
  let max_int : Nat := (DF_MAX_INT df).toNat
  let abs_arg1 : Nat := if 0 ≤ arg1 then arg1.toNat else (-arg1).toNat
  let abs_arg2 : Nat := if 0 ≤ arg2 then arg2.toNat else (-arg2).toNat
  if abs_arg1 > max_int ∨ abs_arg2 > max_int then (max_int : Int)
  else if abs_arg1 < max_int - abs_arg2 then ((abs_arg1 + abs_arg2 : Nat) : Int)
  else (max_int : Int)

/-- `msa_adds_s_df`. -/
def msa_adds_s_df (df : Nat) (arg1 arg2 : Int) : Int :=
  let max_int := DF_MAX_INT df
  let min_int := DF_MIN_INT df
  if arg1 < 0 then
    if min_int - arg1 < arg2 then arg1 + arg2 else min_int
  else
    if arg2 < max_int - arg1 then arg1 + arg2 else max_int

/-- `msa_adds_u_df` (`uint64_t` arguments and result). -/
def msa_adds_u_df (df : Nat) (arg1 arg2 : Int) : Int :=
  let max_uint := DF_MAX_UINT df
  let u_arg1 := UNSIGNED arg1 df
  let u_arg2 := UNSIGNED arg2 df
  if u_arg1 < max_uint - u_arg2 then ((u_arg1 + u_arg2 : Nat) : Int) else (max_uint : Int)

/-- `msa_subs_s_df`. -/
def msa_subs_s_df (df : Nat) (arg1 arg2 : Int) : Int :=
  let max_int := DF_MAX_INT df
  let min_int := DF_MIN_INT df
  if arg2 > 0 then
    if min_int + arg2 < arg1 then arg1 - arg2 else min_int
  else
    if arg1 < max_int + arg2 then arg1 - arg2 else max_int

/-- `msa_subs_u_df`. -/
def msa_subs_u_df (df : Nat) (arg1 arg2 : Int) : Int :=
  let u_arg1 := UNSIGNED arg1 df
  let u_arg2 := UNSIGNED arg2 df
  if u_arg1 > u_arg2 then toS64 ((u_arg1 - u_arg2 : Nat) : Int) else 0

/-- `msa_subsuu_s_df`. -/
def msa_subsuu_s_df (df : Nat) (arg1 arg2 : Int) : Int :=
  let u_arg1 := UNSIGNED arg1 df
  let u_arg2 := UNSIGNED arg2 df
  let max_int := DF_MAX_INT df
  let min_int := DF_MIN_INT df
  if u_arg1 > u_arg2 then
    if (u_arg1 - u_arg2 : Nat) < max_int.toNat then ((u_arg1 - u_arg2 : Nat) : Int) else max_int
  else
    if (u_arg2 - u_arg1 : Nat) < (-min_int).toNat then toS64 ((u_arg1 : Int) - (u_arg2 : Int))
    else min_int

/-- `msa_subsus_u_df`: the comparisons and sums are `uint64_t` arithmetic,
hence the explicit wrapping. -/
def msa_subsus_u_df (df : Nat) (arg1 arg2 : Int) : Int :=
  let u_arg1 := UNSIGNED arg1 df
  let max_uint := DF_MAX_UINT df
  if 0 ≤ arg2 then
    let u_arg2 := toU64 arg2
    if u_arg1 > u_arg2 then toS64 ((u_arg1 : Int) - (u_arg2 : Int)) else 0
  else
    let u_arg2 := toU64 (-arg2)
    if (u_arg1 : Int) < ((max_uint : Int) - (u_arg2 : Int)).emod (2 ^ 64) then
      toS64 ((u_arg1 : Int) + (u_arg2 : Int))
    else (max_uint : Int)

/-- `msa_asub_s_df`. -/
def msa_asub_s_df (_df : Nat) (arg1 arg2 : Int) : Int :=
  if arg1 < arg2 then toS64 (arg2 - arg1) else toS64 (arg1 - arg2)

/-- `msa_asub_u_df` (`uint64_t` arguments and result). -/
def msa_asub_u_df (df : Nat) (arg1 arg2 : Int) : Int :=
  let u_arg1 := UNSIGNED arg1 df
  let u_arg2 := UNSIGNED arg2 df
  if u_arg1 < u_arg2 then ((u_arg2 - u_arg1 : Nat) : Int) else ((u_arg1 - u_arg2 : Nat) : Int)

/-- `msa_ave_s_df`: `(arg1 >> 1) + (arg2 >> 1) + (arg1 & arg2 & 1)`. -/
def msa_ave_s_df (_df : Nat) (arg1 arg2 : Int) : Int :=
  arg1 >>> (1 : Int) + arg2 >>> (1 : Int) + Int.land (Int.land arg1 arg2) 1

/-- `msa_ave_u_df`. -/
def msa_ave_u_df (df : Nat) (arg1 arg2 : Int) : Int :=
  let u_arg1 := UNSIGNED arg1 df
  let u_arg2 := UNSIGNED arg2 df
  ((u_arg1 >>> 1 + u_arg2 >>> 1 + (u_arg1 &&& u_arg2 &&& 1) : Nat) : Int)

/-- `msa_aver_s_df`: rounds up on odd inputs via `(arg1 | arg2) & 1`. -/
def msa_aver_s_df (_df : Nat) (arg1 arg2 : Int) : Int :=
  arg1 >>> (1 : Int) + arg2 >>> (1 : Int) + Int.land (Int.lor arg1 arg2) 1

/-- `msa_aver_u_df`. -/
def msa_aver_u_df (df : Nat) (arg1 arg2 : Int) : Int :=
  let u_arg1 := UNSIGNED arg1 df
  let u_arg2 := UNSIGNED arg2 df
  ((u_arg1 >>> 1 + u_arg2 >>> 1 + ((u_arg1 ||| u_arg2) &&& 1) : Nat) : Int)

/-- `msa_bclr_df`: clear bit `BIT_POSITION(arg2, df)` of `arg1`. -/
def msa_bclr_df (df : Nat) (arg1 arg2 : Int) : Int :=
  let b_arg2 := BIT_POSITION arg2 df
  toS64 ((UNSIGNED (Int.land arg1 (Int.lnot (2 ^ b_arg2))) df : Nat) : Int)

/-- `msa_bneg_df`: toggle bit `BIT_POSITION(arg2, df)` of `arg1`. -/
def msa_bneg_df (df : Nat) (arg1 arg2 : Int) : Int :=
  let b_arg2 := BIT_POSITION arg2 df
  toS64 ((UNSIGNED (Int.xor arg1 (2 ^ b_arg2)) df : Nat) : Int)

/-- `msa_bset_df`: set bit `BIT_POSITION(arg2, df)` of `arg1`. -/
def msa_bset_df (df : Nat) (arg1 arg2 : Int) : Int :=
  let b_arg2 := BIT_POSITION arg2 df
  toS64 ((UNSIGNED (Int.lor arg1 (2 ^ b_arg2)) df : Nat) : Int)

/-- `msa_binsl_df`: insert the top `BIT_POSITION(arg2, df) + 1` bits of
`arg1` into the top of `dest`. -/
def msa_binsl_df (df : Nat) (dest arg1 arg2 : Int) : Int :=
  let u_arg1 := UNSIGNED arg1 df
  let u_dest := UNSIGNED dest df
  let sh_d := BIT_POSITION arg2 df + 1
  let sh_a := DF_BITS df - sh_d
  if sh_d = DF_BITS df then toS64 ((u_arg1 : Nat) : Int)
  else
    toS64 (((UNSIGNEDN (UNSIGNEDN (u_dest <<< sh_d) df >>> sh_d) df |||
      UNSIGNEDN (UNSIGNEDN (u_arg1 >>> sh_a) df <<< sh_a) df : Nat) : Int))

/-- `msa_binsr_df`: mirror image of `msa_binsl_df` on the low bits. -/
def msa_binsr_df (df : Nat) (dest arg1 arg2 : Int) : Int :=
  let u_arg1 := UNSIGNED arg1 df
  let u_dest := UNSIGNED dest df
  let sh_d := BIT_POSITION arg2 df + 1
  let sh_a := DF_BITS df - sh_d
  if sh_d = DF_BITS df then toS64 ((u_arg1 : Nat) : Int)
  else
    toS64 (((UNSIGNEDN (UNSIGNEDN (u_dest >>> sh_d) df <<< sh_d) df |||
      UNSIGNEDN (UNSIGNEDN (u_arg1 <<< sh_a) df >>> sh_a) df : Nat) : Int))

/-- `msa_ceq_df`. -/
def msa_ceq_df (_df : Nat) (arg1 arg2 : Int) : Int := if arg1 = arg2 then -1 else 0

/-- `msa_cle_s_df`. -/
def msa_cle_s_df (_df : Nat) (arg1 arg2 : Int) : Int := if arg1 ≤ arg2 then -1 else 0

/-- `msa_cle_u_df`. -/
def msa_cle_u_df (df : Nat) (arg1 arg2 : Int) : Int :=
  if UNSIGNED arg1 df ≤ UNSIGNED arg2 df then -1 else 0

/-- `msa_clt_s_df`. -/
def msa_clt_s_df (_df : Nat) (arg1 arg2 : Int) : Int := if arg1 < arg2 then -1 else 0

/-- `msa_clt_u_df`. -/
def msa_clt_u_df (df : Nat) (arg1 arg2 : Int) : Int :=
  if UNSIGNED arg1 df < UNSIGNED arg2 df then -1 else 0

/-- `msa_hadd_s_df`. -/
def msa_hadd_s_df (df : Nat) (arg1 arg2 : Int) : Int :=
  SIGNED_ODD arg1 df + SIGNED_EVEN arg2 df

/-- `msa_hadd_u_df`. -/
def msa_hadd_u_df (df : Nat) (arg1 arg2 : Int) : Int :=
  UNSIGNED_ODD arg1 df + UNSIGNED_EVEN arg2 df

/-- `msa_hsub_s_df`. -/
def msa_hsub_s_df (df : Nat) (arg1 arg2 : Int) : Int :=
  SIGNED_ODD arg1 df - SIGNED_EVEN arg2 df

/-- `msa_hsub_u_df`. -/
def msa_hsub_u_df (df : Nat) (arg1 arg2 : Int) : Int :=
  UNSIGNED_ODD arg1 df - UNSIGNED_EVEN arg2 df

/-- `msa_dotp_s_df`. -/
def msa_dotp_s_df (df : Nat) (arg1 arg2 : Int) : Int :=
  SIGNED_EVEN arg1 df * SIGNED_EVEN arg2 df + SIGNED_ODD arg1 df * SIGNED_ODD arg2 df

/-- `msa_dotp_u_df`. -/
def msa_dotp_u_df (df : Nat) (arg1 arg2 : Int) : Int :=
  UNSIGNED_EVEN arg1 df * UNSIGNED_EVEN arg2 df + UNSIGNED_ODD arg1 df * UNSIGNED_ODD arg2 df

/-- `msa_dpadd_s_df`. -/
def msa_dpadd_s_df (df : Nat) (dest arg1 arg2 : Int) : Int :=
  dest + (SIGNED_EVEN arg1 df * SIGNED_EVEN arg2 df + SIGNED_ODD arg1 df * SIGNED_ODD arg2 df)

/-- `msa_dpadd_u_df`. -/
def msa_dpadd_u_df (df : Nat) (dest arg1 arg2 : Int) : Int :=
  dest + (UNSIGNED_EVEN arg1 df * UNSIGNED_EVEN arg2 df +
    UNSIGNED_ODD arg1 df * UNSIGNED_ODD arg2 df)

/-- `msa_dpsub_s_df`. -/
def msa_dpsub_s_df (df : Nat) (dest arg1 arg2 : Int) : Int :=
  dest - (SIGNED_EVEN arg1 df * SIGNED_EVEN arg2 df + SIGNED_ODD arg1 df * SIGNED_ODD arg2 df)

/-- `msa_dpsub_u_df`. -/
def msa_dpsub_u_df (df : Nat) (dest arg1 arg2 : Int) : Int :=
  dest - (UNSIGNED_EVEN arg1 df * UNSIGNED_EVEN arg2 df +
    UNSIGNED_ODD arg1 df * UNSIGNED_ODD arg2 df)

/-- `msa_maddv_df`. -/
def msa_maddv_df (_df : Nat) (dest arg1 arg2 : Int) : Int := dest + arg1 * arg2

/-- `msa_msubv_df`. -/
def msa_msubv_df (_df : Nat) (dest arg1 arg2 : Int) : Int := dest - arg1 * arg2

/-- `msa_max_a_df`. -/
def msa_max_a_df (_df : Nat) (arg1 arg2 : Int) : Int :=
  let abs_arg1 : Nat := if 0 ≤ arg1 then arg1.toNat else (-arg1).toNat
  let abs_arg2 : Nat := if 0 ≤ arg2 then arg2.toNat else (-arg2).toNat
  if abs_arg1 > abs_arg2 then arg1 else arg2

/-- `msa_max_s_df`. -/
def msa_max_s_df (_df : Nat) (arg1 arg2 : Int) : Int := if arg1 > arg2 then arg1 else arg2

/-- `msa_max_u_df`. -/
def msa_max_u_df (df : Nat) (arg1 arg2 : Int) : Int :=
  if UNSIGNED arg1 df > UNSIGNED arg2 df then arg1 else arg2

/-- `msa_min_a_df`. -/
def msa_min_a_df (_df : Nat) (arg1 arg2 : Int) : Int :=
  let abs_arg1 : Nat := if 0 ≤ arg1 then arg1.toNat else (-arg1).toNat
  let abs_arg2 : Nat := if 0 ≤ arg2 then arg2.toNat else (-arg2).toNat
  if abs_arg1 < abs_arg2 then arg1 else arg2

/-- `msa_min_s_df`. -/
def msa_min_s_df (_df : Nat) (arg1 arg2 : Int) : Int := if arg1 < arg2 then arg1 else arg2

/-- `msa_min_u_df`. -/
def msa_min_u_df (df : Nat) (arg1 arg2 : Int) : Int :=
  if UNSIGNED arg1 df < UNSIGNED arg2 df then arg1 else arg2

/-- `msa_div_s_df`: `INT_MIN / -1` and division by zero have defined results. -/
def msa_div_s_df (df : Nat) (arg1 arg2 : Int) : Int :=
  if arg1 = DF_MIN_INT df ∧ arg2 = -1 then DF_MIN_INT df
  else if arg2 ≠ 0 then Int.tdiv arg1 arg2 else 0

/-- `msa_div_u_df`. -/
def msa_div_u_df (df : Nat) (arg1 arg2 : Int) : Int :=
  let u_arg1 := UNSIGNED arg1 df
  let u_arg2 := UNSIGNED arg2 df
  if u_arg2 ≠ 0 then ((u_arg1 / u_arg2 : Nat) : Int) else 0

/-- `msa_mod_s_df`. -/
def msa_mod_s_df (df : Nat) (arg1 arg2 : Int) : Int :=
  if arg1 = DF_MIN_INT df ∧ arg2 = -1 then 0
  else if arg2 ≠ 0 then Int.tmod arg1 arg2 else 0

/-- `msa_mod_u_df`. -/
def msa_mod_u_df (df : Nat) (arg1 arg2 : Int) : Int :=
  let u_arg1 := UNSIGNED arg1 df
  let u_arg2 := UNSIGNED arg2 df
  if u_arg2 ≠ 0 then ((u_arg1 % u_arg2 : Nat) : Int) else 0

/-- `msa_sat_u_df`: clamp the zero-extended lane to `M_MAX_UINT(m + 1)`. -/
def msa_sat_u_df (df : Nat) (arg : Int) (m : Nat) : Int :=
  let u_arg := UNSIGNED arg df
  if u_arg < M_MAX_UINT (m + 1) then toS64 ((u_arg : Nat) : Int)
  else toS64 ((M_MAX_UINT (m + 1) : Nat) : Int)

/-- `msa_sat_s_df`: clamp the sign-extended lane to
`[M_MIN_INT(m + 1), M_MAX_INT(m + 1)]`. -/
def msa_sat_s_df (_df : Nat) (arg : Int) (m : Nat) : Int :=
  if arg < M_MIN_INT (m + 1) then M_MIN_INT (m + 1)
  else if arg > M_MAX_INT (m + 1) then M_MAX_INT (m + 1)
  else arg

/-- `msa_sll_df`: left shift by `BIT_POSITION(arg2, df)`; the C `<<` on
`int64_t` wraps at 64 bits. -/
def msa_sll_df (df : Nat) (arg1 arg2 : Int) : Int :=
  let b_arg2 := BIT_POSITION arg2 df
  toS64 (arg1 * 2 ^ b_arg2)

/-- `msa_sra_df`: arithmetic right shift by `BIT_POSITION(arg2, df)`. -/
def msa_sra_df (df : Nat) (arg1 arg2 : Int) : Int :=
  let b_arg2 := BIT_POSITION arg2 df
  arg1 >>> ((b_arg2 : Nat) : Int)

/-- `msa_srl_df`: logical right shift of the zero-extended lane. -/
def msa_srl_df (df : Nat) (arg1 arg2 : Int) : Int :=
  let u_arg1 := UNSIGNED arg1 df
  let b_arg2 := BIT_POSITION arg2 df
  ((u_arg1 >>> b_arg2 : Nat) : Int)

/-- `msa_srli_df`. -/
def msa_srli_df (df : Nat) (arg : Int) (m : Nat) : Int :=
  let u_arg := UNSIGNED arg df
  ((u_arg >>> m : Nat) : Int)

/-- `msa_srar_df`: arithmetic right shift with rounding. -/
def msa_srar_df (df : Nat) (arg1 arg2 : Int) : Int :=
  let b_arg2 := BIT_POSITION arg2 df
  if b_arg2 = 0 then arg1
  else
    let r_bit := Int.land (arg1 >>> ((b_arg2 - 1 : Nat) : Int)) 1
    arg1 >>> ((b_arg2 : Nat) : Int) + r_bit

/-- `msa_srari_df`. -/
def msa_srari_df (_df : Nat) (arg : Int) (m : Nat) : Int :=
  if m = 0 then arg
  else
    let r_bit := Int.land (arg >>> ((m - 1 : Nat) : Int)) 1
    arg >>> ((m : Nat) : Int) + r_bit

/-- `msa_srlr_df`: logical right shift with rounding. -/
def msa_srlr_df (df : Nat) (arg1 arg2 : Int) : Int :=
  let u_arg1 := UNSIGNED arg1 df
  let b_arg2 := BIT_POSITION arg2 df
  if b_arg2 = 0 then ((u_arg1 : Nat) : Int)
  else
    let r_bit := (u_arg1 >>> (b_arg2 - 1)) &&& 1
    ((u_arg1 >>> b_arg2 + r_bit : Nat) : Int)

/-- `msa_srlri_df`. -/
def msa_srlri_df (df : Nat) (arg : Int) (m : Nat) : Int :=
  let u_arg := UNSIGNED arg df
  if m = 0 then ((u_arg : Nat) : Int)
  else
    let r_bit := (u_arg >>> (m - 1)) &&& 1
    ((u_arg >>> m + r_bit : Nat) : Int)

/-! ### Vector-shape kernels (scratch-buffer based in the C source). -/

/-- `msa_ilvev_df`: even source lanes interleaved into lane pairs. -/
def msa_ilvev_df (df : Nat) (pws pwt : Nat) : Option Nat :=
  match df with
  | 0 => some ((List.range (MSA_WRLEN / 16)).foldl (fun wx i =>
      lane_set 0 (lane_set 0 wx (2 * i) (lane_get 0 pwt (2 * i))) (2 * i + 1)
        (lane_get 0 pws (2 * i))) 0)
  | 1 => some ((List.range (MSA_WRLEN / 32)).foldl (fun wx i =>
      lane_set 1 (lane_set 1 wx (2 * i) (lane_get 1 pwt (2 * i))) (2 * i + 1)
        (lane_get 1 pws (2 * i))) 0)
  | 2 => some ((List.range (MSA_WRLEN / 64)).foldl (fun wx i =>
      lane_set 2 (lane_set 2 wx (2 * i) (lane_get 2 pwt (2 * i))) (2 * i + 1)
        (lane_get 2 pws (2 * i))) 0)
  | 3 => some ((List.range (MSA_WRLEN / 128)).foldl (fun wx i =>
      lane_set 3 (lane_set 3 wx (2 * i) (lane_get 3 pwt (2 * i))) (2 * i + 1)
        (lane_get 3 pws (2 * i))) 0)
  | _ => none

/-- `msa_ilvod_df`: odd source lanes interleaved into lane pairs. -/
def msa_ilvod_df (df : Nat) (pws pwt : Nat) : Option Nat :=
  match df with
  | 0 => some ((List.range (MSA_WRLEN / 16)).foldl (fun wx i =>
      lane_set 0 (lane_set 0 wx (2 * i) (lane_get 0 pwt (2 * i + 1))) (2 * i + 1)
        (lane_get 0 pws (2 * i + 1))) 0)
  | 1 => some ((List.range (MSA_WRLEN / 32)).foldl (fun wx i =>
      lane_set 1 (lane_set 1 wx (2 * i) (lane_get 1 pwt (2 * i + 1))) (2 * i + 1)
        (lane_get 1 pws (2 * i + 1))) 0)
  | 2 => some ((List.range (MSA_WRLEN / 64)).foldl (fun wx i =>
      lane_set 2 (lane_set 2 wx (2 * i) (lane_get 2 pwt (2 * i + 1))) (2 * i + 1)
        (lane_get 2 pws (2 * i + 1))) 0)
  | 3 => some ((List.range (MSA_WRLEN / 128)).foldl (fun wx i =>
      lane_set 3 (lane_set 3 wx (2 * i) (lane_get 3 pwt (2 * i + 1))) (2 * i + 1)
        (lane_get 3 pws (2 * i + 1))) 0)
  | _ => none

/-- `msa_ilvl_df`: interleave the upper halves (`BL`/`HL`/`WL`/`DL` reads). -/
def msa_ilvl_df (df : Nat) (pws pwt : Nat) : Option Nat :=
  match df with
  | 0 => some ((List.range (MSA_WRLEN / 16)).foldl (fun wx i =>
      lane_set 0 (lane_set 0 wx (2 * i) (lane_get 0 pwt (i + MSA_WRLEN / 16))) (2 * i + 1)
        (lane_get 0 pws (i + MSA_WRLEN / 16))) 0)
  | 1 => some ((List.range (MSA_WRLEN / 32)).foldl (fun wx i =>
      lane_set 1 (lane_set 1 wx (2 * i) (lane_get 1 pwt (i + MSA_WRLEN / 32))) (2 * i + 1)
        (lane_get 1 pws (i + MSA_WRLEN / 32))) 0)
  | 2 => some ((List.range (MSA_WRLEN / 64)).foldl (fun wx i =>
      lane_set 2 (lane_set 2 wx (2 * i) (lane_get 2 pwt (i + MSA_WRLEN / 64))) (2 * i + 1)
        (lane_get 2 pws (i + MSA_WRLEN / 64))) 0)
  | 3 => some ((List.range (MSA_WRLEN / 128)).foldl (fun wx i =>
      lane_set 3 (lane_set 3 wx (2 * i) (lane_get 3 pwt (i + MSA_WRLEN / 128))) (2 * i + 1)
        (lane_get 3 pws (i + MSA_WRLEN / 128))) 0)
  | _ => none

/-- `msa_ilvr_df`: interleave the lower halves (`BR`/`HR`/`WR`/`DR` reads). -/
def msa_ilvr_df (df : Nat) (pws pwt : Nat) : Option Nat :=
  match df with
  | 0 => some ((List.range (MSA_WRLEN / 16)).foldl (fun wx i =>
      lane_set 0 (lane_set 0 wx (2 * i) (lane_get 0 pwt i)) (2 * i + 1)
        (lane_get 0 pws i)) 0)
  | 1 => some ((List.range (MSA_WRLEN / 32)).foldl (fun wx i =>
      lane_set 1 (lane_set 1 wx (2 * i) (lane_get 1 pwt i)) (2 * i + 1)
        (lane_get 1 pws i)) 0)
  | 2 => some ((List.range (MSA_WRLEN / 64)).foldl (fun wx i =>
      lane_set 2 (lane_set 2 wx (2 * i) (lane_get 2 pwt i)) (2 * i + 1)
        (lane_get 2 pws i)) 0)
  | 3 => some ((List.range (MSA_WRLEN / 128)).foldl (fun wx i =>
      lane_set 3 (lane_set 3 wx (2 * i) (lane_get 3 pwt i)) (2 * i + 1)
        (lane_get 3 pws i)) 0)
  | _ => none

/-- `msa_pckev_df`: pack even lanes, `wt` into the low half, `ws` into the
upper half. -/
def msa_pckev_df (df : Nat) (pws pwt : Nat) : Option Nat :=
  match df with
  | 0 => some ((List.range (MSA_WRLEN / 16)).foldl (fun wx i =>
      lane_set 0 (lane_set 0 wx i (lane_get 0 pwt (2 * i))) (i + MSA_WRLEN / 16)
        (lane_get 0 pws (2 * i))) 0)
  | 1 => some ((List.range (MSA_WRLEN / 32)).foldl (fun wx i =>
      lane_set 1 (lane_set 1 wx i (lane_get 1 pwt (2 * i))) (i + MSA_WRLEN / 32)
        (lane_get 1 pws (2 * i))) 0)
  | 2 => some ((List.range (MSA_WRLEN / 64)).foldl (fun wx i =>
      lane_set 2 (lane_set 2 wx i (lane_get 2 pwt (2 * i))) (i + MSA_WRLEN / 64)
        (lane_get 2 pws (2 * i))) 0)
  | 3 => some ((List.range (MSA_WRLEN / 128)).foldl (fun wx i =>
      lane_set 3 (lane_set 3 wx i (lane_get 3 pwt (2 * i))) (i + MSA_WRLEN / 128)
        (lane_get 3 pws (2 * i))) 0)
  | _ => none

/-- `msa_pckod_df`: pack odd lanes. -/
def msa_pckod_df (df : Nat) (pws pwt : Nat) : Option Nat :=
  match df with
  | 0 => some ((List.range (MSA_WRLEN / 16)).foldl (fun wx i =>
      lane_set 0 (lane_set 0 wx i (lane_get 0 pwt (2 * i + 1))) (i + MSA_WRLEN / 16)
        (lane_get 0 pws (2 * i + 1))) 0)
  | 1 => some ((List.range (MSA_WRLEN / 32)).foldl (fun wx i =>
      lane_set 1 (lane_set 1 wx i (lane_get 1 pwt (2 * i + 1))) (i + MSA_WRLEN / 32)
        (lane_get 1 pws (2 * i + 1))) 0)
  | 2 => some ((List.range (MSA_WRLEN / 64)).foldl (fun wx i =>
      lane_set 2 (lane_set 2 wx i (lane_get 2 pwt (2 * i + 1))) (i + MSA_WRLEN / 64)
        (lane_get 2 pws (2 * i + 1))) 0)
  | 3 => some ((List.range (MSA_WRLEN / 128)).foldl (fun wx i =>
      lane_set 3 (lane_set 3 wx i (lane_get 3 pwt (2 * i + 1))) (i + MSA_WRLEN / 128)
        (lane_get 3 pws (2 * i + 1))) 0)
  | _ => none

/-- `msa_vshf_df`: per output lane `i`, the selector is lane `i` of the old
destination; a non-zero `0xc0` field selects zero, otherwise
`k = (selector & 0x3f) % (2n)` picks lane `k` of `wt` (`k < n`) or lane
`k - n` of `ws`. -/
def msa_vshf_df (df : Nat) (pwd pws pwt : Nat) : Option Nat :=
  let n := MSA_WRLEN / DF_BITS df
  match df with
  | 0 => some (fill_lanes 0 (MSA_WRLEN / 8) (fun i =>
      let k := (lane_get 0 pwd i &&& 0x3f) % (2 * n)
      if lane_get 0 pwd i &&& 0xc0 ≠ 0 then 0
      else if k < n then lane_get 0 pwt k else lane_get 0 pws (k - n)))
  | 1 => some (fill_lanes 1 (MSA_WRLEN / 16) (fun i =>
      let k := (lane_get 1 pwd i &&& 0x3f) % (2 * n)
      if lane_get 1 pwd i &&& 0xc0 ≠ 0 then 0
      else if k < n then lane_get 1 pwt k else lane_get 1 pws (k - n)))
  | 2 => some (fill_lanes 2 (MSA_WRLEN / 32) (fun i =>
      let k := (lane_get 2 pwd i &&& 0x3f) % (2 * n)
      if lane_get 2 pwd i &&& 0xc0 ≠ 0 then 0
      else if k < n then lane_get 2 pwt k else lane_get 2 pws (k - n)))
  | 3 => some (fill_lanes 3 (MSA_WRLEN / 64) (fun i =>
      let k := (lane_get 3 pwd i &&& 0x3f) % (2 * n)
      if lane_get 3 pwd i &&& 0xc0 ≠ 0 then 0
      else if k < n then lane_get 3 pwt k else lane_get 3 pws (k - n)))
  | _ => none

/-- `SHF_POS(i, imm) = (i & 0xfc) + ((imm >> (2 * (i & 0x03))) & 0x03)`. -/
def SHF_POS (i imm : Nat) : Nat := (i &&& 0xfc) + ((imm >>> (2 * (i &&& 0x03))) &&& 0x03)

/-- `msa_shf_df`: group-of-four lane shuffle, defined for byte/half/word only. -/
def msa_shf_df (df : Nat) (pws : Nat) (imm : Nat) : Option Nat :=
  match df with
  | 0 => some (fill_lanes 0 (MSA_WRLEN / 8) (fun i => lane_get 0 pws (SHF_POS i imm)))
  | 1 => some (fill_lanes 1 (MSA_WRLEN / 16) (fun i => lane_get 1 pws (SHF_POS i imm)))
  | 2 => some (fill_lanes 2 (MSA_WRLEN / 32) (fun i => lane_get 2 pws (SHF_POS i imm)))
  | _ => none

/-- `msa_splat_df`: broadcast lane `rt % DF_ELEMENTS(df)` of `ws`; the C code
writes the destination directly, but the one source lane it keeps reading is
only ever overwritten with its own value, so the result is a function of the
initial source value. -/
def msa_splat_df (df : Nat) (pws : Nat) (rt : Nat) : Option Nat :=
  let n := rt % DF_ELEMENTS df
  if msa_check_index df n then
    match df with
    | 0 => some (fill_lanes 0 (MSA_WRLEN / 8) (fun _ => lane_get 0 pws n))
    | 1 => some (fill_lanes 1 (MSA_WRLEN / 16) (fun _ => lane_get 1 pws n))
    | 2 => some (fill_lanes 2 (MSA_WRLEN / 32) (fun _ => lane_get 2 pws n))
    | 3 => some (fill_lanes 3 (MSA_WRLEN / 64) (fun _ => lane_get 3 pws n))
    | _ => none
  else none

/-- The `CONCATENATE_AND_SLIDE(s, k)` macro of `msa_sld_df`: within the
`s`-byte slice `k`, byte `i` of the destination becomes byte `i + n` of the
concatenation of the `ws` slice (low) and the `wd` slice (high); all reads of
the slice (`v[…]`) happen before its writes in the C macro, so the slice
update is a function of the incoming register values. -/
def concat_and_slide (s k n : Nat) (pws pwd : Nat) : Nat :=
  (List.range s).foldl
    (fun acc i =>
      lane_set 0 acc (s * k + i)
        (if i + n < s then lane_get 0 pws (s * k + (i + n))
         else lane_get 0 pwd (s * k + (i + n - s))))
    pwd

/-- `msa_sld_df`: slide within 1/2/4/8 independent slices of 16/8/4/2 bytes. -/
def msa_sld_df (df : Nat) (pwd pws : Nat) (rt : Nat) : Option Nat :=
  let n := rt % DF_ELEMENTS df
  if msa_check_index df n then
    match df with
    | 0 => some (concat_and_slide (MSA_WRLEN / 8) 0 n pws pwd)
    | 1 => some ((List.range 2).foldl
        (fun acc k => concat_and_slide (MSA_WRLEN / 16) k n pws acc) pwd)
    | 2 => some ((List.range 4).foldl
        (fun acc k => concat_and_slide (MSA_WRLEN / 32) k n pws acc) pwd)
    | 3 => some ((List.range 8).foldl
        (fun acc k => concat_and_slide (MSA_WRLEN / 64) k n pws acc) pwd)
    | _ => none
  else none

/-! ### Helper entry points, one per C `helper_msa_*` function. -/

/-- `helper_msa_add_a_df`. -/
def helper_msa_add_a_df (env : CPUState) (df : Nat) (wd ws wt : Fin 32) : Option CPUState :=
  msa_helper_2s msa_add_a_df env df wd ws wt

/-- `helper_msa_addv_df` (`td = ts + tt` inline). -/
def helper_msa_addv_df (env : CPUState) (df : Nat) (wd ws wt : Fin 32) : Option CPUState :=
  msa_helper_2s (fun _df ts tt => ts + tt) env df wd ws wt

/-- `helper_msa_addvi_df` (`td = ts + u5` inline). -/
def helper_msa_addvi_df (env : CPUState) (df : Nat) (wd ws : Fin 32) (u5 : Int) :
    Option CPUState :=
  msa_helper_1s (fun _df ts u5 => ts + u5) u5 env df wd ws

/-- `helper_msa_subv_df`. -/
def helper_msa_subv_df (env : CPUState) (df : Nat) (wd ws wt : Fin 32) : Option CPUState :=
  msa_helper_2s (fun _df ts tt => ts - tt) env df wd ws wt

/-- `helper_msa_subvi_df`. -/
def helper_msa_subvi_df (env : CPUState) (df : Nat) (wd ws : Fin 32) (u5 : Int) :
    Option CPUState :=
  msa_helper_1s (fun _df ts u5 => ts - u5) u5 env df wd ws

/-- `helper_msa_adds_a_df`. -/
def helper_msa_adds_a_df (env : CPUState) (df : Nat) (wd ws wt : Fin 32) : Option CPUState :=
  msa_helper_2s msa_adds_a_df env df wd ws wt

/-- `helper_msa_adds_s_df`. -/
def helper_msa_adds_s_df (env : CPUState) (df : Nat) (wd ws wt : Fin 32) : Option CPUState :=
  msa_helper_2s msa_adds_s_df env df wd ws wt

/-- `helper_msa_adds_u_df`. -/
def helper_msa_adds_u_df (env : CPUState) (df : Nat) (wd ws wt : Fin 32) : Option CPUState :=
  msa_helper_2u msa_adds_u_df env df wd ws wt

/-- `helper_msa_subs_s_df`. -/
def helper_msa_subs_s_df (env : CPUState) (df : Nat) (wd ws wt : Fin 32) : Option CPUState :=
  msa_helper_2s msa_subs_s_df env df wd ws wt

/-- `helper_msa_subs_u_df`. -/
def helper_msa_subs_u_df (env : CPUState) (df : Nat) (wd ws wt : Fin 32) : Option CPUState :=
  msa_helper_2us msa_subs_u_df env df wd ws wt

/-- `helper_msa_subsuu_s_df`. -/
def helper_msa_subsuu_s_df (env : CPUState) (df : Nat) (wd ws wt : Fin 32) : Option CPUState :=
  msa_helper_2s msa_subsuu_s_df env df wd ws wt

/-- `helper_msa_subsus_u_df`. -/
def helper_msa_subsus_u_df (env : CPUState) (df : Nat) (wd ws wt : Fin 32) : Option CPUState :=
  msa_helper_2s msa_subsus_u_df env df wd ws wt

/-- `helper_msa_andi_b`. -/
def helper_msa_andi_b (env : CPUState) (wd ws : Fin 32) (i8 : Nat) : CPUState :=
  msa_helper_bw (fun b i8 => b &&& i8) env wd ws i8

/-- `helper_msa_ori_b`. -/
def helper_msa_ori_b (env : CPUState) (wd ws : Fin 32) (i8 : Nat) : CPUState :=
  msa_helper_bw (fun b i8 => b ||| i8) env wd ws i8

/-- `helper_msa_nori_b`: `~(b | i8)` truncated to a byte. -/
def helper_msa_nori_b (env : CPUState) (wd ws : Fin 32) (i8 : Nat) : CPUState :=
  msa_helper_bw (fun b i8 => (b ||| i8) ^^^ 0xff) env wd ws i8

/-- `helper_msa_xori_b`. -/
def helper_msa_xori_b (env : CPUState) (wd ws : Fin 32) (i8 : Nat) : CPUState :=
  msa_helper_bw (fun b i8 => b ^^^ i8) env wd ws i8

/-- `helper_msa_asub_s_df`. -/
def helper_msa_asub_s_df (env : CPUState) (df : Nat) (wd ws wt : Fin 32) : Option CPUState :=
  msa_helper_2s msa_asub_s_df env df wd ws wt

/-- `helper_msa_asub_u_df`. -/
def helper_msa_asub_u_df (env : CPUState) (df : Nat) (wd ws wt : Fin 32) : Option CPUState :=
  msa_helper_2u msa_asub_u_df env df wd ws wt

/-- `helper_msa_ave_s_df`. -/
def helper_msa_ave_s_df (env : CPUState) (df : Nat) (wd ws wt : Fin 32) : Option CPUState :=
  msa_helper_2s msa_ave_s_df env df wd ws wt

/-- `helper_msa_ave_u_df`. -/
def helper_msa_ave_u_df (env : CPUState) (df : Nat) (wd ws wt : Fin 32) : Option CPUState :=
  msa_helper_2u msa_ave_u_df env df wd ws wt

/-- `helper_msa_aver_s_df`. -/
def helper_msa_aver_s_df (env : CPUState) (df : Nat) (wd ws wt : Fin 32) : Option CPUState :=
  msa_helper_2s msa_aver_s_df env df wd ws wt

/-- `helper_msa_aver_u_df`. -/
def helper_msa_aver_u_df (env : CPUState) (df : Nat) (wd ws wt : Fin 32) : Option CPUState :=
  msa_helper_2u msa_aver_u_df env df wd ws wt

/-- `helper_msa_bclr_df`. -/
def helper_msa_bclr_df (env : CPUState) (df : Nat) (wd ws wt : Fin 32) : Option CPUState :=
  msa_helper_2s msa_bclr_df env df wd ws wt

/-- `helper_msa_bclri_df`. -/
def helper_msa_bclri_df (env : CPUState) (df : Nat) (wd ws : Fin 32) (m : Nat) :
    Option CPUState :=
  msa_helper_1s msa_bclr_df (m : Int) env df wd ws

/-- `helper_msa_bneg_df`. -/
def helper_msa_bneg_df (env : CPUState) (df : Nat) (wd ws wt : Fin 32) : Option CPUState :=
  msa_helper_2s msa_bneg_df env df wd ws wt

/-- `helper_msa_bnegi_df`. -/
def helper_msa_bnegi_df (env : CPUState) (df : Nat) (wd ws : Fin 32) (m : Nat) :
    Option CPUState :=
  msa_helper_1s msa_bneg_df (m : Int) env df wd ws

/-- `helper_msa_bset_df`. -/
def helper_msa_bset_df (env : CPUState) (df : Nat) (wd ws wt : Fin 32) : Option CPUState :=
  msa_helper_2s msa_bset_df env df wd ws wt

/-- `helper_msa_bseti_df`. -/
def helper_msa_bseti_df (env : CPUState) (df : Nat) (wd ws : Fin 32) (m : Nat) :
    Option CPUState :=
  msa_helper_1s msa_bset_df (m : Int) env df wd ws

/-- `helper_msa_binsl_df`. -/
def helper_msa_binsl_df (env : CPUState) (df : Nat) (wd ws wt : Fin 32) : Option CPUState :=
  msa_helper_3s msa_binsl_df env df wd ws wt

/-- `helper_msa_binsli_df`. -/
def helper_msa_binsli_df (env : CPUState) (df : Nat) (wd ws : Fin 32) (m : Nat) :
    Option CPUState :=
  msa_helper_2sd msa_binsl_df (m : Int) env df wd ws

/-- `helper_msa_binsr_df`. -/
def helper_msa_binsr_df (env : CPUState) (df : Nat) (wd ws wt : Fin 32) : Option CPUState :=
  msa_helper_3s msa_binsr_df env df wd ws wt

/-- `helper_msa_binsri_df`. -/
def helper_msa_binsri_df (env : CPUState) (df : Nat) (wd ws : Fin 32) (m : Nat) :
    Option CPUState :=
  msa_helper_2sd msa_binsr_df (m : Int) env df wd ws

/-- `helper_msa_bmnzi_b`: `dest = (dest & ~i8) | (src & i8)` on each byte
(`~i8` restricted to the byte width the destination byte occupies). -/
def helper_msa_bmnzi_b (env : CPUState) (wd ws : Fin 32) (i8 : Nat) : CPUState :=
  msa_helper_bdw (fun bd bs i8 => (bd &&& (0xff ^^^ (i8 &&& 0xff))) ||| (bs &&& i8)) env wd ws i8

/-- `helper_msa_bmzi_b`: `dest = (dest & i8) | (src & ~i8)` on each byte. -/
def helper_msa_bmzi_b (env : CPUState) (wd ws : Fin 32) (i8 : Nat) : CPUState :=
  msa_helper_bdw (fun bd bs i8 => (bd &&& i8) ||| (bs &&& (0xff ^^^ (i8 &&& 0xff)))) env wd ws i8

/-- `helper_msa_bseli_b`: `dest = (src & ~dest) | (i8 & dest)` on each byte. -/
def helper_msa_bseli_b (env : CPUState) (wd ws : Fin 32) (i8 : Nat) : CPUState :=
  msa_helper_bdw (fun bd bs i8 => (bs &&& (0xff ^^^ bd)) ||| (i8 &&& bd)) env wd ws i8

/-- `helper_msa_ceq_df`. -/
def helper_msa_ceq_df (env : CPUState) (df : Nat) (wd ws wt : Fin 32) : Option CPUState :=
  msa_helper_2s msa_ceq_df env df wd ws wt

/-- `helper_msa_ceqi_df`. -/
def helper_msa_ceqi_df (env : CPUState) (df : Nat) (wd ws : Fin 32) (i5 : Int) :
    Option CPUState :=
  msa_helper_1s msa_ceq_df i5 env df wd ws

/-- `helper_msa_cle_s_df`. -/
def helper_msa_cle_s_df (env : CPUState) (df : Nat) (wd ws wt : Fin 32) : Option CPUState :=
  msa_helper_2s msa_cle_s_df env df wd ws wt

/-- `helper_msa_clei_s_df`. -/
def helper_msa_clei_s_df (env : CPUState) (df : Nat) (wd ws : Fin 32) (s5 : Int) :
    Option CPUState :=
  msa_helper_1s msa_cle_s_df s5 env df wd ws

/-- `helper_msa_cle_u_df`. -/
def helper_msa_cle_u_df (env : CPUState) (df : Nat) (wd ws wt : Fin 32) : Option CPUState :=
  msa_helper_2us msa_cle_u_df env df wd ws wt

/-- `helper_msa_clei_u_df`. -/
def helper_msa_clei_u_df (env : CPUState) (df : Nat) (wd ws : Fin 32) (u5 : Int) :
    Option CPUState :=
  msa_helper_1u msa_cle_u_df u5 env df wd ws

/-- `helper_msa_clt_s_df`. -/
def helper_msa_clt_s_df (env : CPUState) (df : Nat) (wd ws wt : Fin 32) : Option CPUState :=
  msa_helper_2s msa_clt_s_df env df wd ws wt

/-- `helper_msa_clti_s_df`. -/
def helper_msa_clti_s_df (env : CPUState) (df : Nat) (wd ws : Fin 32) (s5 : Int) :
    Option CPUState :=
  msa_helper_1s msa_clt_s_df s5 env df wd ws

/-- `helper_msa_clt_u_df`. -/
def helper_msa_clt_u_df (env : CPUState) (df : Nat) (wd ws wt : Fin 32) : Option CPUState :=
  msa_helper_2us msa_clt_u_df env df wd ws wt

/-- `helper_msa_clti_u_df` (its loads are the sign-extended ones in the C
source, unlike `helper_msa_clt_u_df`). -/
def helper_msa_clti_u_df (env : CPUState) (df : Nat) (wd ws : Fin 32) (u5 : Int) :
    Option CPUState :=
  msa_helper_1s msa_clt_u_df u5 env df wd ws

/-- `helper_msa_hadd_s_df`. -/
def helper_msa_hadd_s_df (env : CPUState) (df : Nat) (wd ws wt : Fin 32) : Option CPUState :=
  msa_helper_2s msa_hadd_s_df env df wd ws wt

/-- `helper_msa_hadd_u_df`. -/
def helper_msa_hadd_u_df (env : CPUState) (df : Nat) (wd ws wt : Fin 32) : Option CPUState :=
  msa_helper_2us msa_hadd_u_df env df wd ws wt

/-- `helper_msa_hsub_s_df`. -/
def helper_msa_hsub_s_df (env : CPUState) (df : Nat) (wd ws wt : Fin 32) : Option CPUState :=
  msa_helper_2s msa_hsub_s_df env df wd ws wt

/-- `helper_msa_hsub_u_df`. -/
def helper_msa_hsub_u_df (env : CPUState) (df : Nat) (wd ws wt : Fin 32) : Option CPUState :=
  msa_helper_2us msa_hsub_u_df env df wd ws wt

/-- `helper_msa_dotp_s_df`. -/
def helper_msa_dotp_s_df (env : CPUState) (df : Nat) (wd ws wt : Fin 32) : Option CPUState :=
  msa_helper_2s msa_dotp_s_df env df wd ws wt

/-- `helper_msa_dotp_u_df`. -/
def helper_msa_dotp_u_df (env : CPUState) (df : Nat) (wd ws wt : Fin 32) : Option CPUState :=
  msa_helper_2us msa_dotp_u_df env df wd ws wt

/-- `helper_msa_dpadd_s_df`. -/
def helper_msa_dpadd_s_df (env : CPUState) (df : Nat) (wd ws wt : Fin 32) : Option CPUState :=
  msa_helper_3s msa_dpadd_s_df env df wd ws wt

/-- `helper_msa_dpadd_u_df`. -/
def helper_msa_dpadd_u_df (env : CPUState) (df : Nat) (wd ws wt : Fin 32) : Option CPUState :=
  msa_helper_3u msa_dpadd_u_df env df wd ws wt

/-- `helper_msa_dpsub_s_df`. -/
def helper_msa_dpsub_s_df (env : CPUState) (df : Nat) (wd ws wt : Fin 32) : Option CPUState :=
  msa_helper_3s msa_dpsub_s_df env df wd ws wt

/-- `helper_msa_dpsub_u_df`. -/
def helper_msa_dpsub_u_df (env : CPUState) (df : Nat) (wd ws wt : Fin 32) : Option CPUState :=
  msa_helper_3u msa_dpsub_u_df env df wd ws wt

/-- `helper_msa_ilvev_df`. -/
def helper_msa_ilvev_df (env : CPUState) (df : Nat) (wd ws wt : Fin 32) : Option CPUState :=
  msa_helper_www msa_ilvev_df env df wd ws wt

/-- `helper_msa_ilvod_df`. -/
def helper_msa_ilvod_df (env : CPUState) (df : Nat) (wd ws wt : Fin 32) : Option CPUState :=
  msa_helper_www msa_ilvod_df env df wd ws wt

/-- `helper_msa_ilvl_df`. -/
def helper_msa_ilvl_df (env : CPUState) (df : Nat) (wd ws wt : Fin 32) : Option CPUState :=
  msa_helper_www msa_ilvl_df env df wd ws wt

/-- `helper_msa_ilvr_df`. -/
def helper_msa_ilvr_df (env : CPUState) (df : Nat) (wd ws wt : Fin 32) : Option CPUState :=
  msa_helper_www msa_ilvr_df env df wd ws wt

/-- `helper_msa_pckev_df`. -/
def helper_msa_pckev_df (env : CPUState) (df : Nat) (wd ws wt : Fin 32) : Option CPUState :=
  msa_helper_www msa_pckev_df env df wd ws wt

/-- `helper_msa_pckod_df`. -/
def helper_msa_pckod_df (env : CPUState) (df : Nat) (wd ws wt : Fin 32) : Option CPUState :=
  msa_helper_www msa_pckod_df env df wd ws wt

/-- `helper_msa_vshf_df`. -/
def helper_msa_vshf_df (env : CPUState) (df : Nat) (wd ws wt : Fin 32) : Option CPUState :=
  msa_helper_dww msa_vshf_df env df wd ws wt

/-- `helper_msa_shf_df`. -/
def helper_msa_shf_df (env : CPUState) (df : Nat) (wd ws : Fin 32) (imm : Nat) :
    Option CPUState :=
  msa_helper_wi msa_shf_df env df wd ws imm

/-- `helper_msa_maddv_df`. -/
def helper_msa_maddv_df (env : CPUState) (df : Nat) (wd ws wt : Fin 32) : Option CPUState :=
  msa_helper_3s msa_maddv_df env df wd ws wt

/-- `helper_msa_msubv_df`. -/
def helper_msa_msubv_df (env : CPUState) (df : Nat) (wd ws wt : Fin 32) : Option CPUState :=
  msa_helper_3s msa_msubv_df env df wd ws wt

/-- `helper_msa_max_a_df`. -/
def helper_msa_max_a_df (env : CPUState) (df : Nat) (wd ws wt : Fin 32) : Option CPUState :=
  msa_helper_2s msa_max_a_df env df wd ws wt

/-- `helper_msa_max_s_df`. -/
def helper_msa_max_s_df (env : CPUState) (df : Nat) (wd ws wt : Fin 32) : Option CPUState :=
  msa_helper_2s msa_max_s_df env df wd ws wt

/-- `helper_msa_maxi_s_df`. -/
def helper_msa_maxi_s_df (env : CPUState) (df : Nat) (wd ws : Fin 32) (s5 : Int) :
    Option CPUState :=
  msa_helper_1s msa_max_s_df s5 env df wd ws

/-- `helper_msa_max_u_df`. -/
def helper_msa_max_u_df (env : CPUState) (df : Nat) (wd ws wt : Fin 32) : Option CPUState :=
  msa_helper_2us msa_max_u_df env df wd ws wt

/-- `helper_msa_maxi_u_df`. -/
def helper_msa_maxi_u_df (env : CPUState) (df : Nat) (wd ws : Fin 32) (u5 : Int) :
    Option CPUState :=
  msa_helper_1u msa_max_u_df u5 env df wd ws

/-- `helper_msa_min_a_df`. -/
def helper_msa_min_a_df (env : CPUState) (df : Nat) (wd ws wt : Fin 32) : Option CPUState :=
  msa_helper_2s msa_min_a_df env df wd ws wt

/-- `helper_msa_min_s_df`. -/
def helper_msa_min_s_df (env : CPUState) (df : Nat) (wd ws wt : Fin 32) : Option CPUState :=
  msa_helper_2s msa_min_s_df env df wd ws wt

/-- `helper_msa_mini_s_df`. -/
def helper_msa_mini_s_df (env : CPUState) (df : Nat) (wd ws : Fin 32) (s5 : Int) :
    Option CPUState :=
  msa_helper_1s msa_min_s_df s5 env df wd ws

/-- `helper_msa_min_u_df`. -/
def helper_msa_min_u_df (env : CPUState) (df : Nat) (wd ws wt : Fin 32) : Option CPUState :=
  msa_helper_2us msa_min_u_df env df wd ws wt

/-- `helper_msa_mini_u_df`. -/
def helper_msa_mini_u_df (env : CPUState) (df : Nat) (wd ws : Fin 32) (u5 : Int) :
    Option CPUState :=
  msa_helper_1u msa_min_u_df u5 env df wd ws

/-- `helper_msa_splat_df`. -/
def helper_msa_splat_df (env : CPUState) (df : Nat) (wd ws : Fin 32) (rt : Fin 32) :
    Option CPUState :=
  msa_helper_wg msa_splat_df env df wd ws rt

/-- `helper_msa_ldi_df`: broadcast the low 8 bits of `s10` for bytes, the
10-bit sign extension `s64` truncated to the lane width for the wider formats. -/
def helper_msa_ldi_df (env : CPUState) (df : Nat) (wd : Fin 32) (s10 : Nat) :
    Option CPUState :=
  let s64 : Int := sext 10 (s10 : Int)
  match df with
  | 0 =>
    let v := fill_lanes 0 (MSA_WRLEN / 8) (fun _ => s10)
    some (wrp_update { env with fpr := Function.update env.fpr wd v } wd)
  | 1 =>
    let v := fill_lanes 1 (MSA_WRLEN / 16) (fun _ => toU64 s64)
    some (wrp_update { env with fpr := Function.update env.fpr wd v } wd)
  | 2 =>
    let v := fill_lanes 2 (MSA_WRLEN / 32) (fun _ => toU64 s64)
    some (wrp_update { env with fpr := Function.update env.fpr wd v } wd)
  | 3 =>
    let v := fill_lanes 3 (MSA_WRLEN / 64) (fun _ => toU64 s64)
    some (wrp_update { env with fpr := Function.update env.fpr wd v } wd)
  | _ => none

/-- `helper_msa_mulv_df` (`td = ts * tt` inline). -/
def helper_msa_mulv_df (env : CPUState) (df : Nat) (wd ws wt : Fin 32) : Option CPUState :=
  msa_helper_2s (fun _df ts tt => ts * tt) env df wd ws wt

/-- `helper_msa_div_s_df`. -/
def helper_msa_div_s_df (env : CPUState) (df : Nat) (wd ws wt : Fin 32) : Option CPUState :=
  msa_helper_2s msa_div_s_df env df wd ws wt

/-- `helper_msa_div_u_df`. -/
def helper_msa_div_u_df (env : CPUState) (df : Nat) (wd ws wt : Fin 32) : Option CPUState :=
  msa_helper_2us msa_div_u_df env df wd ws wt

/-- `helper_msa_mod_s_df`. -/
def helper_msa_mod_s_df (env : CPUState) (df : Nat) (wd ws wt : Fin 32) : Option CPUState :=
  msa_helper_2s msa_mod_s_df env df wd ws wt

/-- `helper_msa_mod_u_df`. -/
def helper_msa_mod_u_df (env : CPUState) (df : Nat) (wd ws wt : Fin 32) : Option CPUState :=
  msa_helper_2us msa_mod_u_df env df wd ws wt

/-- `helper_msa_sat_u_df`. -/
def helper_msa_sat_u_df (env : CPUState) (df : Nat) (wd ws : Fin 32) (m : Nat) :
    Option CPUState :=
  msa_helper_1um msa_sat_u_df m env df wd ws

/-- `helper_msa_sat_s_df`. -/
def helper_msa_sat_s_df (env : CPUState) (df : Nat) (wd ws : Fin 32) (m : Nat) :
    Option CPUState :=
  msa_helper_1sm msa_sat_s_df m env df wd ws

/-- `helper_msa_sll_df`. -/
def helper_msa_sll_df (env : CPUState) (df : Nat) (wd ws wt : Fin 32) : Option CPUState :=
  msa_helper_2s msa_sll_df env df wd ws wt

/-- `helper_msa_slli_df` (`td = ts << m` inline, wrapping at 64 bits). -/
def helper_msa_slli_df (env : CPUState) (df : Nat) (wd ws : Fin 32) (m : Nat) :
    Option CPUState :=
  msa_helper_1sm (fun _df ts m => toS64 (ts * 2 ^ m)) m env df wd ws

/-- `helper_msa_sra_df`. -/
def helper_msa_sra_df (env : CPUState) (df : Nat) (wd ws wt : Fin 32) : Option CPUState :=
  msa_helper_2s msa_sra_df env df wd ws wt

/-- `helper_msa_srai_df` (`td = ts >> m` inline). -/
def helper_msa_srai_df (env : CPUState) (df : Nat) (wd ws : Fin 32) (m : Nat) :
    Option CPUState :=
  msa_helper_1sm (fun _df ts m => ts >>> ((m : Nat) : Int)) m env df wd ws

/-- `helper_msa_srl_df`. -/
def helper_msa_srl_df (env : CPUState) (df : Nat) (wd ws wt : Fin 32) : Option CPUState :=
  msa_helper_2s msa_srl_df env df wd ws wt

/-- `helper_msa_srli_df`. -/
def helper_msa_srli_df (env : CPUState) (df : Nat) (wd ws : Fin 32) (m : Nat) :
    Option CPUState :=
  msa_helper_1sm msa_srli_df m env df wd ws

/-- `helper_msa_srar_df`. -/
def helper_msa_srar_df (env : CPUState) (df : Nat) (wd ws wt : Fin 32) : Option CPUState :=
  msa_helper_2s msa_srar_df env df wd ws wt

/-- `helper_msa_srari_df`. -/
def helper_msa_srari_df (env : CPUState) (df : Nat) (wd ws : Fin 32) (m : Nat) :
    Option CPUState :=
  msa_helper_1sm msa_srari_df m env df wd ws

/-- `helper_msa_srlr_df`. -/
def helper_msa_srlr_df (env : CPUState) (df : Nat) (wd ws wt : Fin 32) : Option CPUState :=
  msa_helper_2s msa_srlr_df env df wd ws wt

/-- `helper_msa_srlri_df`. -/
def helper_msa_srlri_df (env : CPUState) (df : Nat) (wd ws : Fin 32) (m : Nat) :
    Option CPUState :=
  msa_helper_1sm msa_srlri_df m env df wd ws

/-- `helper_msa_sld_df`. -/
def helper_msa_sld_df (env : CPUState) (df : Nat) (wd ws : Fin 32) (rt : Fin 32) :
    Option CPUState :=
  msa_helper_dwg msa_sld_df env df wd ws rt

/-! ### Predicates and fixtures used by the property statements. -/

/-- State relation holding between a helper's entry and exit states when only
the destination register and the modified-register bitmap may change. -/
def FrameRel (wd : Fin 32) (e e' : CPUState) : Prop :=
  e'.gpr = e.gpr ∧ e'.wrp = e.wrp ∧ e'.msamodify = e.msamodify ∧
    ∀ r, r ≠ wd → e'.fpr r = e.fpr r

/-- A fallible helper run touches only vector register `wd` inside the
register bank, and outside it only `msamodify` (set exactly when the
write-protection flag is on). -/
def WritesOnly (run : CPUState → Option CPUState) (wd : Fin 32) : Prop :=
  ∀ env e', run env = some e' →
    e'.gpr = env.gpr ∧ e'.wrp = env.wrp ∧
    (∀ r, r ≠ wd → e'.fpr r = env.fpr r) ∧
    e'.msamodify =
      (if env.wrp then env.msamodify ||| (1 <<< (wd : Nat)) else env.msamodify)

/-- `WritesOnly` for the helpers that cannot raise. -/
def WritesOnlyT (run : CPUState → CPUState) (wd : Fin 32) : Prop :=
  ∀ env,
    (run env).gpr = env.gpr ∧ (run env).wrp = env.wrp ∧
    (∀ r, r ≠ wd → (run env).fpr r = env.fpr r) ∧
    (run env).msamodify =
      (if env.wrp then env.msamodify ||| (1 <<< (wd : Nat)) else env.msamodify)

/-- When write protection is on, a completed helper run sets bit `wd` of
`msamodify` and keeps every bit that was already set. -/
def SetsModify (run : CPUState → Option CPUState) (wd : Fin 32) : Prop :=
  ∀ env e', env.wrp = true → run env = some e' →
    e'.msamodify.testBit (wd : Nat) = true ∧
    ∀ j, env.msamodify.testBit j = true → e'.msamodify.testBit j = true

/-- `SetsModify` for the helpers that cannot raise. -/
def SetsModifyT (run : CPUState → CPUState) (wd : Fin 32) : Prop :=
  ∀ env, env.wrp = true →
    (run env).msamodify.testBit (wd : Nat) = true ∧
    ∀ j, env.msamodify.testBit j = true → (run env).msamodify.testBit j = true

/-- Register value broadcasting the same pattern `m` into every lane. -/
def bcast (df m : Nat) : Nat := fill_lanes df (DF_ELEMENTS df) (fun _ => m)

/-- The `s`-byte slice number `k` of a register value. -/
def get_slice (s k v : Nat) : Nat := (v >>> (8 * (s * k))) % 2 ^ (8 * s)

/-- Reference slice semantics of `sld`: concatenate the `ws` slice (low) with
the `wd` slice (high) and keep the `s` bytes starting at byte offset `n`. -/
def sld_slice_spec (s n wdS wsS : Nat) : Nat :=
  ((wsS + wdS * 2 ^ (8 * s)) >>> (8 * n)) % 2 ^ (8 * s)

/-- Modelled from the spec: claim C5 reads `sld` as shifting the concatenated
slices by `n` ELEMENT positions (`n * DF_BITS(df)` bits); the spec's slice
size formula (`128 / 2^(3 - df)` bits) does not tile the register, so the
slicing is taken from the code (`2^df` slices). -/
def sld_slice_spec_elems (df s n wdS wsS : Nat) : Nat :=
  ((wsS + wdS * 2 ^ (8 * s)) >>> (DF_BITS df * n)) % 2 ^ (8 * s)

/-- Fixture state: `ws`-register 1 holds `0x7f` in every byte lane,
`wt`-register 2 holds `0x01` in every byte lane. -/
def envA : CPUState :=
  { fpr := fun r => if r = 1 then 0x7f7f7f7f7f7f7f7f7f7f7f7f7f7f7f7f
      else if r = 2 then 0x01010101010101010101010101010101 else 0
    gpr := fun _ => 0
    wrp := false
    msamodify := 0 }

/-- Fixture state: register 1 holds `0x80000000` in every word lane,
register 2 holds `0xffffffff` in every word lane. -/
def envB : CPUState :=
  { fpr := fun r => if r = 1 then 0x80000000800000008000000080000000
      else if r = 2 then 0xffffffffffffffffffffffffffffffff else 0
    gpr := fun _ => 0
    wrp := false
    msamodify := 0 }

/-- Fixture state: destination register 0 holds selector `0xc0` in every byte
lane, the two source registers hold arbitrary distinct patterns. -/
def envC : CPUState :=
  { fpr := fun r => if r = 0 then 0xc0c0c0c0c0c0c0c0c0c0c0c0c0c0c0c0
      else if r = 1 then 0x0f0e0d0c0b0a09080706050403020100
      else if r = 2 then 0x112233445566778899aabbccddeeff00 else 0
    gpr := fun _ => 0
    wrp := false
    msamodify := 0 }

/-- Fixture state with write protection enabled and a non-trivial initial
`msamodify`, used for the frame and modified-mask witnesses. -/
def envW : CPUState :=
  { fpr := fun r => if r = 1 then 0x0f0e0d0c0b0a09080706050403020100
      else if r = 2 then 0x112233445566778899aabbccddeeff00 else 0
    gpr := fun r => if r = 3 then 7 else 0
    wrp := true
    msamodify := 0x400 }

/-- Fixture state for the `slli`-versus-broadcast comparison: source
register 1 holds 1 in byte lane 0. -/
def envD : CPUState :=
  { fpr := fun r => if r = 1 then 1 else 0
    gpr := fun _ => 0
    wrp := false
    msamodify := 0 }

/-- The same fixture with register 2 pre-loaded with the byte broadcast of 8. -/
def envD2 : CPUState :=
  { envD with fpr := Function.update envD.fpr 2 (bcast 0 8) }

/-- Fixture state for `sld`: destination register 0 zero, source register 1
with pairwise distinct bytes, general-purpose register 3 holding 1. -/
def envE : CPUState :=
  { fpr := fun r => if r = 1 then 0x0f0e0d0c0b0a09080706050403020100 else 0
    gpr := fun r => if r = 3 then 1 else 0
    wrp := false
    msamodify := 0 }

/-- Fixture state with three pairwise-distinct registers 3, 4, 5 pre-loaded
with the same value as register 1 of `envW`. -/
def envV : CPUState :=
  { fpr := fun r => if r = 3 ∨ r = 4 ∨ r = 5 then 0x0f0e0d0c0b0a09080706050403020100 else 0
    gpr := fun r => if r = 3 then 7 else 0
    wrp := false
    msamodify := 0 }

end MsaHelper

namespace MsaHelper

/-! ### Basic arithmetic facts about the width primitives. -/

theorem DF_BITS_eq (df : Nat) : DF_BITS df = 2 ^ (df + 3) := by
  simp [DF_BITS, Nat.one_shiftLeft]

theorem DF_BITS_pos (df : Nat) : 0 < DF_BITS df := by
  rw [DF_BITS_eq]; exact Nat.pos_pow_of_pos _ (by norm_num)

theorem lane_get_lt (df v i : Nat) : lane_get df v i < 2 ^ DF_BITS df :=
  Nat.mod_lt _ (Nat.pos_pow_of_pos _ (by norm_num))

theorem lane_get_zero (df j : Nat) : lane_get df 0 j = 0 := by
  simp [lane_get]

/-- Exchange of truncation and division:
`(v % 2^p) / 2^q = (v / 2^q) % 2^(p-q)` for `q ≤ p`. -/
theorem mod_pow_div_pow (v p q : Nat) (h : q ≤ p) :
    v % 2 ^ p / 2 ^ q = v / 2 ^ q % 2 ^ (p - q) := by
  have hq : (0:Nat) < 2 ^ q := Nat.pos_pow_of_pos _ (by norm_num)
  have hsplit : 2 ^ p = 2 ^ q * 2 ^ (p - q) := by
    rw [← pow_add]; congr 1; omega
  have hv : v = v % 2 ^ p + 2 ^ q * (2 ^ (p - q) * (v / 2 ^ p)) := by
    calc v = 2 ^ p * (v / 2 ^ p) + v % 2 ^ p := (Nat.div_add_mod v (2 ^ p)).symm
    _ = v % 2 ^ p + 2 ^ q * (2 ^ (p - q) * (v / 2 ^ p)) := by rw [hsplit]; ring
  have hdiv : v / 2 ^ q = v % 2 ^ p / 2 ^ q + 2 ^ (p - q) * (v / 2 ^ p) := by
    conv_lhs => rw [hv]
    rw [Nat.add_mul_div_left _ _ hq]
  have hlt : v % 2 ^ p / 2 ^ q < 2 ^ (p - q) := by
    have := Nat.mod_lt v (show 0 < 2 ^ p from Nat.pos_pow_of_pos _ (by norm_num))
    rw [Nat.div_lt_iff_lt_mul hq]
    calc v % 2 ^ p < 2 ^ p := this
    _ = 2 ^ (p - q) * 2 ^ q := by rw [← pow_add]; congr 1; omega
  rw [hdiv, Nat.add_mul_mod_self_left, Nat.mod_eq_of_lt hlt]

/-- Reading a lane after writing a lane: the written lane returns the stored
pattern, every other lane is untouched. -/
theorem lane_get_lane_set (df : Nat) (v i x j : Nat) :
    lane_get df (lane_set df v i x) j =
      if j = i then x % 2 ^ DF_BITS df else lane_get df v j := by
  have hW : 0 < DF_BITS df := DF_BITS_pos df
  simp only [lane_get, lane_set, Nat.shiftLeft_eq, Nat.shiftRight_eq_div_pow]
  set W := DF_BITS df with hWdef
  set A := v / 2 ^ (W * i + W) with hA
  set B := x % 2 ^ W with hB
  set C := v % 2 ^ (W * i) with hC
  have hBlt : B < 2 ^ W := Nat.mod_lt _ (Nat.pos_pow_of_pos _ (by norm_num))
  have hClt : C < 2 ^ (W * i) := Nat.mod_lt _ (Nat.pos_pow_of_pos _ (by norm_num))
  rcases lt_trichotomy j i with hji | hji | hji
  · -- reading strictly below the written lane
    have hle : W * j + W ≤ W * i := by
      have : j + 1 ≤ i := hji
      calc W * j + W = W * (j + 1) := by ring
      _ ≤ W * i := Nat.mul_le_mul_left W this
    rw [if_neg (by omega)]
    have e1 : A * 2 ^ (W * i + W) + B * 2 ^ (W * i) + C =
        C + 2 ^ (W * j) * (B * 2 ^ (W * i - W * j) + A * 2 ^ (W * i + W - W * j)) := by
      have h1 : 2 ^ (W * i) = 2 ^ (W * j) * 2 ^ (W * i - W * j) := by
        rw [← pow_add]; congr 1; omega
      have h2 : 2 ^ (W * i + W) = 2 ^ (W * j) * 2 ^ (W * i + W - W * j) := by
        rw [← pow_add]; congr 1; omega
      rw [h1, h2]; ring
    rw [e1, Nat.add_mul_div_left _ _ (Nat.pos_pow_of_pos _ (by norm_num))]
    have e2 : B * 2 ^ (W * i - W * j) + A * 2 ^ (W * i + W - W * j) =
        (B * 2 ^ (W * i - W * j - W) + A * 2 ^ (W * i + W - W * j - W)) * 2 ^ W := by
      have h1 : 2 ^ (W * i - W * j) = 2 ^ (W * i - W * j - W) * 2 ^ W := by
        rw [← pow_add]; congr 1; omega
      have h2 : 2 ^ (W * i + W - W * j) = 2 ^ (W * i + W - W * j - W) * 2 ^ W := by
        rw [← pow_add]; congr 1; omega
      rw [h1, h2]; ring
    rw [e2, Nat.add_mul_mod_self_right]
    have e3 : C / 2 ^ (W * j) % 2 ^ W = v / 2 ^ (W * j) % 2 ^ W := by
      rw [hC, mod_pow_div_pow v (W * i) (W * j) (by omega)]
      exact Nat.mod_mod_of_dvd _ (pow_dvd_pow 2 (by omega))
    exact e3
  · -- reading the written lane
    subst hji
    rw [if_pos rfl]
    have e1 : A * 2 ^ (W * j + W) + B * 2 ^ (W * j) + C =
        C + 2 ^ (W * j) * (B + A * 2 ^ W) := by
      have h2 : 2 ^ (W * j + W) = 2 ^ (W * j) * 2 ^ W := by rw [← pow_add]
      rw [h2]; ring
    rw [e1, Nat.add_mul_div_left _ _ (Nat.pos_pow_of_pos _ (by norm_num)),
      Nat.div_eq_of_lt hClt, Nat.zero_add, Nat.add_mul_mod_self_right,
      Nat.mod_eq_of_lt hBlt]
  · -- reading strictly above the written lane
    have hle : W * i + W ≤ W * j := by
      have : i + 1 ≤ j := hji
      calc W * i + W = W * (i + 1) := by ring
      _ ≤ W * j := Nat.mul_le_mul_left W this
    rw [if_neg (by omega)]
    have hrlt : B * 2 ^ (W * i) + C < 2 ^ (W * i + W) := by
      have : B * 2 ^ (W * i) ≤ (2 ^ W - 1) * 2 ^ (W * i) :=
        Nat.mul_le_mul_right _ (by omega)
      have hpow : 2 ^ (W * i + W) = 2 ^ W * 2 ^ (W * i) := by
        rw [← pow_add]; congr 1; omega
      have h2 : (0:Nat) < 2 ^ W := Nat.pos_pow_of_pos _ (by norm_num)
      rw [hpow]
      calc B * 2 ^ (W * i) + C ≤ (2 ^ W - 1) * 2 ^ (W * i) + C := by omega
      _ < (2 ^ W - 1) * 2 ^ (W * i) + 2 ^ (W * i) := by omega
      _ = 2 ^ W * 2 ^ (W * i) := by
        have : (2 ^ W - 1) * 2 ^ (W * i) + 2 ^ (W * i) = (2 ^ W - 1 + 1) * 2 ^ (W * i) := by
          ring
        rw [this]; congr 1; omega
    have e1 : (A * 2 ^ (W * i + W) + B * 2 ^ (W * i) + C) / 2 ^ (W * j) =
        v / 2 ^ (W * j) := by
      have hsplit : 2 ^ (W * j) = 2 ^ (W * i + W) * 2 ^ (W * j - (W * i + W)) := by
        rw [← pow_add]; congr 1; omega
      rw [hsplit, ← Nat.div_div_eq_div_mul, ← Nat.div_div_eq_div_mul]
      congr 1
      have e2 : A * 2 ^ (W * i + W) + B * 2 ^ (W * i) + C =
          (B * 2 ^ (W * i) + C) + 2 ^ (W * i + W) * A := by ring
      rw [e2, Nat.add_mul_div_left _ _ (Nat.pos_pow_of_pos _ (by norm_num)),
        Nat.div_eq_of_lt hrlt, Nat.zero_add, hA]
    rw [e1]

/-- Reading a lane of a fully written scratch register. -/
theorem fill_lanes_get (df cnt : Nat) (g : Nat → Nat) (j : Nat) :
    lane_get df (fill_lanes df cnt g) j =
      if j < cnt then g j % 2 ^ DF_BITS df else 0 := by
  induction cnt with
  | zero => simp [fill_lanes, lane_get_zero]
  | succ c ih =>
    have step : fill_lanes df (c + 1) g =
        lane_set df (fill_lanes df c g) c (g c) := by
      simp [fill_lanes, List.range_succ]
    rw [step, lane_get_lane_set]
    rcases Nat.lt_trichotomy j c with h | h | h
    · rw [if_neg (by omega), ih, if_pos h, if_pos (by omega)]
    · subst h; rw [if_pos rfl, if_pos (by omega)]
    · rw [if_neg (by omega), ih, if_neg (by omega), if_neg (by omega)]


/-! ### Element-access facts: the defensive modulo makes every access succeed
for a decoded data format. -/

theorem DF_ELEMENTS_pos (df : Nat) (hdf : df < 4) : 0 < DF_ELEMENTS df := by
  interval_cases df <;> decide

theorem msa_check_index_true (df n : Nat) (hdf : df < 4) (hn : n < DF_ELEMENTS df) :
    msa_check_index df n = true := by
  interval_cases df <;>
    simp [msa_check_index, DF_ELEMENTS, DF_BITS, MSA_WRLEN, Nat.one_shiftLeft] at hn ⊢ <;>
    omega

theorem msa_load_wr_elem_s64_eq (env : CPUState) (w : Fin 32) (df i : Nat) (hdf : df < 4) :
    msa_load_wr_elem_s64 env w df i =
      some (SIGNED ((lane_get df (env.fpr w) (i % DF_ELEMENTS df) : Nat) : Int) df) := by
  unfold msa_load_wr_elem_s64
  rw [if_pos (msa_check_index_true df _ hdf (Nat.mod_lt _ (DF_ELEMENTS_pos df hdf)))]

theorem msa_load_wr_elem_i64_eq (env : CPUState) (w : Fin 32) (df i : Nat) (hdf : df < 4) :
    msa_load_wr_elem_i64 env w df i =
      some (lane_get df (env.fpr w) (i % DF_ELEMENTS df)) := by
  unfold msa_load_wr_elem_i64
  rw [if_pos (msa_check_index_true df _ hdf (Nat.mod_lt _ (DF_ELEMENTS_pos df hdf)))]

theorem msa_store_wr_elem_eq (env : CPUState) (v : Nat) (w : Fin 32) (df i : Nat)
    (hdf : df < 4) :
    msa_store_wr_elem env v w df i =
      some { env with
        fpr := Function.update env.fpr w (lane_set df (env.fpr w) (i % DF_ELEMENTS df) v) } := by
  unfold msa_store_wr_elem
  rw [if_pos (msa_check_index_true df _ hdf (Nat.mod_lt _ (DF_ELEMENTS_pos df hdf)))]

/-! ### The write-protection epilogue and the frame relation. -/

theorem wrp_update_gpr (e : CPUState) (wd : Fin 32) : (wrp_update e wd).gpr = e.gpr := by
  unfold wrp_update; split <;> rfl

theorem wrp_update_wrp (e : CPUState) (wd : Fin 32) : (wrp_update e wd).wrp = e.wrp := by
  unfold wrp_update; split <;> rfl

theorem wrp_update_fpr (e : CPUState) (wd : Fin 32) : (wrp_update e wd).fpr = e.fpr := by
  unfold wrp_update; split <;> rfl

theorem wrp_update_msamodify (e : CPUState) (wd : Fin 32) :
    (wrp_update e wd).msamodify =
      (if e.wrp then e.msamodify ||| (1 <<< (wd : Nat)) else e.msamodify) := by
  unfold wrp_update; split <;> simp_all

theorem frameRel_refl (wd : Fin 32) (e : CPUState) : FrameRel wd e e :=
  ⟨rfl, rfl, rfl, fun _ _ => rfl⟩

theorem frameRel_trans {wd : Fin 32} {a b c : CPUState} (h1 : FrameRel wd a b)
    (h2 : FrameRel wd b c) : FrameRel wd a c := by
  obtain ⟨g1, w1, m1, f1⟩ := h1
  obtain ⟨g2, w2, m2, f2⟩ := h2
  exact ⟨g2.trans g1, w2.trans w1, m2.trans m1, fun r hr => (f2 r hr).trans (f1 r hr)⟩

theorem msa_store_wr_elem_frame (env : CPUState) (v : Nat) (wd : Fin 32) (df i : Nat)
    (e' : CPUState) (h : msa_store_wr_elem env v wd df i = some e') : FrameRel wd env e' := by
  unfold msa_store_wr_elem at h
  dsimp only at h
  split at h
  · cases h
    exact ⟨rfl, rfl, rfl, fun r hr => Function.update_noteq hr _ _⟩
  · cases h

theorem msa_loop_frame (step : CPUState → Nat → Option CPUState) (wd : Fin 32)
    (hstep : ∀ e i e', step e i = some e' → FrameRel wd e e') :
    ∀ (n : Nat) (env e' : CPUState), msa_loop step n env = some e' → FrameRel wd env e' := by
  intro n
  induction n with
  | zero =>
    intro env e' h
    cases h
    exact frameRel_refl wd env
  | succ n ih =>
    intro env e' h
    unfold msa_loop at h
    cases heq : msa_loop step n env with
    | none => rw [heq] at h; cases h
    | some e1 =>
      rw [heq] at h
      exact frameRel_trans (ih env e1 heq) (hstep e1 n e' h)

theorem msa_loop_isSome (step : CPUState → Nat → Option CPUState)
    (h : ∀ e i, (step e i).isSome = true) :
    ∀ (n : Nat) (env : CPUState), (msa_loop step n env).isSome = true := by
  intro n
  induction n with
  | zero => intro env; rfl
  | succ n ih =>
    intro env
    unfold msa_loop
    cases heq : msa_loop step n env with
    | none => have := ih env; rw [heq] at this; cases this
    | some e1 => exact h e1 n

/-! ### Frame facts for each loop body shape. -/

theorem step_2s_frame (kernel : Nat → Int → Int → Int) (df : Nat) (wd ws wt : Fin 32) :
    ∀ e i e', step_2s kernel df wd ws wt e i = some e' → FrameRel wd e e' := by
  intro e i e' h
  unfold step_2s at h
  cases h1 : msa_load_wr_elem_s64 e ws df i <;> rw [h1] at h <;>
    cases h2 : msa_load_wr_elem_s64 e wt df i <;> rw [h2] at h <;>
    first
    | cases h
    | exact msa_store_wr_elem_frame e _ wd df i e' h

theorem step_2u_frame (kernel : Nat → Int → Int → Int) (df : Nat) (wd ws wt : Fin 32) :
    ∀ e i e', step_2u kernel df wd ws wt e i = some e' → FrameRel wd e e' := by
  intro e i e' h
  unfold step_2u at h
  cases h1 : msa_load_wr_elem_i64 e ws df i <;> rw [h1] at h <;>
    cases h2 : msa_load_wr_elem_i64 e wt df i <;> rw [h2] at h <;>
    first
    | cases h
    | exact msa_store_wr_elem_frame e _ wd df i e' h

theorem step_2us_frame (kernel : Nat → Int → Int → Int) (df : Nat) (wd ws wt : Fin 32) :
    ∀ e i e', step_2us kernel df wd ws wt e i = some e' → FrameRel wd e e' := by
  intro e i e' h
  unfold step_2us at h
  cases h1 : msa_load_wr_elem_i64 e ws df i <;> rw [h1] at h <;>
    cases h2 : msa_load_wr_elem_i64 e wt df i <;> rw [h2] at h <;>
    first
    | cases h
    | exact msa_store_wr_elem_frame e _ wd df i e' h

theorem step_1s_frame (kernel : Nat → Int → Int → Int) (imm : Int) (df : Nat) (wd ws : Fin 32) :
    ∀ e i e', step_1s kernel imm df wd ws e i = some e' → FrameRel wd e e' := by
  intro e i e' h
  unfold step_1s at h
  cases h1 : msa_load_wr_elem_s64 e ws df i <;> rw [h1] at h <;>
    first
    | cases h
    | exact msa_store_wr_elem_frame e _ wd df i e' h

theorem step_1sm_frame (kernel : Nat → Int → Nat → Int) (m : Nat) (df : Nat) (wd ws : Fin 32) :
    ∀ e i e', step_1sm kernel m df wd ws e i = some e' → FrameRel wd e e' := by
  intro e i e' h
  unfold step_1sm at h
  cases h1 : msa_load_wr_elem_s64 e ws df i <;> rw [h1] at h <;>
    first
    | cases h
    | exact msa_store_wr_elem_frame e _ wd df i e' h

theorem step_1u_frame (kernel : Nat → Int → Int → Int) (imm : Int) (df : Nat) (wd ws : Fin 32) :
    ∀ e i e', step_1u kernel imm df wd ws e i = some e' → FrameRel wd e e' := by
  intro e i e' h
  unfold step_1u at h
  cases h1 : msa_load_wr_elem_i64 e ws df i <;> rw [h1] at h <;>
    first
    | cases h
    | exact msa_store_wr_elem_frame e _ wd df i e' h

theorem step_1um_frame (kernel : Nat → Int → Nat → Int) (m : Nat) (df : Nat) (wd ws : Fin 32) :
    ∀ e i e', step_1um kernel m df wd ws e i = some e' → FrameRel wd e e' := by
  intro e i e' h
  unfold step_1um at h
  cases h1 : msa_load_wr_elem_i64 e ws df i <;> rw [h1] at h <;>
    first
    | cases h
    | exact msa_store_wr_elem_frame e _ wd df i e' h

theorem step_3s_frame (kernel : Nat → Int → Int → Int → Int) (df : Nat) (wd ws wt : Fin 32) :
    ∀ e i e', step_3s kernel df wd ws wt e i = some e' → FrameRel wd e e' := by
  intro e i e' h
  unfold step_3s at h
  cases h1 : msa_load_wr_elem_s64 e ws df i <;> rw [h1] at h <;>
    cases h2 : msa_load_wr_elem_s64 e wt df i <;> rw [h2] at h <;>
    cases h3 : msa_load_wr_elem_s64 e wd df i <;> rw [h3] at h <;>
    first
    | cases h
    | exact msa_store_wr_elem_frame e _ wd df i e' h

theorem step_3u_frame (kernel : Nat → Int → Int → Int → Int) (df : Nat) (wd ws wt : Fin 32) :
    ∀ e i e', step_3u kernel df wd ws wt e i = some e' → FrameRel wd e e' := by
  intro e i e' h
  unfold step_3u at h
  cases h1 : msa_load_wr_elem_i64 e ws df i <;> rw [h1] at h <;>
    cases h2 : msa_load_wr_elem_i64 e wt df i <;> rw [h2] at h <;>
    cases h3 : msa_load_wr_elem_s64 e wd df i <;> rw [h3] at h <;>
    first
    | cases h
    | exact msa_store_wr_elem_frame e _ wd df i e' h

theorem step_2sd_frame (kernel : Nat → Int → Int → Int → Int) (m : Int) (df : Nat)
    (wd ws : Fin 32) :
    ∀ e i e', step_2sd kernel m df wd ws e i = some e' → FrameRel wd e e' := by
  intro e i e' h
  unfold step_2sd at h
  cases h1 : msa_load_wr_elem_s64 e ws df i <;> rw [h1] at h <;>
    cases h2 : msa_load_wr_elem_s64 e wd df i <;> rw [h2] at h <;>
    first
    | cases h
    | exact msa_store_wr_elem_frame e _ wd df i e' h

/-! ### `WritesOnly` for each wrapper shape. -/

theorem writesOnly_of_loop (step : CPUState → Nat → Option CPUState) (wd : Fin 32)
    (hstep : ∀ e i e', step e i = some e' → FrameRel wd e e') (N : Nat) :
    WritesOnly (fun env =>
      match msa_loop step N env with
      | some e => some (wrp_update e wd)
      | none => none) wd := by
  intro env e' h
  dsimp only at h
  cases heq : msa_loop step N env with
  | none => rw [heq] at h; cases h
  | some e =>
    rw [heq] at h
    cases h
    obtain ⟨hg, hw, hm, hf⟩ := msa_loop_frame step wd hstep N env e heq
    refine ⟨(wrp_update_gpr e wd).trans hg, (wrp_update_wrp e wd).trans hw, ?_, ?_⟩
    · intro r hr
      rw [wrp_update_fpr]
      exact hf r hr
    · rw [wrp_update_msamodify, hw, hm]

theorem writesOnly_shape_aux (K : CPUState → Option Nat) (wd : Fin 32) :
    WritesOnly (fun env =>
      match K env with
      | some x => some (wrp_update { env with fpr := Function.update env.fpr wd x } wd)
      | none => none) wd := by
  intro env e' h
  dsimp only at h
  cases heq : K env with
  | none => rw [heq] at h; cases h
  | some x =>
    rw [heq] at h
    cases h
    refine ⟨wrp_update_gpr _ wd, wrp_update_wrp _ wd, ?_, ?_⟩
    · intro r hr
      rw [wrp_update_fpr]
      exact Function.update_noteq hr _ _
    · rw [wrp_update_msamodify]

theorem writesOnlyT_shape_aux (K : CPUState → Nat) (wd : Fin 32) :
    WritesOnlyT (fun env =>
      wrp_update { env with fpr := Function.update env.fpr wd (K env) } wd) wd := by
  intro env
  refine ⟨wrp_update_gpr _ wd, wrp_update_wrp _ wd, ?_, ?_⟩
  · intro r hr
    rw [wrp_update_fpr]
    exact Function.update_noteq hr _ _
  · rw [wrp_update_msamodify]

theorem setsModify_of_writesOnly (run : CPUState → Option CPUState) (wd : Fin 32)
    (h : WritesOnly run wd) : SetsModify run wd := by
  intro env e' hwrp hrun
  obtain ⟨-, -, -, hm⟩ := h env e' hrun
  rw [hwrp, if_pos rfl] at hm
  constructor
  · rw [hm, Nat.testBit_or, Nat.one_shiftLeft, Nat.testBit_two_pow_self, Bool.or_true]
  · intro j hj
    rw [hm, Nat.testBit_or, hj, Bool.true_or]

theorem setsModifyT_of_writesOnlyT (run : CPUState → CPUState) (wd : Fin 32)
    (h : WritesOnlyT run wd) : SetsModifyT run wd := by
  intro env hwrp
  obtain ⟨-, -, -, hm⟩ := h env
  rw [hwrp, if_pos rfl] at hm
  constructor
  · rw [hm, Nat.testBit_or, Nat.one_shiftLeft, Nat.testBit_two_pow_self, Bool.or_true]
  · intro j hj
    rw [hm, Nat.testBit_or, hj, Bool.true_or]


theorem writesOnly_2s (kernel : Nat → Int → Int → Int) (df : Nat) (wd ws wt : Fin 32) :
    WritesOnly (fun env => msa_helper_2s kernel env df wd ws wt) wd :=
  writesOnly_of_loop _ wd (step_2s_frame kernel df wd ws wt) (loop_count df)

theorem writesOnly_2u (kernel : Nat → Int → Int → Int) (df : Nat) (wd ws wt : Fin 32) :
    WritesOnly (fun env => msa_helper_2u kernel env df wd ws wt) wd :=
  writesOnly_of_loop _ wd (step_2u_frame kernel df wd ws wt) (loop_count df)

theorem writesOnly_2us (kernel : Nat → Int → Int → Int) (df : Nat) (wd ws wt : Fin 32) :
    WritesOnly (fun env => msa_helper_2us kernel env df wd ws wt) wd :=
  writesOnly_of_loop _ wd (step_2us_frame kernel df wd ws wt) (loop_count df)

theorem writesOnly_1s (kernel : Nat → Int → Int → Int) (imm : Int) (df : Nat) (wd ws : Fin 32) :
    WritesOnly (fun env => msa_helper_1s kernel imm env df wd ws) wd :=
  writesOnly_of_loop _ wd (step_1s_frame kernel imm df wd ws) (loop_count df)

theorem writesOnly_1sm (kernel : Nat → Int → Nat → Int) (m : Nat) (df : Nat) (wd ws : Fin 32) :
    WritesOnly (fun env => msa_helper_1sm kernel m env df wd ws) wd :=
  writesOnly_of_loop _ wd (step_1sm_frame kernel m df wd ws) (loop_count df)

theorem writesOnly_1u (kernel : Nat → Int → Int → Int) (imm : Int) (df : Nat) (wd ws : Fin 32) :
    WritesOnly (fun env => msa_helper_1u kernel imm env df wd ws) wd :=
  writesOnly_of_loop _ wd (step_1u_frame kernel imm df wd ws) (loop_count df)

theorem writesOnly_1um (kernel : Nat → Int → Nat → Int) (m : Nat) (df : Nat) (wd ws : Fin 32) :
    WritesOnly (fun env => msa_helper_1um kernel m env df wd ws) wd :=
  writesOnly_of_loop _ wd (step_1um_frame kernel m df wd ws) (loop_count df)

theorem writesOnly_3s (kernel : Nat → Int → Int → Int → Int) (df : Nat) (wd ws wt : Fin 32) :
    WritesOnly (fun env => msa_helper_3s kernel env df wd ws wt) wd :=
  writesOnly_of_loop _ wd (step_3s_frame kernel df wd ws wt) (loop_count df)

theorem writesOnly_3u (kernel : Nat → Int → Int → Int → Int) (df : Nat) (wd ws wt : Fin 32) :
    WritesOnly (fun env => msa_helper_3u kernel env df wd ws wt) wd :=
  writesOnly_of_loop _ wd (step_3u_frame kernel df wd ws wt) (loop_count df)

theorem writesOnly_2sd (kernel : Nat → Int → Int → Int → Int) (m : Int) (df : Nat)
    (wd ws : Fin 32) :
    WritesOnly (fun env => msa_helper_2sd kernel m env df wd ws) wd :=
  writesOnly_of_loop _ wd (step_2sd_frame kernel m df wd ws) (loop_count df)

theorem writesOnly_www (K : Nat → Nat → Nat → Option Nat) (df : Nat) (wd ws wt : Fin 32) :
    WritesOnly (fun env => msa_helper_www K env df wd ws wt) wd :=
  writesOnly_shape_aux (fun env => K df (env.fpr ws) (env.fpr wt)) wd

theorem writesOnly_dww (K : Nat → Nat → Nat → Nat → Option Nat) (df : Nat)
    (wd ws wt : Fin 32) :
    WritesOnly (fun env => msa_helper_dww K env df wd ws wt) wd :=
  writesOnly_shape_aux (fun env => K df (env.fpr wd) (env.fpr ws) (env.fpr wt)) wd

theorem writesOnly_wi (K : Nat → Nat → Nat → Option Nat) (df : Nat) (wd ws : Fin 32)
    (imm : Nat) :
    WritesOnly (fun env => msa_helper_wi K env df wd ws imm) wd :=
  writesOnly_shape_aux (fun env => K df (env.fpr ws) imm) wd

theorem writesOnly_wg (K : Nat → Nat → Nat → Option Nat) (df : Nat) (wd ws : Fin 32)
    (rt : Fin 32) :
    WritesOnly (fun env => msa_helper_wg K env df wd ws rt) wd :=
  writesOnly_shape_aux (fun env => K df (env.fpr ws) (env.gpr rt)) wd

theorem writesOnly_dwg (K : Nat → Nat → Nat → Nat → Option Nat) (df : Nat) (wd ws : Fin 32)
    (rt : Fin 32) :
    WritesOnly (fun env => msa_helper_dwg K env df wd ws rt) wd :=
  writesOnly_shape_aux (fun env => K df (env.fpr wd) (env.fpr ws) (env.gpr rt)) wd

theorem writesOnly_ldi (df : Nat) (wd : Fin 32) (s10 : Nat) :
    WritesOnly (fun env => helper_msa_ldi_df env df wd s10) wd := by
  intro env e' h
  have base : ∀ (v : Nat),
      some (wrp_update { env with fpr := Function.update env.fpr wd v } wd) = some e' →
      e'.gpr = env.gpr ∧ e'.wrp = env.wrp ∧
        (∀ r, r ≠ wd → e'.fpr r = env.fpr r) ∧
        e'.msamodify =
          (if env.wrp then env.msamodify ||| (1 <<< (wd : Nat)) else env.msamodify) := by
    intro v hh
    cases hh
    refine ⟨wrp_update_gpr _ wd, wrp_update_wrp _ wd, ?_, ?_⟩
    · intro r hr
      rw [wrp_update_fpr]
      exact Function.update_noteq hr _ _
    · rw [wrp_update_msamodify]
  dsimp only at h
  unfold helper_msa_ldi_df at h
  rcases df with _ | _ | _ | _ | d
  · exact base _ h
  · exact base _ h
  · exact base _ h
  · exact base _ h
  · cases h

theorem writesOnlyT_bw (f : Nat → Nat → Nat) (wd ws : Fin 32) (i8 : Nat) :
    WritesOnlyT (fun env => msa_helper_bw f env wd ws i8) wd :=
  writesOnlyT_shape_aux
    (fun env => (List.range (MSA_WRLEN / 8)).foldl
      (fun a i => lane_set 0 a i (f (lane_get 0 (env.fpr ws) i) i8)) (env.fpr wd)) wd

theorem writesOnlyT_bdw (f : Nat → Nat → Nat → Nat) (wd ws : Fin 32) (i8 : Nat) :
    WritesOnlyT (fun env => msa_helper_bdw f env wd ws i8) wd :=
  writesOnlyT_shape_aux
    (fun env => (List.range (MSA_WRLEN / 8)).foldl
      (fun a i => lane_set 0 a i (f (lane_get 0 (env.fpr wd) i) (lane_get 0 (env.fpr ws) i) i8))
      (env.fpr wd)) wd


/-- C10: for every helper in the file, every data format and every starting
state, at most one vector register changes, namely the destination `wd`; the
source registers and all other vector registers are bit-for-bit unchanged,
the general-purpose registers and the write-protection flag are unchanged,
and the only other CPU-state field a helper may modify is `msamodify`. -/
theorem claim_C10 :
    ∀ (df : Nat) (wd ws wt rt : Fin 32) (u5 i5 s5 : Int) (m imm s10 i8 : Nat),
      WritesOnly (fun env => helper_msa_add_a_df env df wd ws wt) wd ∧
      WritesOnly (fun env => helper_msa_addv_df env df wd ws wt) wd ∧
      WritesOnly (fun env => helper_msa_addvi_df env df wd ws u5) wd ∧
      WritesOnly (fun env => helper_msa_subv_df env df wd ws wt) wd ∧
      WritesOnly (fun env => helper_msa_subvi_df env df wd ws u5) wd ∧
      WritesOnly (fun env => helper_msa_adds_a_df env df wd ws wt) wd ∧
      WritesOnly (fun env => helper_msa_adds_s_df env df wd ws wt) wd ∧
      WritesOnly (fun env => helper_msa_adds_u_df env df wd ws wt) wd ∧
      WritesOnly (fun env => helper_msa_subs_s_df env df wd ws wt) wd ∧
      WritesOnly (fun env => helper_msa_subs_u_df env df wd ws wt) wd ∧
      WritesOnly (fun env => helper_msa_subsuu_s_df env df wd ws wt) wd ∧
      WritesOnly (fun env => helper_msa_subsus_u_df env df wd ws wt) wd ∧
      WritesOnlyT (fun env => helper_msa_andi_b env wd ws i8) wd ∧
      WritesOnlyT (fun env => helper_msa_ori_b env wd ws i8) wd ∧
      WritesOnlyT (fun env => helper_msa_nori_b env wd ws i8) wd ∧
      WritesOnlyT (fun env => helper_msa_xori_b env wd ws i8) wd ∧
      WritesOnly (fun env => helper_msa_asub_s_df env df wd ws wt) wd ∧
      WritesOnly (fun env => helper_msa_asub_u_df env df wd ws wt) wd ∧
      WritesOnly (fun env => helper_msa_ave_s_df env df wd ws wt) wd ∧
      WritesOnly (fun env => helper_msa_ave_u_df env df wd ws wt) wd ∧
      WritesOnly (fun env => helper_msa_aver_s_df env df wd ws wt) wd ∧
      WritesOnly (fun env => helper_msa_aver_u_df env df wd ws wt) wd ∧
      WritesOnly (fun env => helper_msa_bclr_df env df wd ws wt) wd ∧
      WritesOnly (fun env => helper_msa_bclri_df env df wd ws m) wd ∧
      WritesOnly (fun env => helper_msa_bneg_df env df wd ws wt) wd ∧
      WritesOnly (fun env => helper_msa_bnegi_df env df wd ws m) wd ∧
      WritesOnly (fun env => helper_msa_bset_df env df wd ws wt) wd ∧
      WritesOnly (fun env => helper_msa_bseti_df env df wd ws m) wd ∧
      WritesOnly (fun env => helper_msa_binsl_df env df wd ws wt) wd ∧
      WritesOnly (fun env => helper_msa_binsli_df env df wd ws m) wd ∧
      WritesOnly (fun env => helper_msa_binsr_df env df wd ws wt) wd ∧
      WritesOnly (fun env => helper_msa_binsri_df env df wd ws m) wd ∧
      WritesOnlyT (fun env => helper_msa_bmnzi_b env wd ws i8) wd ∧
      WritesOnlyT (fun env => helper_msa_bmzi_b env wd ws i8) wd ∧
      WritesOnlyT (fun env => helper_msa_bseli_b env wd ws i8) wd ∧
      WritesOnly (fun env => helper_msa_ceq_df env df wd ws wt) wd ∧
      WritesOnly (fun env => helper_msa_ceqi_df env df wd ws i5) wd ∧
      WritesOnly (fun env => helper_msa_cle_s_df env df wd ws wt) wd ∧
      WritesOnly (fun env => helper_msa_clei_s_df env df wd ws s5) wd ∧
      WritesOnly (fun env => helper_msa_cle_u_df env df wd ws wt) wd ∧
      WritesOnly (fun env => helper_msa_clei_u_df env df wd ws u5) wd ∧
      WritesOnly (fun env => helper_msa_clt_s_df env df wd ws wt) wd ∧
      WritesOnly (fun env => helper_msa_clti_s_df env df wd ws s5) wd ∧
      WritesOnly (fun env => helper_msa_clt_u_df env df wd ws wt) wd ∧
      WritesOnly (fun env => helper_msa_clti_u_df env df wd ws u5) wd ∧
      WritesOnly (fun env => helper_msa_hadd_s_df env df wd ws wt) wd ∧
      WritesOnly (fun env => helper_msa_hadd_u_df env df wd ws wt) wd ∧
      WritesOnly (fun env => helper_msa_hsub_s_df env df wd ws wt) wd ∧
      WritesOnly (fun env => helper_msa_hsub_u_df env df wd ws wt) wd ∧
      WritesOnly (fun env => helper_msa_dotp_s_df env df wd ws wt) wd ∧
      WritesOnly (fun env => helper_msa_dotp_u_df env df wd ws wt) wd ∧
      WritesOnly (fun env => helper_msa_dpadd_s_df env df wd ws wt) wd ∧
      WritesOnly (fun env => helper_msa_dpadd_u_df env df wd ws wt) wd ∧
      WritesOnly (fun env => helper_msa_dpsub_s_df env df wd ws wt) wd ∧
      WritesOnly (fun env => helper_msa_dpsub_u_df env df wd ws wt) wd ∧
      WritesOnly (fun env => helper_msa_ilvev_df env df wd ws wt) wd ∧
      WritesOnly (fun env => helper_msa_ilvod_df env df wd ws wt) wd ∧
      WritesOnly (fun env => helper_msa_ilvl_df env df wd ws wt) wd ∧
      WritesOnly (fun env => helper_msa_ilvr_df env df wd ws wt) wd ∧
      WritesOnly (fun env => helper_msa_pckev_df env df wd ws wt) wd ∧
      WritesOnly (fun env => helper_msa_pckod_df env df wd ws wt) wd ∧
      WritesOnly (fun env => helper_msa_vshf_df env df wd ws wt) wd ∧
      WritesOnly (fun env => helper_msa_shf_df env df wd ws imm) wd ∧
      WritesOnly (fun env => helper_msa_maddv_df env df wd ws wt) wd ∧
      WritesOnly (fun env => helper_msa_msubv_df env df wd ws wt) wd ∧
      WritesOnly (fun env => helper_msa_max_a_df env df wd ws wt) wd ∧
      WritesOnly (fun env => helper_msa_max_s_df env df wd ws wt) wd ∧
      WritesOnly (fun env => helper_msa_maxi_s_df env df wd ws s5) wd ∧
      WritesOnly (fun env => helper_msa_max_u_df env df wd ws wt) wd ∧
      WritesOnly (fun env => helper_msa_maxi_u_df env df wd ws u5) wd ∧
      WritesOnly (fun env => helper_msa_min_a_df env df wd ws wt) wd ∧
      WritesOnly (fun env => helper_msa_min_s_df env df wd ws wt) wd ∧
      WritesOnly (fun env => helper_msa_mini_s_df env df wd ws s5) wd ∧
      WritesOnly (fun env => helper_msa_min_u_df env df wd ws wt) wd ∧
      WritesOnly (fun env => helper_msa_mini_u_df env df wd ws u5) wd ∧
      WritesOnly (fun env => helper_msa_splat_df env df wd ws rt) wd ∧
      WritesOnly (fun env => helper_msa_ldi_df env df wd s10) wd ∧
      WritesOnly (fun env => helper_msa_mulv_df env df wd ws wt) wd ∧
      WritesOnly (fun env => helper_msa_div_s_df env df wd ws wt) wd ∧
      WritesOnly (fun env => helper_msa_div_u_df env df wd ws wt) wd ∧
      WritesOnly (fun env => helper_msa_mod_s_df env df wd ws wt) wd ∧
      WritesOnly (fun env => helper_msa_mod_u_df env df wd ws wt) wd ∧
      WritesOnly (fun env => helper_msa_sat_u_df env df wd ws m) wd ∧
      WritesOnly (fun env => helper_msa_sat_s_df env df wd ws m) wd ∧
      WritesOnly (fun env => helper_msa_sll_df env df wd ws wt) wd ∧
      WritesOnly (fun env => helper_msa_slli_df env df wd ws m) wd ∧
      WritesOnly (fun env => helper_msa_sra_df env df wd ws wt) wd ∧
      WritesOnly (fun env => helper_msa_srai_df env df wd ws m) wd ∧
      WritesOnly (fun env => helper_msa_srl_df env df wd ws wt) wd ∧
      WritesOnly (fun env => helper_msa_srli_df env df wd ws m) wd ∧
      WritesOnly (fun env => helper_msa_srar_df env df wd ws wt) wd ∧
      WritesOnly (fun env => helper_msa_srari_df env df wd ws m) wd ∧
      WritesOnly (fun env => helper_msa_srlr_df env df wd ws wt) wd ∧
      WritesOnly (fun env => helper_msa_srlri_df env df wd ws m) wd ∧
      WritesOnly (fun env => helper_msa_sld_df env df wd ws rt) wd := by
  intro df wd ws wt rt u5 i5 s5 m imm s10 i8
  exact ⟨writesOnly_2s _ df wd ws wt,
    writesOnly_2s _ df wd ws wt,
    writesOnly_1s _ u5 df wd ws,
    writesOnly_2s _ df wd ws wt,
    writesOnly_1s _ u5 df wd ws,
    writesOnly_2s _ df wd ws wt,
    writesOnly_2s _ df wd ws wt,
    writesOnly_2u _ df wd ws wt,
    writesOnly_2s _ df wd ws wt,
    writesOnly_2us _ df wd ws wt,
    writesOnly_2s _ df wd ws wt,
    writesOnly_2s _ df wd ws wt,
    writesOnlyT_bw _ wd ws i8,
    writesOnlyT_bw _ wd ws i8,
    writesOnlyT_bw _ wd ws i8,
    writesOnlyT_bw _ wd ws i8,
    writesOnly_2s _ df wd ws wt,
    writesOnly_2u _ df wd ws wt,
    writesOnly_2s _ df wd ws wt,
    writesOnly_2u _ df wd ws wt,
    writesOnly_2s _ df wd ws wt,
    writesOnly_2u _ df wd ws wt,
    writesOnly_2s _ df wd ws wt,
    writesOnly_1s _ (m : Int) df wd ws,
    writesOnly_2s _ df wd ws wt,
    writesOnly_1s _ (m : Int) df wd ws,
    writesOnly_2s _ df wd ws wt,
    writesOnly_1s _ (m : Int) df wd ws,
    writesOnly_3s _ df wd ws wt,
    writesOnly_2sd _ (m : Int) df wd ws,
    writesOnly_3s _ df wd ws wt,
    writesOnly_2sd _ (m : Int) df wd ws,
    writesOnlyT_bdw _ wd ws i8,
    writesOnlyT_bdw _ wd ws i8,
    writesOnlyT_bdw _ wd ws i8,
    writesOnly_2s _ df wd ws wt,
    writesOnly_1s _ i5 df wd ws,
    writesOnly_2s _ df wd ws wt,
    writesOnly_1s _ s5 df wd ws,
    writesOnly_2us _ df wd ws wt,
    writesOnly_1u _ u5 df wd ws,
    writesOnly_2s _ df wd ws wt,
    writesOnly_1s _ s5 df wd ws,
    writesOnly_2us _ df wd ws wt,
    writesOnly_1s _ u5 df wd ws,
    writesOnly_2s _ df wd ws wt,
    writesOnly_2us _ df wd ws wt,
    writesOnly_2s _ df wd ws wt,
    writesOnly_2us _ df wd ws wt,
    writesOnly_2s _ df wd ws wt,
    writesOnly_2us _ df wd ws wt,
    writesOnly_3s _ df wd ws wt,
    writesOnly_3u _ df wd ws wt,
    writesOnly_3s _ df wd ws wt,
    writesOnly_3u _ df wd ws wt,
    writesOnly_www _ df wd ws wt,
    writesOnly_www _ df wd ws wt,
    writesOnly_www _ df wd ws wt,
    writesOnly_www _ df wd ws wt,
    writesOnly_www _ df wd ws wt,
    writesOnly_www _ df wd ws wt,
    writesOnly_dww _ df wd ws wt,
    writesOnly_wi _ df wd ws imm,
    writesOnly_3s _ df wd ws wt,
    writesOnly_3s _ df wd ws wt,
    writesOnly_2s _ df wd ws wt,
    writesOnly_2s _ df wd ws wt,
    writesOnly_1s _ s5 df wd ws,
    writesOnly_2us _ df wd ws wt,
    writesOnly_1u _ u5 df wd ws,
    writesOnly_2s _ df wd ws wt,
    writesOnly_2s _ df wd ws wt,
    writesOnly_1s _ s5 df wd ws,
    writesOnly_2us _ df wd ws wt,
    writesOnly_1u _ u5 df wd ws,
    writesOnly_wg _ df wd ws rt,
    writesOnly_ldi df wd s10,
    writesOnly_2s _ df wd ws wt,
    writesOnly_2s _ df wd ws wt,
    writesOnly_2us _ df wd ws wt,
    writesOnly_2s _ df wd ws wt,
    writesOnly_2us _ df wd ws wt,
    writesOnly_1um _ m df wd ws,
    writesOnly_1sm _ m df wd ws,
    writesOnly_2s _ df wd ws wt,
    writesOnly_1sm _ m df wd ws,
    writesOnly_2s _ df wd ws wt,
    writesOnly_1sm _ m df wd ws,
    writesOnly_2s _ df wd ws wt,
    writesOnly_1sm _ m df wd ws,
    writesOnly_2s _ df wd ws wt,
    writesOnly_1sm _ m df wd ws,
    writesOnly_2s _ df wd ws wt,
    writesOnly_1sm _ m df wd ws,
    writesOnly_dwg _ df wd ws rt⟩


/-- C7: for every helper that writes a vector register (that is, every helper
in the file), whenever the write-protection bit of `msair` is set, after the
helper returns bit `wd` of `msamodify` is 1, and every bit of `msamodify`
that was 1 before the call is still 1 afterwards. -/
theorem claim_C7 :
    ∀ (df : Nat) (wd ws wt rt : Fin 32) (u5 i5 s5 : Int) (m imm s10 i8 : Nat),
      SetsModify (fun env => helper_msa_add_a_df env df wd ws wt) wd ∧
      SetsModify (fun env => helper_msa_addv_df env df wd ws wt) wd ∧
      SetsModify (fun env => helper_msa_addvi_df env df wd ws u5) wd ∧
      SetsModify (fun env => helper_msa_subv_df env df wd ws wt) wd ∧
      SetsModify (fun env => helper_msa_subvi_df env df wd ws u5) wd ∧
      SetsModify (fun env => helper_msa_adds_a_df env df wd ws wt) wd ∧
      SetsModify (fun env => helper_msa_adds_s_df env df wd ws wt) wd ∧
      SetsModify (fun env => helper_msa_adds_u_df env df wd ws wt) wd ∧
      SetsModify (fun env => helper_msa_subs_s_df env df wd ws wt) wd ∧
      SetsModify (fun env => helper_msa_subs_u_df env df wd ws wt) wd ∧
      SetsModify (fun env => helper_msa_subsuu_s_df env df wd ws wt) wd ∧
      SetsModify (fun env => helper_msa_subsus_u_df env df wd ws wt) wd ∧
      SetsModifyT (fun env => helper_msa_andi_b env wd ws i8) wd ∧
      SetsModifyT (fun env => helper_msa_ori_b env wd ws i8) wd ∧
      SetsModifyT (fun env => helper_msa_nori_b env wd ws i8) wd ∧
      SetsModifyT (fun env => helper_msa_xori_b env wd ws i8) wd ∧
      SetsModify (fun env => helper_msa_asub_s_df env df wd ws wt) wd ∧
      SetsModify (fun env => helper_msa_asub_u_df env df wd ws wt) wd ∧
      SetsModify (fun env => helper_msa_ave_s_df env df wd ws wt) wd ∧
      SetsModify (fun env => helper_msa_ave_u_df env df wd ws wt) wd ∧
      SetsModify (fun env => helper_msa_aver_s_df env df wd ws wt) wd ∧
      SetsModify (fun env => helper_msa_aver_u_df env df wd ws wt) wd ∧
      SetsModify (fun env => helper_msa_bclr_df env df wd ws wt) wd ∧
      SetsModify (fun env => helper_msa_bclri_df env df wd ws m) wd ∧
      SetsModify (fun env => helper_msa_bneg_df env df wd ws wt) wd ∧
      SetsModify (fun env => helper_msa_bnegi_df env df wd ws m) wd ∧
      SetsModify (fun env => helper_msa_bset_df env df wd ws wt) wd ∧
      SetsModify (fun env => helper_msa_bseti_df env df wd ws m) wd ∧
      SetsModify (fun env => helper_msa_binsl_df env df wd ws wt) wd ∧
      SetsModify (fun env => helper_msa_binsli_df env df wd ws m) wd ∧
      SetsModify (fun env => helper_msa_binsr_df env df wd ws wt) wd ∧
      SetsModify (fun env => helper_msa_binsri_df env df wd ws m) wd ∧
      SetsModifyT (fun env => helper_msa_bmnzi_b env wd ws i8) wd ∧
      SetsModifyT (fun env => helper_msa_bmzi_b env wd ws i8) wd ∧
      SetsModifyT (fun env => helper_msa_bseli_b env wd ws i8) wd ∧
      SetsModify (fun env => helper_msa_ceq_df env df wd ws wt) wd ∧
      SetsModify (fun env => helper_msa_ceqi_df env df wd ws i5) wd ∧
      SetsModify (fun env => helper_msa_cle_s_df env df wd ws wt) wd ∧
      SetsModify (fun env => helper_msa_clei_s_df env df wd ws s5) wd ∧
      SetsModify (fun env => helper_msa_cle_u_df env df wd ws wt) wd ∧
      SetsModify (fun env => helper_msa_clei_u_df env df wd ws u5) wd ∧
      SetsModify (fun env => helper_msa_clt_s_df env df wd ws wt) wd ∧
      SetsModify (fun env => helper_msa_clti_s_df env df wd ws s5) wd ∧
      SetsModify (fun env => helper_msa_clt_u_df env df wd ws wt) wd ∧
      SetsModify (fun env => helper_msa_clti_u_df env df wd ws u5) wd ∧
      SetsModify (fun env => helper_msa_hadd_s_df env df wd ws wt) wd ∧
      SetsModify (fun env => helper_msa_hadd_u_df env df wd ws wt) wd ∧
      SetsModify (fun env => helper_msa_hsub_s_df env df wd ws wt) wd ∧
      SetsModify (fun env => helper_msa_hsub_u_df env df wd ws wt) wd ∧
      SetsModify (fun env => helper_msa_dotp_s_df env df wd ws wt) wd ∧
      SetsModify (fun env => helper_msa_dotp_u_df env df wd ws wt) wd ∧
      SetsModify (fun env => helper_msa_dpadd_s_df env df wd ws wt) wd ∧
      SetsModify (fun env => helper_msa_dpadd_u_df env df wd ws wt) wd ∧
      SetsModify (fun env => helper_msa_dpsub_s_df env df wd ws wt) wd ∧
      SetsModify (fun env => helper_msa_dpsub_u_df env df wd ws wt) wd ∧
      SetsModify (fun env => helper_msa_ilvev_df env df wd ws wt) wd ∧
      SetsModify (fun env => helper_msa_ilvod_df env df wd ws wt) wd ∧
      SetsModify (fun env => helper_msa_ilvl_df env df wd ws wt) wd ∧
      SetsModify (fun env => helper_msa_ilvr_df env df wd ws wt) wd ∧
      SetsModify (fun env => helper_msa_pckev_df env df wd ws wt) wd ∧
      SetsModify (fun env => helper_msa_pckod_df env df wd ws wt) wd ∧
      SetsModify (fun env => helper_msa_vshf_df env df wd ws wt) wd ∧
      SetsModify (fun env => helper_msa_shf_df env df wd ws imm) wd ∧
      SetsModify (fun env => helper_msa_maddv_df env df wd ws wt) wd ∧
      SetsModify (fun env => helper_msa_msubv_df env df wd ws wt) wd ∧
      SetsModify (fun env => helper_msa_max_a_df env df wd ws wt) wd ∧
      SetsModify (fun env => helper_msa_max_s_df env df wd ws wt) wd ∧
      SetsModify (fun env => helper_msa_maxi_s_df env df wd ws s5) wd ∧
      SetsModify (fun env => helper_msa_max_u_df env df wd ws wt) wd ∧
      SetsModify (fun env => helper_msa_maxi_u_df env df wd ws u5) wd ∧
      SetsModify (fun env => helper_msa_min_a_df env df wd ws wt) wd ∧
      SetsModify (fun env => helper_msa_min_s_df env df wd ws wt) wd ∧
      SetsModify (fun env => helper_msa_mini_s_df env df wd ws s5) wd ∧
      SetsModify (fun env => helper_msa_min_u_df env df wd ws wt) wd ∧
      SetsModify (fun env => helper_msa_mini_u_df env df wd ws u5) wd ∧
      SetsModify (fun env => helper_msa_splat_df env df wd ws rt) wd ∧
      SetsModify (fun env => helper_msa_ldi_df env df wd s10) wd ∧
      SetsModify (fun env => helper_msa_mulv_df env df wd ws wt) wd ∧
      SetsModify (fun env => helper_msa_div_s_df env df wd ws wt) wd ∧
      SetsModify (fun env => helper_msa_div_u_df env df wd ws wt) wd ∧
      SetsModify (fun env => helper_msa_mod_s_df env df wd ws wt) wd ∧
      SetsModify (fun env => helper_msa_mod_u_df env df wd ws wt) wd ∧
      SetsModify (fun env => helper_msa_sat_u_df env df wd ws m) wd ∧
      SetsModify (fun env => helper_msa_sat_s_df env df wd ws m) wd ∧
      SetsModify (fun env => helper_msa_sll_df env df wd ws wt) wd ∧
      SetsModify (fun env => helper_msa_slli_df env df wd ws m) wd ∧
      SetsModify (fun env => helper_msa_sra_df env df wd ws wt) wd ∧
      SetsModify (fun env => helper_msa_srai_df env df wd ws m) wd ∧
      SetsModify (fun env => helper_msa_srl_df env df wd ws wt) wd ∧
      SetsModify (fun env => helper_msa_srli_df env df wd ws m) wd ∧
      SetsModify (fun env => helper_msa_srar_df env df wd ws wt) wd ∧
      SetsModify (fun env => helper_msa_srari_df env df wd ws m) wd ∧
      SetsModify (fun env => helper_msa_srlr_df env df wd ws wt) wd ∧
      SetsModify (fun env => helper_msa_srlri_df env df wd ws m) wd ∧
      SetsModify (fun env => helper_msa_sld_df env df wd ws rt) wd := by
  intro df wd ws wt rt u5 i5 s5 m imm s10 i8
  exact ⟨setsModify_of_writesOnly _ wd (writesOnly_2s _ df wd ws wt),
    setsModify_of_writesOnly _ wd (writesOnly_2s _ df wd ws wt),
    setsModify_of_writesOnly _ wd (writesOnly_1s _ u5 df wd ws),
    setsModify_of_writesOnly _ wd (writesOnly_2s _ df wd ws wt),
    setsModify_of_writesOnly _ wd (writesOnly_1s _ u5 df wd ws),
    setsModify_of_writesOnly _ wd (writesOnly_2s _ df wd ws wt),
    setsModify_of_writesOnly _ wd (writesOnly_2s _ df wd ws wt),
    setsModify_of_writesOnly _ wd (writesOnly_2u _ df wd ws wt),
    setsModify_of_writesOnly _ wd (writesOnly_2s _ df wd ws wt),
    setsModify_of_writesOnly _ wd (writesOnly_2us _ df wd ws wt),
    setsModify_of_writesOnly _ wd (writesOnly_2s _ df wd ws wt),
    setsModify_of_writesOnly _ wd (writesOnly_2s _ df wd ws wt),
    setsModifyT_of_writesOnlyT _ wd (writesOnlyT_bw _ wd ws i8),
    setsModifyT_of_writesOnlyT _ wd (writesOnlyT_bw _ wd ws i8),
    setsModifyT_of_writesOnlyT _ wd (writesOnlyT_bw _ wd ws i8),
    setsModifyT_of_writesOnlyT _ wd (writesOnlyT_bw _ wd ws i8),
    setsModify_of_writesOnly _ wd (writesOnly_2s _ df wd ws wt),
    setsModify_of_writesOnly _ wd (writesOnly_2u _ df wd ws wt),
    setsModify_of_writesOnly _ wd (writesOnly_2s _ df wd ws wt),
    setsModify_of_writesOnly _ wd (writesOnly_2u _ df wd ws wt),
    setsModify_of_writesOnly _ wd (writesOnly_2s _ df wd ws wt),
    setsModify_of_writesOnly _ wd (writesOnly_2u _ df wd ws wt),
    setsModify_of_writesOnly _ wd (writesOnly_2s _ df wd ws wt),
    setsModify_of_writesOnly _ wd (writesOnly_1s _ (m : Int) df wd ws),
    setsModify_of_writesOnly _ wd (writesOnly_2s _ df wd ws wt),
    setsModify_of_writesOnly _ wd (writesOnly_1s _ (m : Int) df wd ws),
    setsModify_of_writesOnly _ wd (writesOnly_2s _ df wd ws wt),
    setsModify_of_writesOnly _ wd (writesOnly_1s _ (m : Int) df wd ws),
    setsModify_of_writesOnly _ wd (writesOnly_3s _ df wd ws wt),
    setsModify_of_writesOnly _ wd (writesOnly_2sd _ (m : Int) df wd ws),
    setsModify_of_writesOnly _ wd (writesOnly_3s _ df wd ws wt),
    setsModify_of_writesOnly _ wd (writesOnly_2sd _ (m : Int) df wd ws),
    setsModifyT_of_writesOnlyT _ wd (writesOnlyT_bdw _ wd ws i8),
    setsModifyT_of_writesOnlyT _ wd (writesOnlyT_bdw _ wd ws i8),
    setsModifyT_of_writesOnlyT _ wd (writesOnlyT_bdw _ wd ws i8),
    setsModify_of_writesOnly _ wd (writesOnly_2s _ df wd ws wt),
    setsModify_of_writesOnly _ wd (writesOnly_1s _ i5 df wd ws),
    setsModify_of_writesOnly _ wd (writesOnly_2s _ df wd ws wt),
    setsModify_of_writesOnly _ wd (writesOnly_1s _ s5 df wd ws),
    setsModify_of_writesOnly _ wd (writesOnly_2us _ df wd ws wt),
    setsModify_of_writesOnly _ wd (writesOnly_1u _ u5 df wd ws),
    setsModify_of_writesOnly _ wd (writesOnly_2s _ df wd ws wt),
    setsModify_of_writesOnly _ wd (writesOnly_1s _ s5 df wd ws),
    setsModify_of_writesOnly _ wd (writesOnly_2us _ df wd ws wt),
    setsModify_of_writesOnly _ wd (writesOnly_1s _ u5 df wd ws),
    setsModify_of_writesOnly _ wd (writesOnly_2s _ df wd ws wt),
    setsModify_of_writesOnly _ wd (writesOnly_2us _ df wd ws wt),
    setsModify_of_writesOnly _ wd (writesOnly_2s _ df wd ws wt),
    setsModify_of_writesOnly _ wd (writesOnly_2us _ df wd ws wt),
    setsModify_of_writesOnly _ wd (writesOnly_2s _ df wd ws wt),
    setsModify_of_writesOnly _ wd (writesOnly_2us _ df wd ws wt),
    setsModify_of_writesOnly _ wd (writesOnly_3s _ df wd ws wt),
    setsModify_of_writesOnly _ wd (writesOnly_3u _ df wd ws wt),
    setsModify_of_writesOnly _ wd (writesOnly_3s _ df wd ws wt),
    setsModify_of_writesOnly _ wd (writesOnly_3u _ df wd ws wt),
    setsModify_of_writesOnly _ wd (writesOnly_www _ df wd ws wt),
    setsModify_of_writesOnly _ wd (writesOnly_www _ df wd ws wt),
    setsModify_of_writesOnly _ wd (writesOnly_www _ df wd ws wt),
    setsModify_of_writesOnly _ wd (writesOnly_www _ df wd ws wt),
    setsModify_of_writesOnly _ wd (writesOnly_www _ df wd ws wt),
    setsModify_of_writesOnly _ wd (writesOnly_www _ df wd ws wt),
    setsModify_of_writesOnly _ wd (writesOnly_dww _ df wd ws wt),
    setsModify_of_writesOnly _ wd (writesOnly_wi _ df wd ws imm),
    setsModify_of_writesOnly _ wd (writesOnly_3s _ df wd ws wt),
    setsModify_of_writesOnly _ wd (writesOnly_3s _ df wd ws wt),
    setsModify_of_writesOnly _ wd (writesOnly_2s _ df wd ws wt),
    setsModify_of_writesOnly _ wd (writesOnly_2s _ df wd ws wt),
    setsModify_of_writesOnly _ wd (writesOnly_1s _ s5 df wd ws),
    setsModify_of_writesOnly _ wd (writesOnly_2us _ df wd ws wt),
    setsModify_of_writesOnly _ wd (writesOnly_1u _ u5 df wd ws),
    setsModify_of_writesOnly _ wd (writesOnly_2s _ df wd ws wt),
    setsModify_of_writesOnly _ wd (writesOnly_2s _ df wd ws wt),
    setsModify_of_writesOnly _ wd (writesOnly_1s _ s5 df wd ws),
    setsModify_of_writesOnly _ wd (writesOnly_2us _ df wd ws wt),
    setsModify_of_writesOnly _ wd (writesOnly_1u _ u5 df wd ws),
    setsModify_of_writesOnly _ wd (writesOnly_wg _ df wd ws rt),
    setsModify_of_writesOnly _ wd (writesOnly_ldi df wd s10),
    setsModify_of_writesOnly _ wd (writesOnly_2s _ df wd ws wt),
    setsModify_of_writesOnly _ wd (writesOnly_2s _ df wd ws wt),
    setsModify_of_writesOnly _ wd (writesOnly_2us _ df wd ws wt),
    setsModify_of_writesOnly _ wd (writesOnly_2s _ df wd ws wt),
    setsModify_of_writesOnly _ wd (writesOnly_2us _ df wd ws wt),
    setsModify_of_writesOnly _ wd (writesOnly_1um _ m df wd ws),
    setsModify_of_writesOnly _ wd (writesOnly_1sm _ m df wd ws),
    setsModify_of_writesOnly _ wd (writesOnly_2s _ df wd ws wt),
    setsModify_of_writesOnly _ wd (writesOnly_1sm _ m df wd ws),
    setsModify_of_writesOnly _ wd (writesOnly_2s _ df wd ws wt),
    setsModify_of_writesOnly _ wd (writesOnly_1sm _ m df wd ws),
    setsModify_of_writesOnly _ wd (writesOnly_2s _ df wd ws wt),
    setsModify_of_writesOnly _ wd (writesOnly_1sm _ m df wd ws),
    setsModify_of_writesOnly _ wd (writesOnly_2s _ df wd ws wt),
    setsModify_of_writesOnly _ wd (writesOnly_1sm _ m df wd ws),
    setsModify_of_writesOnly _ wd (writesOnly_2s _ df wd ws wt),
    setsModify_of_writesOnly _ wd (writesOnly_1sm _ m df wd ws),
    setsModify_of_writesOnly _ wd (writesOnly_dwg _ df wd ws rt)⟩

/-- Witness for C7: the byte `addv` helper on a concrete write-protected
state sets bit 5 of `msamodify` and keeps the already-set bit 10. -/
theorem claim_C7_witness :
    ∃ e', helper_msa_addv_df envW 0 5 1 2 = some e' ∧
      e'.msamodify.testBit 5 = true ∧ e'.msamodify.testBit 10 = true := by
  have hall := claim_C7 0 5 1 2 3 0 0 0 0 0 0 0
  have h1 : SetsModify (fun env => helper_msa_addv_df env 0 5 1 2) 5 := hall.2.1
  have hs : (helper_msa_addv_df envW 0 5 1 2).isSome = true := by decide
  cases heq : helper_msa_addv_df envW 0 5 1 2 with
  | none => rw [heq] at hs; cases hs
  | some e' =>
    obtain ⟨hbit, hacc⟩ := h1 envW e' rfl heq
    exact ⟨e', rfl, hbit, hacc 10 (by decide)⟩

/-- Witness for C10: the byte `addv` helper on a concrete state leaves the
general-purpose registers, the write-protection flag and a non-destination
vector register untouched, and only ORs the destination bit into
`msamodify`. -/
theorem claim_C10_witness :
    ∃ e', helper_msa_addv_df envW 0 5 1 2 = some e' ∧
      e'.gpr 3 = envW.gpr 3 ∧ e'.wrp = envW.wrp ∧ e'.fpr 1 = envW.fpr 1 ∧
      e'.msamodify = envW.msamodify ||| (1 <<< 5) := by
  have hall := claim_C10 0 5 1 2 3 0 0 0 0 0 0 0
  have h1 : WritesOnly (fun env => helper_msa_addv_df env 0 5 1 2) 5 := hall.2.1
  have hs : (helper_msa_addv_df envW 0 5 1 2).isSome = true := by decide
  cases heq : helper_msa_addv_df envW 0 5 1 2 with
  | none => rw [heq] at hs; cases hs
  | some e' =>
    obtain ⟨hg, hw, hf, hm⟩ := h1 envW e' heq
    refine ⟨e', rfl, congrFun hg 3, hw, hf 1 (by decide), ?_⟩
    rw [hm]
    rfl


/-- C1: for every data format and all lane values sign-extended to 64 bits,
the signed saturating add kernel `msa_adds_s_df` computes `a + b` clamped to
`[DF_MIN_INT df, DF_MAX_INT df]`; in particular, for byte lanes with `ws`
all `0x7f` and `wt` all `0x01`, `helper_msa_adds_s_df` sets every destination
lane to `0x7f`. -/
theorem claim_C1 :
    (∀ df : Nat, df < 4 → ∀ a b : Int,
        DF_MIN_INT df ≤ a → a ≤ DF_MAX_INT df → DF_MIN_INT df ≤ b → b ≤ DF_MAX_INT df →
        msa_adds_s_df df a b = max (DF_MIN_INT df) (min (a + b) (DF_MAX_INT df))) ∧
      (helper_msa_adds_s_df envA 0 0 1 2).map (fun e => e.fpr 0) =
        some 0x7f7f7f7f7f7f7f7f7f7f7f7f7f7f7f7f := by
  constructor
  · intro df hdf a b h1 h2 h3 h4
    interval_cases df <;>
      simp only [msa_adds_s_df, DF_MAX_INT, DF_MIN_INT, DF_BITS_eq] at h1 h2 h3 h4 ⊢ <;>
      norm_num at h1 h2 h3 h4 ⊢ <;>
      split_ifs <;> omega
  · decide

/-- Witness for C1: the byte kernel saturates `100 + 100` to `127`. -/
theorem claim_C1_witness : msa_adds_s_df 0 100 100 = 127 := by
  have h := claim_C1.1 0 (by norm_num) 100 100 (by decide) (by decide) (by decide) (by decide)
  rw [h]
  decide


/-! ### Division and remainder facts for the truncating operations. -/

theorem tmod_natAbs_eq (a b : Int) : (Int.tmod a b).natAbs = a.natAbs % b.natAbs := by
  cases a <;> cases b <;>
    simp only [Int.tmod, Int.natAbs_neg, Int.natAbs_ofNat, Int.natAbs_negSucc] <;> rfl

theorem tmod_sign (a b : Int) : Int.tmod a b = 0 ∨ (0 ≤ Int.tmod a b ↔ 0 ≤ a) := by
  cases a with
  | ofNat m => exact Or.inr (by simp [Int.tmod_nonneg b (Int.ofNat_nonneg m)])
  | negSucc m =>
    have hneg : Int.negSucc m < 0 := Int.negSucc_lt_zero m
    have hle : Int.tmod (Int.negSucc m) b ≤ 0 := by
      cases b with
      | ofNat n =>
        have h : Int.tmod (Int.negSucc m) (Int.ofNat n) = -(((m + 1) % n : Nat) : Int) := rfl
        rw [h]; omega
      | negSucc n =>
        have h : Int.tmod (Int.negSucc m) (Int.negSucc n) =
            -(((m + 1) % (n + 1) : Nat) : Int) := rfl
        rw [h]; omega
    rcases lt_or_eq_of_le hle with h | h
    · right
      constructor <;> intro hc <;> omega
    · left; exact h

theorem tdiv_mul_natAbs_le (a b : Int) : (b * Int.tdiv a b).natAbs ≤ a.natAbs := by
  rw [Int.natAbs_mul, Int.natAbs_tdiv, Nat.mul_comm]
  exact Nat.div_mul_le_self _ _

/-! ### No helper with a decoded data format can raise. -/

theorem step_2s_isSome (kernel : Nat → Int → Int → Int) (df : Nat) (wd ws wt : Fin 32)
    (hdf : df < 4) : ∀ e i, (step_2s kernel df wd ws wt e i).isSome = true := by
  intro e i
  simp [step_2s, msa_load_wr_elem_s64_eq _ _ _ _ hdf, msa_store_wr_elem_eq _ _ _ _ _ hdf]

theorem msa_helper_2s_isSome (kernel : Nat → Int → Int → Int) (env : CPUState) (df : Nat)
    (wd ws wt : Fin 32) (hdf : df < 4) :
    (msa_helper_2s kernel env df wd ws wt).isSome = true := by
  unfold msa_helper_2s
  cases heq : msa_loop (step_2s kernel df wd ws wt) (loop_count df) env with
  | none =>
    have := msa_loop_isSome _ (step_2s_isSome kernel df wd ws wt hdf) (loop_count df) env
    rw [heq] at this
    cases this
  | some e => rfl

theorem msa_splat_df_isSome (df : Nat) (hdf : df < 4) (pws rt : Nat) :
    (msa_splat_df df pws rt).isSome = true := by
  have hc := msa_check_index_true df (rt % DF_ELEMENTS df) hdf
    (Nat.mod_lt _ (DF_ELEMENTS_pos df hdf))
  interval_cases df <;> simp [msa_splat_df, hc]

theorem msa_sld_df_isSome (df : Nat) (hdf : df < 4) (pwd pws rt : Nat) :
    (msa_sld_df df pwd pws rt).isSome = true := by
  have hc := msa_check_index_true df (rt % DF_ELEMENTS df) hdf
    (Nat.mod_lt _ (DF_ELEMENTS_pos df hdf))
  interval_cases df <;> simp [msa_sld_df, hc]

theorem msa_helper_wg_isSome (K : Nat → Nat → Nat → Option Nat) (env : CPUState) (df : Nat)
    (wd ws rt : Fin 32) (hK : ∀ pws g, (K df pws g).isSome = true) :
    (msa_helper_wg K env df wd ws rt).isSome = true := by
  unfold msa_helper_wg
  cases heq : K df (env.fpr ws) (env.gpr rt) with
  | none =>
    have := hK (env.fpr ws) (env.gpr rt)
    rw [heq] at this
    cases this
  | some x => rfl

theorem msa_helper_dwg_isSome (K : Nat → Nat → Nat → Nat → Option Nat) (env : CPUState)
    (df : Nat) (wd ws rt : Fin 32) (hK : ∀ pwd pws g, (K df pwd pws g).isSome = true) :
    (msa_helper_dwg K env df wd ws rt).isSome = true := by
  unfold msa_helper_dwg
  cases heq : K df (env.fpr wd) (env.fpr ws) (env.gpr rt) with
  | none =>
    have := hK (env.fpr wd) (env.fpr ws) (env.gpr rt)
    rw [heq] at this
    cases this
  | some x => rfl

/-- C2: for every data format and sign-extended lane values, `msa_div_s_df`
returns `DF_MIN_INT` on `DF_MIN_INT / -1` and `0` on division by zero, and
otherwise the quotient truncated toward zero; `msa_mod_s_df` returns `0` in
both special cases and otherwise the remainder carrying the sign of the
dividend (the Euclidean identity, remainder bound, remainder sign and the
truncation inequality pin the quotient down uniquely); neither helper raises
an exception, and on word lanes `0x80000000 / 0xffffffff` the destination
lanes become `0x80000000` for `div_s` and `0` for `mod_s`. -/
theorem claim_C2 :
    (∀ df : Nat, df < 4 →
        msa_div_s_df df (DF_MIN_INT df) (-1) = DF_MIN_INT df ∧
        msa_mod_s_df df (DF_MIN_INT df) (-1) = 0 ∧
        (∀ a : Int, msa_div_s_df df a 0 = 0 ∧ msa_mod_s_df df a 0 = 0) ∧
        (∀ a b : Int, b ≠ 0 → ¬(a = DF_MIN_INT df ∧ b = -1) →
          b * msa_div_s_df df a b + msa_mod_s_df df a b = a ∧
          (msa_mod_s_df df a b).natAbs < b.natAbs ∧
          (msa_mod_s_df df a b = 0 ∨ (0 ≤ msa_mod_s_df df a b ↔ 0 ≤ a)) ∧
          (b * msa_div_s_df df a b).natAbs ≤ a.natAbs)) ∧
      (∀ df : Nat, df < 4 → ∀ (env : CPUState) (wd ws wt : Fin 32),
        (helper_msa_div_s_df env df wd ws wt).isSome = true ∧
        (helper_msa_mod_s_df env df wd ws wt).isSome = true) ∧
      (helper_msa_div_s_df envB 2 0 1 2).map (fun e => e.fpr 0) =
        some 0x80000000800000008000000080000000 ∧
      (helper_msa_mod_s_df envB 2 0 1 2).map (fun e => e.fpr 0) = some 0 := by
  refine ⟨?_, ?_, by decide, by decide⟩
  · intro df _hdf
    refine ⟨by simp [msa_div_s_df], by simp [msa_mod_s_df], ?_, ?_⟩
    · intro a
      constructor <;> simp [msa_div_s_df, msa_mod_s_df]
    · intro a b hb hmin
      have hdiv : msa_div_s_df df a b = Int.tdiv a b := by
        simp [msa_div_s_df, hmin, hb]
      have hmod : msa_mod_s_df df a b = Int.tmod a b := by
        simp [msa_mod_s_df, hmin, hb]
      rw [hdiv, hmod]
      refine ⟨Int.tdiv_add_tmod a b, ?_, tmod_sign a b, tdiv_mul_natAbs_le a b⟩
      rw [tmod_natAbs_eq]
      exact Nat.mod_lt _ (Int.natAbs_pos.mpr hb)
  · intro df hdf env wd ws wt
    exact ⟨msa_helper_2s_isSome _ env df wd ws wt hdf,
      msa_helper_2s_isSome _ env df wd ws wt hdf⟩

/-- Witness for C2: the word division of `-7` by `2` satisfies the Euclidean
identity with the truncated quotient. -/
theorem claim_C2_witness :
    (2 : Int) * msa_div_s_df 2 (-7) 2 + msa_mod_s_df 2 (-7) 2 = -7 :=
  (((claim_C2.1 2 (by norm_num)).2.2.2) (-7) 2 (by norm_num) (by decide)).1

/-- C3: for every data format, every guest general-purpose register value and
every register state, `helper_msa_splat_df` and `helper_msa_sld_df` complete
without raising: the defensively reduced lane index
`n = rt % (MSA_WRLEN / DF_BITS df)` is always at most
`MSA_WRLEN / DF_BITS df - 1`, so `msa_check_index` accepts it and the error
branch is unreachable from these helpers. -/
theorem claim_C3 :
    (∀ df : Nat, df < 4 → ∀ (env : CPUState) (wd ws rt : Fin 32),
        (helper_msa_splat_df env df wd ws rt).isSome = true) ∧
      (∀ df : Nat, df < 4 → ∀ (env : CPUState) (wd ws rt : Fin 32),
        (helper_msa_sld_df env df wd ws rt).isSome = true) ∧
      (∀ df : Nat, df < 4 → ∀ g : Nat,
        g % DF_ELEMENTS df ≤ DF_ELEMENTS df - 1 ∧
        msa_check_index df (g % DF_ELEMENTS df) = true) := by
  refine ⟨?_, ?_, ?_⟩
  · intro df hdf env wd ws rt
    exact msa_helper_wg_isSome msa_splat_df env df wd ws rt
      (fun pws g => msa_splat_df_isSome df hdf pws g)
  · intro df hdf env wd ws rt
    exact msa_helper_dwg_isSome msa_sld_df env df wd ws rt
      (fun pwd pws g => msa_sld_df_isSome df hdf pwd pws g)
  · intro df hdf g
    have h := Nat.mod_lt g (DF_ELEMENTS_pos df hdf)
    exact ⟨Nat.le_pred_of_lt h, msa_check_index_true df _ hdf h⟩

/-- Witness for C3: `splat` at double lanes with the guest register holding 7
(lane index `7 % 2 = 1`) completes without an exception. -/
theorem claim_C3_witness : (helper_msa_splat_df envW 3 0 1 3).isSome = true :=
  claim_C3.1 3 (by norm_num) envW 0 1 3


/-- C4: for every data format and all register contents, output lane `i` of
`helper_msa_vshf_df` is zero when the selector lane `wd[i]` has a non-zero
`0xc0` field, and otherwise equals lane `k` of `wt` (for `k < n`) or lane
`k - n` of `ws` (for `k ≥ n`), where `k = (wd[i] & 0x3f) % (2n)` and `n` is
the lane count; in particular a selector of `0xc0` in every byte lane forces
a zero destination regardless of the sources. -/
theorem claim_C4 :
    (∀ df : Nat, df < 4 → ∀ (env : CPUState) (wd ws wt : Fin 32) (i : Nat),
        i < MSA_WRLEN / DF_BITS df →
        (helper_msa_vshf_df env df wd ws wt).map (fun e => lane_get df (e.fpr wd) i) =
          some
            (if lane_get df (env.fpr wd) i &&& 0xc0 ≠ 0 then 0
             else if (lane_get df (env.fpr wd) i &&& 0x3f) % (2 * (MSA_WRLEN / DF_BITS df)) <
                 MSA_WRLEN / DF_BITS df then
               lane_get df (env.fpr wt)
                 ((lane_get df (env.fpr wd) i &&& 0x3f) % (2 * (MSA_WRLEN / DF_BITS df)))
             else
               lane_get df (env.fpr ws)
                 ((lane_get df (env.fpr wd) i &&& 0x3f) % (2 * (MSA_WRLEN / DF_BITS df)) -
                   MSA_WRLEN / DF_BITS df))) ∧
      (helper_msa_vshf_df envC 0 0 1 2).map (fun e => e.fpr 0) = some 0 := by
  constructor
  · intro df hdf env wd ws wt i hi
    interval_cases df <;>
    · simp only [helper_msa_vshf_df, msa_helper_dww, msa_vshf_df]
      rw [Option.map_some']
      refine congrArg some ?_
      rw [wrp_update_fpr]
      dsimp only
      rw [Function.update_same, fill_lanes_get]
      norm_num [DF_BITS_eq, MSA_WRLEN] at hi ⊢
      rw [if_pos hi]
      split_ifs <;> norm_num <;>
        exact lt_of_lt_of_le (lane_get_lt _ _ _) (by norm_num [DF_BITS_eq])
  · decide

/-- Witness for C4: on the fixture with all selector bytes `0xc0`, output
byte lane 3 is zero. -/
theorem claim_C4_witness :
    (helper_msa_vshf_df envC 0 0 1 2).map (fun e => lane_get 0 (e.fpr 0) 3) = some 0 := by
  have h := claim_C4.1 0 (by norm_num) envC 0 1 2 3 (by decide)
  rw [h]
  decide


/-! ### Aliasing safety of the scratch-buffer shape helpers. -/

theorem alias_www (K : Nat → Nat → Nat → Option Nat) (df : Nat) (v : Nat)
    (env env' : CPUState) (r d s t : Fin 32) (h1 : env.fpr r = v)
    (h2 : env'.fpr s = v) (h3 : env'.fpr t = v) :
    (msa_helper_www K env df r r r).map (fun e => e.fpr r) =
      (msa_helper_www K env' df d s t).map (fun e => e.fpr d) := by
  unfold msa_helper_www
  rw [h1, h2, h3]
  cases heq : K df v v with
  | none => rfl
  | some x => simp [wrp_update_fpr]

theorem alias_dww (K : Nat → Nat → Nat → Nat → Option Nat) (df : Nat) (v : Nat)
    (env env' : CPUState) (r d s t : Fin 32) (h1 : env.fpr r = v)
    (h2 : env'.fpr d = v) (h3 : env'.fpr s = v) (h4 : env'.fpr t = v) :
    (msa_helper_dww K env df r r r).map (fun e => e.fpr r) =
      (msa_helper_dww K env' df d s t).map (fun e => e.fpr d) := by
  unfold msa_helper_dww
  rw [h1, h2, h3, h4]
  cases heq : K df v v v with
  | none => rfl
  | some x => simp [wrp_update_fpr]

theorem alias_wi (K : Nat → Nat → Nat → Option Nat) (df : Nat) (v imm : Nat)
    (env env' : CPUState) (r d s : Fin 32) (h1 : env.fpr r = v) (h2 : env'.fpr s = v) :
    (msa_helper_wi K env df r r imm).map (fun e => e.fpr r) =
      (msa_helper_wi K env' df d s imm).map (fun e => e.fpr d) := by
  unfold msa_helper_wi
  rw [h1, h2]
  cases heq : K df v imm with
  | none => rfl
  | some x => simp [wrp_update_fpr]

theorem alias_wg (K : Nat → Nat → Nat → Option Nat) (df : Nat) (v : Nat)
    (env env' : CPUState) (r d s g : Fin 32) (h1 : env.fpr r = v) (h2 : env'.fpr s = v)
    (hg : env.gpr g = env'.gpr g) :
    (msa_helper_wg K env df r r g).map (fun e => e.fpr r) =
      (msa_helper_wg K env' df d s g).map (fun e => e.fpr d) := by
  unfold msa_helper_wg
  rw [h1, h2, hg]
  cases heq : K df v (env'.gpr g) with
  | none => rfl
  | some x => simp [wrp_update_fpr]

theorem alias_dwg (K : Nat → Nat → Nat → Nat → Option Nat) (df : Nat) (v : Nat)
    (env env' : CPUState) (r d s g : Fin 32) (h1 : env.fpr r = v) (h2 : env'.fpr d = v)
    (h3 : env'.fpr s = v) (hg : env.gpr g = env'.gpr g) :
    (msa_helper_dwg K env df r r g).map (fun e => e.fpr r) =
      (msa_helper_dwg K env' df d s g).map (fun e => e.fpr d) := by
  unfold msa_helper_dwg
  rw [h1, h2, h3, hg]
  cases heq : K df v v (env'.gpr g) with
  | none => rfl
  | some x => simp [wrp_update_fpr]

/-- C6: for every shape helper (`ilvev`, `ilvod`, `ilvl`, `ilvr`, `pckev`,
`pckod`, `vshf`, `shf`, `splat`, `sld`), every data format for which the
helper is defined, and every register value `v`: invoking the helper with all
register operands aliased to one register holding `v` leaves the destination
with exactly the same final 128-bit value as invoking it with pairwise
distinct registers each pre-loaded with `v`. -/
theorem claim_C6 :
    ∀ (df : Nat) (v : Nat) (env env' : CPUState) (r d s t g : Fin 32) (imm : Nat),
      env.fpr r = v → d ≠ s → d ≠ t → s ≠ t →
      env'.fpr d = v → env'.fpr s = v → env'.fpr t = v →
      env.gpr g = env'.gpr g →
      ((helper_msa_ilvev_df env df r r r).map (fun e => e.fpr r) =
        (helper_msa_ilvev_df env' df d s t).map (fun e => e.fpr d)) ∧
      ((helper_msa_ilvod_df env df r r r).map (fun e => e.fpr r) =
        (helper_msa_ilvod_df env' df d s t).map (fun e => e.fpr d)) ∧
      ((helper_msa_ilvl_df env df r r r).map (fun e => e.fpr r) =
        (helper_msa_ilvl_df env' df d s t).map (fun e => e.fpr d)) ∧
      ((helper_msa_ilvr_df env df r r r).map (fun e => e.fpr r) =
        (helper_msa_ilvr_df env' df d s t).map (fun e => e.fpr d)) ∧
      ((helper_msa_pckev_df env df r r r).map (fun e => e.fpr r) =
        (helper_msa_pckev_df env' df d s t).map (fun e => e.fpr d)) ∧
      ((helper_msa_pckod_df env df r r r).map (fun e => e.fpr r) =
        (helper_msa_pckod_df env' df d s t).map (fun e => e.fpr d)) ∧
      ((helper_msa_vshf_df env df r r r).map (fun e => e.fpr r) =
        (helper_msa_vshf_df env' df d s t).map (fun e => e.fpr d)) ∧
      ((helper_msa_shf_df env df r r imm).map (fun e => e.fpr r) =
        (helper_msa_shf_df env' df d s imm).map (fun e => e.fpr d)) ∧
      ((helper_msa_splat_df env df r r g).map (fun e => e.fpr r) =
        (helper_msa_splat_df env' df d s g).map (fun e => e.fpr d)) ∧
      ((helper_msa_sld_df env df r r g).map (fun e => e.fpr r) =
        (helper_msa_sld_df env' df d s g).map (fun e => e.fpr d)) := by
  intro df v env env' r d s t g imm h1 _hds _hdt _hst h2 h3 h4 hg
  exact ⟨alias_www msa_ilvev_df df v env env' r d s t h1 h3 h4,
    alias_www msa_ilvod_df df v env env' r d s t h1 h3 h4,
    alias_www msa_ilvl_df df v env env' r d s t h1 h3 h4,
    alias_www msa_ilvr_df df v env env' r d s t h1 h3 h4,
    alias_www msa_pckev_df df v env env' r d s t h1 h3 h4,
    alias_www msa_pckod_df df v env env' r d s t h1 h3 h4,
    alias_dww msa_vshf_df df v env env' r d s t h1 h2 h3 h4,
    alias_wi msa_shf_df df v imm env env' r d s h1 h3,
    alias_wg msa_splat_df df v env env' r d s g h1 h3 hg,
    alias_dwg msa_sld_df df v env env' r d s g h1 h2 h3 hg⟩

/-- Witness for C6: byte `ilvev` on one register aliased three ways matches
the three-distinct-register run on fixtures holding the same value. -/
theorem claim_C6_witness :
    (helper_msa_ilvev_df envW 0 1 1 1).map (fun e => e.fpr 1) =
      (helper_msa_ilvev_df envV 0 3 4 5).map (fun e => e.fpr 3) :=
  (claim_C6 0 0x0f0e0d0c0b0a09080706050403020100 envW envV 1 3 4 5 3 0 rfl
    (by decide) (by decide) (by decide) rfl rfl rfl rfl).1

theorem emod_eq_mod (a b : Int) : a.emod b = a % b := rfl

theorem unsigned_toS64 (df : Nat) (x : Int) (hW : DF_BITS df ≤ 64)
    (h0 : 0 ≤ x) (hx : x < 2 ^ DF_BITS df) :
    UNSIGNED (toS64 x) df = x.toNat := by
  have hle : (2:Int) ^ DF_BITS df ≤ 2 ^ 64 := pow_le_pow_right₀ (by norm_num) hW
  have h64 : x % ((2:Int) ^ 64) = x := Int.emod_eq_of_lt h0 (lt_of_lt_of_le hx hle)
  have hxW : x % ((2:Int) ^ DF_BITS df) = x := Int.emod_eq_of_lt h0 hx
  unfold UNSIGNED toS64 sext
  dsimp only
  simp only [emod_eq_mod]
  rw [h64]
  split_ifs with h
  · rw [hxW]
  · have hdvd : ((2:Int) ^ DF_BITS df) ∣ 2 ^ 64 := pow_dvd_pow 2 hW
    rw [Int.sub_emod, Int.emod_eq_zero_of_dvd hdvd, hxW, sub_zero, hxW]

/-- C8: for every data format `df`, every lane value `a` read as an unsigned
`W`-bit integer (`W = DF_BITS df`) and every lane value `b` sign-extended to
64 bits, the `W`-bit pattern produced by `msa_subsus_u_df df a b` is
`max 0 (a - b)` when `b ≥ 0` and `min (a + |b|) (DF_MAX_UINT df)` when
`b < 0`. -/
theorem claim_C8 (df : Nat) (a : Nat) (b : Int) (hdf : df < 4)
    (ha : a < 2 ^ DF_BITS df) (hb1 : DF_MIN_INT df ≤ b) (hb2 : b ≤ DF_MAX_INT df) :
    UNSIGNED (msa_subsus_u_df df ((a : Int)) b) df =
      if 0 ≤ b then (max 0 ((a : Int) - b)).toNat
      else min (a + (-b).toNat) (DF_MAX_UINT df) := by
  have hW : DF_BITS df ≤ 64 := by interval_cases df <;> norm_num [DF_BITS_eq]
  have hW1 : 1 ≤ DF_BITS df := DF_BITS_pos df
  have hle : (2:Int) ^ DF_BITS df ≤ 2 ^ 64 := pow_le_pow_right₀ (by norm_num) hW
  have hhalf : (2:Int) ^ (DF_BITS df - 1) ≤ 2 ^ 63 :=
    pow_le_pow_right₀ (by norm_num) (by omega)
  have hhalfW : (2:Int) ^ (DF_BITS df - 1) * 2 = 2 ^ DF_BITS df := by
    rw [← pow_succ]
    congr 1
    omega
  have h1half : (1:Int) ≤ 2 ^ (DF_BITS df - 1) := one_le_pow₀ (by norm_num)
  have hPQ : (((2 ^ DF_BITS df : Nat)) : Int) = 2 ^ DF_BITS df := by push_cast; ring
  have haZ : ((a : Int)) < 2 ^ DF_BITS df := by rw [← hPQ]; exact_mod_cast ha
  have hmu : ((DF_MAX_UINT df : Nat) : Int) = 2 ^ DF_BITS df - 1 := by
    rw [DF_MAX_UINT, Nat.cast_sub (Nat.one_le_two_pow), Nat.cast_pow, Nat.cast_ofNat,
      Nat.cast_one]
  have hu1 : UNSIGNED ((a : Int)) df = a := by
    unfold UNSIGNED
    simp only [emod_eq_mod]
    rw [Int.emod_eq_of_lt (Int.natCast_nonneg a) haZ]
    exact Int.toNat_natCast a
  rw [DF_MIN_INT] at hb1
  rw [DF_MAX_INT] at hb2
  unfold msa_subsus_u_df
  dsimp only
  simp only [emod_eq_mod]
  rw [hu1]
  rcases le_or_lt 0 b with hb | hb
  · rw [if_pos hb, if_pos hb]
    have hb64 : b < (2:Int) ^ 64 := by
      calc b ≤ 2 ^ (DF_BITS df - 1) - 1 := hb2
        _ < 2 ^ 63 := by linarith
        _ < 2 ^ 64 := by norm_num
    have hub : toU64 b = b.toNat := by
      unfold toU64
      simp only [emod_eq_mod]
      rw [Int.emod_eq_of_lt hb hb64]
    rw [hub]
    split_ifs with hgt
    · have h0 : (0:Int) ≤ (a : Int) - (b.toNat : Int) := by omega
      have hxlt : ((a : Int)) - (b.toNat : Int) < 2 ^ DF_BITS df := by
        have := Int.natCast_nonneg b.toNat
        linarith
      rw [unsigned_toS64 df _ hW h0 hxlt]
      rw [max_eq_right (show (0:Int) ≤ (a : Int) - b by omega)]
      omega
    · rw [max_eq_left (show ((a : Int)) - b ≤ 0 by omega)]
      unfold UNSIGNED
      rw [emod_eq_mod, Int.zero_emod]
  · rw [if_neg (not_le.mpr hb), if_neg (not_le.mpr hb)]
    have hnb63 : -b ≤ (2:Int) ^ 63 := by linarith
    have hub : toU64 (-b) = (-b).toNat := by
      unfold toU64
      simp only [emod_eq_mod]
      rw [Int.emod_eq_of_lt (by omega) (by linarith [hnb63] )]
    have htn : (((-b).toNat : Nat) : Int) = -b := Int.toNat_of_nonneg (by omega)
    have htnle : (((-b).toNat : Nat) : Int) ≤ 2 ^ (DF_BITS df - 1) := by
      rw [htn]; linarith
    rw [hub]
    have hcond : (((DF_MAX_UINT df : Nat) : Int) - (((-b).toNat : Nat) : Int)) % ((2:Int) ^ 64) =
        2 ^ DF_BITS df - 1 - (((-b).toNat : Nat) : Int) := by
      rw [hmu]
      apply Int.emod_eq_of_lt
      · linarith
      · have := Int.natCast_nonneg (-b).toNat
        linarith
    simp only [hcond]
    split_ifs with hlt
    · have h0 : (0:Int) ≤ (a : Int) + (((-b).toNat : Nat) : Int) := by positivity
      have hxlt : ((a : Int)) + (((-b).toNat : Nat) : Int) < 2 ^ DF_BITS df := by linarith
      rw [unsigned_toS64 df _ hW h0 hxlt]
      have hmin : a + (-b).toNat ≤ DF_MAX_UINT df := by
        have hN : DF_MAX_UINT df = 2 ^ DF_BITS df - 1 := rfl
        omega
      rw [min_eq_left hmin]
      omega
    · have hmin : DF_MAX_UINT df ≤ a + (-b).toNat := by
        have hN : DF_MAX_UINT df = 2 ^ DF_BITS df - 1 := rfl
        push_neg at hlt
        omega
      rw [min_eq_right hmin]
      unfold UNSIGNED
      simp only [emod_eq_mod]
      rw [hmu, Int.emod_eq_of_lt (by linarith) (by linarith)]
      omega

/-- Witness for C8: `df = half`, `a = 100`, `b = -200` lands in the additive
branch and saturates nowhere: the result pattern is `300`. -/
theorem claim_C8_witness :
    UNSIGNED (msa_subsus_u_df 1 ((100 : Nat) : Int) (-200)) 1 =
      if (0:Int) ≤ -200 then (max 0 (((100 : Nat) : Int) - (-200))).toNat
      else min (100 + ((-(-200) : Int)).toNat) (DF_MAX_UINT 1) :=
  claim_C8 1 100 (-200) (by decide) (by decide) (by decide) (by decide)


/-! ### C9: the immediate shift against the register shift. -/

theorem bcast_lane (df m j : Nat) (hm : m < 2 ^ DF_BITS df) (hj : j < DF_ELEMENTS df) :
    lane_get df (bcast df m) j = m := by
  unfold bcast
  rw [fill_lanes_get, if_pos hj, Nat.mod_eq_of_lt hm]

theorem signed_small (df m : Nat) (hdf : df < 4) (hm : m < DF_BITS df) :
    SIGNED ((m : Nat) : Int) df = (m : Int) := by
  have hmW : ((m : Nat) : Int) < 2 ^ DF_BITS df ∧ ((m : Nat) : Int) < 2 ^ (DF_BITS df - 1) := by
    interval_cases df <;> simp only [DF_BITS_eq] at hm ⊢ <;> norm_num at hm ⊢ <;> omega
  unfold SIGNED sext
  dsimp only
  simp only [emod_eq_mod]
  rw [Int.emod_eq_of_lt (Int.natCast_nonneg m) hmW.1, if_pos hmW.2]

theorem sll_imm (df m : Nat) (hdf : df < 4) (hm : m < DF_BITS df) (ts : Int) :
    msa_sll_df df ts ((m : Nat) : Int) = toS64 (ts * 2 ^ m) := by
  have hW : DF_BITS df ≤ 64 := by interval_cases df <;> norm_num [DF_BITS_eq]
  have h1 : toU64 ((m : Nat) : Int) = m := by
    unfold toU64
    simp only [emod_eq_mod]
    rw [Int.emod_eq_of_lt (Int.natCast_nonneg m)
      (by exact_mod_cast (show m < 2 ^ 64 by omega))]
    exact Int.toNat_natCast m
  unfold msa_sll_df BIT_POSITION
  dsimp only
  rw [h1, Nat.mod_eq_of_lt hm]

theorem slli_sll_loop (df m : Nat) (wd ws wt : Fin 32) (hdf : df < 4)
    (hm : m < DF_BITS df) (htw : wt ≠ wd) (hts : wt ≠ ws) :
    ∀ (n : Nat) (e1 e2 : CPUState),
      e2.fpr = Function.update e1.fpr wt (bcast df m) →
      e2.wrp = e1.wrp → e2.msamodify = e1.msamodify →
      ∃ f1 f2,
        msa_loop (step_1sm (fun _df ts k => toS64 (ts * 2 ^ k)) m df wd ws) n e1 = some f1 ∧
        msa_loop (step_2s msa_sll_df df wd ws wt) n e2 = some f2 ∧
        f2.fpr = Function.update f1.fpr wt (bcast df m) ∧
        f2.wrp = f1.wrp ∧ f2.msamodify = f1.msamodify := by
  have hmlt : m < 2 ^ DF_BITS df :=
    lt_trans hm (Nat.lt_pow_self (by norm_num) _)
  intro n
  induction n with
  | zero => intro e1 e2 hf hw hmm; exact ⟨e1, e2, rfl, rfl, hf, hw, hmm⟩
  | succ k ih =>
    intro e1 e2 hf hw hmm
    obtain ⟨f1, f2, h1, h2, hf', hw', hmm'⟩ := ih e1 e2 hf hw hmm
    have hload_ws : msa_load_wr_elem_s64 f2 ws df k = msa_load_wr_elem_s64 f1 ws df k := by
      rw [msa_load_wr_elem_s64_eq _ _ _ _ hdf, msa_load_wr_elem_s64_eq _ _ _ _ hdf, hf',
        Function.update_noteq (Ne.symm hts)]
    have hload_wt : msa_load_wr_elem_s64 f2 wt df k = some ((m : Nat) : Int) := by
      rw [msa_load_wr_elem_s64_eq _ _ _ _ hdf, hf', Function.update_same,
        bcast_lane df m _ hmlt (Nat.mod_lt _ (DF_ELEMENTS_pos df hdf)),
        signed_small df m hdf hm]
    have hfd : f2.fpr wd = f1.fpr wd := by
      rw [hf', Function.update_noteq (Ne.symm htw)]
    have hstep1 : step_1sm (fun _df ts k => toS64 (ts * 2 ^ k)) m df wd ws f1 k = some
        { f1 with fpr := Function.update f1.fpr wd (lane_set df (f1.fpr wd)
            (k % DF_ELEMENTS df)
            (toU64 (toS64 (SIGNED ((lane_get df (f1.fpr ws) (k % DF_ELEMENTS df) : Nat) : Int)
              df * 2 ^ m)))) } := by
      unfold step_1sm
      rw [msa_load_wr_elem_s64_eq _ _ _ _ hdf]
      dsimp only
      rw [msa_store_wr_elem_eq _ _ _ _ _ hdf]
    have hstep2 : step_2s msa_sll_df df wd ws wt f2 k = some
        { f2 with fpr := Function.update f2.fpr wd (lane_set df (f1.fpr wd)
            (k % DF_ELEMENTS df)
            (toU64 (toS64 (SIGNED ((lane_get df (f1.fpr ws) (k % DF_ELEMENTS df) : Nat) : Int)
              df * 2 ^ m)))) } := by
      unfold step_2s
      rw [hload_ws, msa_load_wr_elem_s64_eq _ _ _ _ hdf, hload_wt]
      dsimp only
      rw [msa_store_wr_elem_eq _ _ _ _ _ hdf, hfd,
        sll_imm df m hdf hm]
    refine ⟨{ f1 with fpr := Function.update f1.fpr wd (lane_set df (f1.fpr wd)
        (k % DF_ELEMENTS df)
        (toU64 (toS64 (SIGNED ((lane_get df (f1.fpr ws) (k % DF_ELEMENTS df) : Nat) : Int)
          df * 2 ^ m)))) },
      { f2 with fpr := Function.update f2.fpr wd (lane_set df (f1.fpr wd)
        (k % DF_ELEMENTS df)
        (toU64 (toS64 (SIGNED ((lane_get df (f1.fpr ws) (k % DF_ELEMENTS df) : Nat) : Int)
          df * 2 ^ m)))) }, ?_, ?_, ?_, ?_, ?_⟩
    · simp only [msa_loop]
      rw [h1]
      exact hstep1
    · simp only [msa_loop]
      rw [h2]
      exact hstep2
    · dsimp only
      rw [hf', Function.update_comm htw]
    · exact hw'
    · exact hmm'

/-- C9 (amended): for every data format `df` and shift immediate `m < DF_BITS df`,
`helper_msa_slli_df df wd ws m` leaves the destination with exactly the same
value as `helper_msa_sll_df df wd ws wt` run from a state whose register `wt`
(distinct from `wd` and `ws`) holds `m` broadcast to every lane.  For
`m ≥ DF_BITS df` the two differ: `slli` shifts by the full `m` while the
`sll` kernel reduces the shift modulo the lane width (see the
counterexample). -/
theorem claim_C9 (df m : Nat) (env : CPUState) (wd ws wt : Fin 32)
    (hdf : df < 4) (hm : m < DF_BITS df) (htw : wt ≠ wd) (hts : wt ≠ ws) :
    (helper_msa_slli_df env df wd ws m).map (fun e => e.fpr wd) =
      (helper_msa_sll_df { env with fpr := Function.update env.fpr wt (bcast df m) }
        df wd ws wt).map (fun e => e.fpr wd) := by
  obtain ⟨f1, f2, h1, h2, hf, hw, -⟩ :=
    slli_sll_loop df m wd ws wt hdf hm htw hts (loop_count df) env
      { env with fpr := Function.update env.fpr wt (bcast df m) } rfl rfl rfl
  unfold helper_msa_slli_df helper_msa_sll_df msa_helper_1sm msa_helper_2s
  rw [h1, h2]
  dsimp only [Option.map_some']
  rw [wrp_update_fpr, wrp_update_fpr, hf, Function.update_noteq (Ne.symm htw)]

/-- Counterexample for C9 as stated: at `df = 0` (bytes) with `m = 8`,
`slli` shifts every sign-extended byte left by the full 8 bits (the stored
low byte becomes 0), while the `sll` kernel applied to a register holding 8
in every lane reduces the shift amount to `8 mod 8 = 0` and copies the
source unchanged. -/
theorem claim_C9_counterexample :
    (helper_msa_slli_df envD 0 0 1 8).map (fun e => e.fpr 0) ≠
      (helper_msa_sll_df envD2 0 0 1 2).map (fun e => e.fpr 0) := by
  decide

/-- Witness for C9 (amended): `df = 0`, `m = 3`, `wt = 2`. -/
theorem claim_C9_witness :
    (helper_msa_slli_df envD 0 0 1 3).map (fun e => e.fpr 0) =
      (helper_msa_sll_df { envD with fpr := Function.update envD.fpr 2 (bcast 0 3) }
        0 0 1 2).map (fun e => e.fpr 0) :=
  claim_C9 0 3 envD 0 1 2 (by decide) (by decide) (by decide) (by decide)

/-! ### C5: the concatenate-and-slide semantics of `sld`. -/

theorem lane_get0_eq (x j : Nat) : lane_get 0 x j = x / 2 ^ (8 * j) % 2 ^ 8 := by
  unfold lane_get
  rw [Nat.shiftRight_eq_div_pow]
  norm_num [DF_BITS_eq]

theorem eq_of_bytes (s : Nat) : ∀ x y : Nat, x < 2 ^ (8 * s) → y < 2 ^ (8 * s) →
    (∀ j, j < s → lane_get 0 x j = lane_get 0 y j) → x = y := by
  induction s with
  | zero =>
    intro x y hx hy _
    simp only [Nat.mul_zero, pow_zero] at hx hy
    omega
  | succ t ih =>
    intro x y hx hy h
    have hsp : (2:Nat) ^ (8 * (t + 1)) = 2 ^ (8 * t) * 2 ^ 8 := by
      rw [show 8 * (t + 1) = 8 * t + 8 by ring, pow_add]
    have hx' : x / 2 ^ 8 < 2 ^ (8 * t) := by
      rw [Nat.div_lt_iff_lt_mul (by norm_num)]
      exact lt_of_lt_of_eq hx hsp
    have hy' : y / 2 ^ 8 < 2 ^ (8 * t) := by
      rw [Nat.div_lt_iff_lt_mul (by norm_num)]
      exact lt_of_lt_of_eq hy hsp
    have hbytes : ∀ j, j < t → lane_get 0 (x / 2 ^ 8) j = lane_get 0 (y / 2 ^ 8) j := by
      intro j hj
      have hh := h (j + 1) (by omega)
      rw [lane_get0_eq, lane_get0_eq] at hh ⊢
      rw [Nat.div_div_eq_div_mul, Nat.div_div_eq_div_mul, ← pow_add,
        show 8 + 8 * j = 8 * (j + 1) by ring]
      exact hh
    have hd := ih _ _ hx' hy' hbytes
    have h0 := h 0 (by omega)
    rw [lane_get0_eq, lane_get0_eq] at h0
    norm_num at h0
    omega

theorem write_range_get (df base cnt : Nat) (g : Nat → Nat) (v : Nat) (j : Nat) :
    lane_get df ((List.range cnt).foldl (fun a i => lane_set df a (base + i) (g i)) v) j =
      if base ≤ j ∧ j < base + cnt then g (j - base) % 2 ^ DF_BITS df
      else lane_get df v j := by
  induction cnt with
  | zero => rw [List.range_zero, List.foldl_nil, if_neg (by omega)]
  | succ t ih =>
    rw [List.range_succ, List.foldl_append, List.foldl_cons, List.foldl_nil,
      lane_get_lane_set, ih]
    split_ifs with h1 h2 h2 h3 <;> try omega
    · subst h1
      rw [Nat.add_sub_cancel_left]

theorem concat_slide_get (s k n pws pwd j : Nat) :
    lane_get 0 (concat_and_slide s k n pws pwd) j =
      if s * k ≤ j ∧ j < s * k + s then
        (if (j - s * k) + n < s then lane_get 0 pws (s * k + ((j - s * k) + n))
         else lane_get 0 pwd (s * k + ((j - s * k) + n - s)))
      else lane_get 0 pwd j := by
  have h := write_range_get 0 (s * k) s
    (fun i => if i + n < s then lane_get 0 pws (s * k + (i + n))
      else lane_get 0 pwd (s * k + (i + n - s))) pwd j
  unfold concat_and_slide
  rw [h]
  split_ifs with hc hc2
  · exact Nat.mod_eq_of_lt (lane_get_lt _ _ _)
  · exact Nat.mod_eq_of_lt (lane_get_lt _ _ _)
  · rfl

theorem sld_fold_get (s n pws pwd : Nat) (hn : n < s) :
    ∀ c : Nat,
      (∀ k i, k < c → i < s →
        lane_get 0 ((List.range c).foldl (fun acc k => concat_and_slide s k n pws acc) pwd)
            (s * k + i) =
          (if i + n < s then lane_get 0 pws (s * k + (i + n))
           else lane_get 0 pwd (s * k + (i + n - s)))) ∧
      (∀ j, s * c ≤ j →
        lane_get 0 ((List.range c).foldl (fun acc k => concat_and_slide s k n pws acc) pwd) j =
          lane_get 0 pwd j) := by
  intro c
  induction c with
  | zero =>
    refine ⟨fun k i hk _ => absurd hk (Nat.not_lt_zero k), fun j _ => ?_⟩
    rw [List.range_zero, List.foldl_nil]
  | succ t ih =>
    obtain ⟨ih1, ih2⟩ := ih
    have hfold : (List.range (t + 1)).foldl
          (fun acc k => concat_and_slide s k n pws acc) pwd =
        concat_and_slide s t n pws
          ((List.range t).foldl (fun acc k => concat_and_slide s k n pws acc) pwd) := by
      rw [List.range_succ, List.foldl_append, List.foldl_cons, List.foldl_nil]
    constructor
    · intro k i hk hi
      rw [hfold, concat_slide_get]
      rcases Nat.lt_or_ge k t with hkt | hkt
      · have hlt : s * k + i < s * t := by
          calc s * k + i < s * k + s := by omega
            _ = s * (k + 1) := by ring
            _ ≤ s * t := Nat.mul_le_mul_left s hkt
        rw [if_neg (fun hcc => absurd hlt (Nat.not_lt.mpr hcc.1))]
        exact ih1 k i hkt hi
      · have hkt' : k = t := by omega
        subst hkt'
        rw [if_pos ⟨Nat.le_add_right _ _, Nat.add_lt_add_left hi _⟩,
          Nat.add_sub_cancel_left]
        split_ifs with h2
        · rfl
        · exact ih2 _ (Nat.le_add_right _ _)
    · intro j hj
      have hj' : s * t + s ≤ j := by
        calc s * t + s = s * (t + 1) := by ring
          _ ≤ j := hj
      rw [hfold, concat_slide_get,
        if_neg (fun hcc => absurd hcc.2 (Nat.not_lt.mpr hj'))]
      exact ih2 j (le_trans (Nat.mul_le_mul_left s (Nat.le_succ t)) hj)

theorem get_slice_lt (s k v : Nat) : get_slice s k v < 2 ^ (8 * s) :=
  Nat.mod_lt _ (by positivity)

theorem sld_slice_spec_lt (s n wdS wsS : Nat) : sld_slice_spec s n wdS wsS < 2 ^ (8 * s) :=
  Nat.mod_lt _ (by positivity)

theorem get_slice_byte (s k v j : Nat) (hj : j < s) :
    lane_get 0 (get_slice s k v) j = lane_get 0 v (s * k + j) := by
  rw [lane_get0_eq, lane_get0_eq]
  unfold get_slice
  rw [Nat.shiftRight_eq_div_pow,
    mod_pow_div_pow _ _ _ (Nat.mul_le_mul_left 8 (le_of_lt hj)),
    Nat.mod_mod_of_dvd _ (pow_dvd_pow 2 (by omega)),
    Nat.div_div_eq_div_mul, ← pow_add,
    show 8 * (s * k) + 8 * j = 8 * (s * k + j) by ring]

theorem sld_spec_byte (s n wdS wsS j : Nat) (hn : n < s) (hj : j < s)
    (hws : wsS < 2 ^ (8 * s)) :
    lane_get 0 (sld_slice_spec s n wdS wsS) j =
      if j + n < s then lane_get 0 wsS (j + n) else lane_get 0 wdS (j + n - s) := by
  rw [lane_get0_eq]
  unfold sld_slice_spec
  rw [Nat.shiftRight_eq_div_pow,
    mod_pow_div_pow _ _ _ (Nat.mul_le_mul_left 8 (le_of_lt hj)),
    Nat.mod_mod_of_dvd _ (pow_dvd_pow 2 (by omega)),
    Nat.div_div_eq_div_mul, ← pow_add]
  rcases Nat.lt_or_ge (j + n) s with hns | hns
  · rw [if_pos hns, lane_get0_eq]
    have hsplit : wdS * 2 ^ (8 * s) =
        wdS * 2 ^ (8 * s - (8 * n + 8 * j)) * 2 ^ (8 * n + 8 * j) := by
      rw [mul_assoc, ← pow_add]
      congr 2
      omega
    rw [hsplit, Nat.add_mul_div_right _ _ (by positivity)]
    have h2 : wdS * 2 ^ (8 * s - (8 * n + 8 * j)) =
        wdS * 2 ^ ((8 * s - (8 * n + 8 * j)) - 8) * 2 ^ 8 := by
      rw [mul_assoc, ← pow_add]
      congr 2
      omega
    rw [h2, Nat.add_mul_mod_self_right,
      show 8 * n + 8 * j = 8 * (j + n) by ring]
  · rw [if_neg (Nat.not_lt.mpr hns), lane_get0_eq]
    rw [show 8 * n + 8 * j = 8 * s + 8 * (j + n - s) by omega,
      pow_add, ← Nat.div_div_eq_div_mul,
      Nat.add_mul_div_right _ _ (by positivity), Nat.div_eq_of_lt hws,
      Nat.zero_add]

theorem sld_generic (s c n pws pwd : Nat) (hn : n < s) (k : Nat) (hk : k < c) :
    get_slice s k
        ((List.range c).foldl (fun acc k => concat_and_slide s k n pws acc) pwd) =
      sld_slice_spec s n (get_slice s k pwd) (get_slice s k pws) := by
  obtain ⟨h1, -⟩ := sld_fold_get s n pws pwd hn c
  apply eq_of_bytes s _ _ (get_slice_lt _ _ _) (sld_slice_spec_lt _ _ _ _)
  intro j hj
  rw [get_slice_byte _ _ _ _ hj, h1 k j hk hj,
    sld_spec_byte _ _ _ _ _ hn hj (get_slice_lt _ _ _)]
  split_ifs with ha
  · rw [get_slice_byte _ _ _ _ ha]
  · rw [get_slice_byte _ _ _ _ (by omega)]


theorem msa_sld_df_eq0 (pwd pws g : Nat) :
    msa_sld_df 0 pwd pws g =
      some ((List.range 1).foldl
        (fun acc k => concat_and_slide (16 / 2 ^ 0) k (g % DF_ELEMENTS 0) pws acc) pwd) := by
  unfold msa_sld_df
  dsimp only
  rw [if_pos (msa_check_index_true 0 _ (by norm_num) (Nat.mod_lt _ (by decide)))]
  rw [show List.range 1 = [0] from rfl, List.foldl_cons, List.foldl_nil]
  norm_num [MSA_WRLEN]

theorem msa_sld_df_eq1 (pwd pws g : Nat) :
    msa_sld_df 1 pwd pws g =
      some ((List.range 2).foldl
        (fun acc k => concat_and_slide (16 / 2 ^ 1) k (g % DF_ELEMENTS 1) pws acc) pwd) := by
  unfold msa_sld_df
  dsimp only
  rw [if_pos (msa_check_index_true 1 _ (by norm_num) (Nat.mod_lt _ (by decide)))]
  norm_num [MSA_WRLEN]

theorem msa_sld_df_eq2 (pwd pws g : Nat) :
    msa_sld_df 2 pwd pws g =
      some ((List.range 4).foldl
        (fun acc k => concat_and_slide (16 / 2 ^ 2) k (g % DF_ELEMENTS 2) pws acc) pwd) := by
  unfold msa_sld_df
  dsimp only
  rw [if_pos (msa_check_index_true 2 _ (by norm_num) (Nat.mod_lt _ (by decide)))]
  norm_num [MSA_WRLEN]

theorem msa_sld_df_eq3 (pwd pws g : Nat) :
    msa_sld_df 3 pwd pws g =
      some ((List.range 8).foldl
        (fun acc k => concat_and_slide (16 / 2 ^ 3) k (g % DF_ELEMENTS 3) pws acc) pwd) := by
  unfold msa_sld_df
  dsimp only
  rw [if_pos (msa_check_index_true 3 _ (by norm_num) (Nat.mod_lt _ (by decide)))]
  norm_num [MSA_WRLEN]

/-- C5 (amended): for every data format `df` and every general-purpose
register value, `helper_msa_sld_df` with `n = gpr mod DF_ELEMENTS(df)`
operates independently on the `2^df` slices of `16 / 2^df` bytes
(`128 / 2^df` bits) each: slice `k` of the new `wd` consists of the
`16 / 2^df` bytes starting at BYTE offset `n` of the concatenation of slice
`k` of `ws` (low) and slice `k` of the old `wd` (high).  The spec's reading
(shift by `n` element positions, slices of `128 / 2^(3-df)` bits) matches the
code only at `df = byte`; see the counterexample. -/
theorem claim_C5 (df : Nat) (env : CPUState) (wd ws rt : Fin 32)
    (hdf : df < 4) (k : Nat) (hk : k < 2 ^ df) :
    (helper_msa_sld_df env df wd ws rt).map
        (fun e => get_slice (16 / 2 ^ df) k (e.fpr wd)) =
      some (sld_slice_spec (16 / 2 ^ df) (env.gpr rt % DF_ELEMENTS df)
        (get_slice (16 / 2 ^ df) k (env.fpr wd))
        (get_slice (16 / 2 ^ df) k (env.fpr ws))) := by
  unfold helper_msa_sld_df msa_helper_dwg
  interval_cases df
  · rw [msa_sld_df_eq0]
    dsimp only
    rw [Option.map_some']
    refine congrArg some ?_
    rw [wrp_update_fpr]
    dsimp only
    rw [Function.update_same]
    exact sld_generic _ 1 _ _ _ (Nat.mod_lt _ (by decide)) k hk
  · rw [msa_sld_df_eq1]
    dsimp only
    rw [Option.map_some']
    refine congrArg some ?_
    rw [wrp_update_fpr]
    dsimp only
    rw [Function.update_same]
    exact sld_generic _ 2 _ _ _ (Nat.mod_lt _ (by decide)) k hk
  · rw [msa_sld_df_eq2]
    dsimp only
    rw [Option.map_some']
    refine congrArg some ?_
    rw [wrp_update_fpr]
    dsimp only
    rw [Function.update_same]
    exact sld_generic _ 4 _ _ _ (Nat.mod_lt _ (by decide)) k hk
  · rw [msa_sld_df_eq3]
    dsimp only
    rw [Option.map_some']
    refine congrArg some ?_
    rw [wrp_update_fpr]
    dsimp only
    rw [Function.update_same]
    exact sld_generic _ 8 _ _ _ (Nat.mod_lt _ (by decide)) k hk

/-- Counterexample for C5 as stated: at `df = half` with `n = 1`, the code
slides slice 0 by one BYTE (result slice `0x0007060504030201`), not by one
16-bit element position as the spec's wording says (`0x0000070605040302`).
`sld_slice_spec_elems` is the element-position reading of the spec. -/
theorem claim_C5_counterexample :
    (helper_msa_sld_df envE 1 0 1 3).map (fun e => get_slice 8 0 (e.fpr 0)) ≠
      some (sld_slice_spec_elems 1 8 (envE.gpr 3 % DF_ELEMENTS 1)
        (get_slice 8 0 (envE.fpr 0)) (get_slice 8 0 (envE.fpr 1))) := by
  decide

/-- Witness for C5 (amended): `df = half`, distinct source bytes, `n = 1`. -/
theorem claim_C5_witness :
    (helper_msa_sld_df envE 1 0 1 3).map (fun e => get_slice (16 / 2 ^ 1) 0 (e.fpr 0)) =
      some (sld_slice_spec (16 / 2 ^ 1) (envE.gpr 3 % DF_ELEMENTS 1)
        (get_slice (16 / 2 ^ 1) 0 (envE.fpr 0)) (get_slice (16 / 2 ^ 1) 0 (envE.fpr 1))) :=
  claim_C5 1 envE 0 1 3 (by decide) 0 (by decide)

end MsaHelper
